import Mathlib

/-!
# Game engine: explicit-API (Vulkan) backend, mesh managers, device selection

A shallow embedding of the parts of the engine that the verified properties
talk about.  Driver calls are inputs of the embedded functions: every
function that calls into the graphics driver takes a record with the results
the driver gave, so a property that holds "whatever the driver returned" is a
property for every such record.

Machine integers are natural numbers, reduced modulo `2 ^ 32` where the
source computes in `uint32_t`.
-/

namespace Engine

/-! ## Driver vocabulary -/

/-- A `VkResult`: `VK_SUCCESS` is `0`, every other value is a failure or a
non-success status. -/
abbrev VkResult := Int

/-- The success code of the driver. -/
def VK_SUCCESS : VkResult := 0

/-- A driver object handle (`VkBuffer`, `VkDevice`, `VkQueue`, ...). -/
abbrev Handle := Nat

/-- The null handle. -/
def VK_NULL_HANDLE : Handle := 0

/-- The range of `uint32_t`. -/
def UINT32_RANGE : Nat := 2 ^ 32

/-! ## Frame cycle of `GraphicsAPI::Vulkan` (vulkan.cpp, lines 474-558) -/

namespace Vulkan

/-- The constant `GraphicsAPI::Vulkan::MAX_FRAMES_IN_FLIGHT` (vulkan.hpp, line 27). -/
def MAX_FRAMES_IN_FLIGHT : Nat := 3

/-- The frame bookkeeping of the backend.  `in_flight` is ghost state: one
entry per command buffer that was submitted and whose fence has not signaled
yet, holding the frame slot whose fence the submission signals. -/
structure FrameState where
  current_image_index : Nat
  current_frame_index : Nat
  in_flight : List Nat
  deriving DecidableEq, Repr

/-- The state after a successful `init`: both indices are `0`, the three
fences are created signaled and nothing has been submitted. -/
def FrameState.initial : FrameState :=
  { current_image_index := 0, current_frame_index := 0, in_flight := [] }

/-- What the driver answered to the calls of one `beginFrame`.
`acquiredImage` is the index `vkAcquireNextImageKHR` stores when it
succeeds. -/
structure BeginFrameDriver where
  waitForFences : VkResult
  acquireNextImage : VkResult
  acquiredImage : Nat
  resetFences : VkResult
  resetCommandBuffer : VkResult
  beginCommandBuffer : VkResult
  deriving DecidableEq, Repr

/-- What the driver answered to the calls of one `endFrame`. -/
structure EndFrameDriver where
  endCommandBuffer : VkResult
  resetFences : VkResult
  queueSubmit : VkResult
  queuePresent : VkResult
  deriving DecidableEq, Repr

/-- The function `GraphicsAPI::Vulkan::beginFrame`.

The source waits for the fence of slot `current_frame_index`, acquires the
next image into `current_image_index`, resets the fence, resets and begins
the command buffer of the acquired image and begins the render pass.  No
result of a driver call is inspected, and the function ends in
`return false;`.

Ghost effect of the wait: when `vkWaitForFences` (timeout `UINT64_MAX`)
returns `VK_SUCCESS` the fence of the slot has signaled, so no submission
that signals this fence is in flight any more. -/
def beginFrame (drv : BeginFrameDriver) (s : FrameState) : Bool × FrameState :=
  let f := s.current_frame_index
  let afterWait : List Nat :=
    if drv.waitForFences = VK_SUCCESS then s.in_flight.filter (fun slot => slot != f)
    else s.in_flight
  let image : Nat :=
    if drv.acquireNextImage = VK_SUCCESS then drv.acquiredImage % UINT32_RANGE
    else s.current_image_index
  (false, { s with current_image_index := image, in_flight := afterWait })

/-- The function `GraphicsAPI::Vulkan::endFrame`.

The source ends the render pass and the command buffer, resets the fence of
slot `current_frame_index`, submits the command buffer with that fence,
presents, advances `current_frame_index` in `uint32_t` arithmetic and ends in
`return false;`.  No result of a driver call is inspected.

Ghost effect of the submit: when `vkQueueSubmit` returns `VK_SUCCESS` one
more command buffer is in flight on the fence of the slot. -/
def endFrame (drv : EndFrameDriver) (s : FrameState) : Bool × FrameState :=
  let f := s.current_frame_index
  let afterSubmit : List Nat :=
    if drv.queueSubmit = VK_SUCCESS then s.in_flight ++ [f] else s.in_flight
  (false, { s with
    current_frame_index := ((f + 1) % UINT32_RANGE) % MAX_FRAMES_IN_FLIGHT,
    in_flight := afterSubmit })

/-- One call made on the backend by its owner. -/
inductive FrameCall where
  | beginFrame (drv : BeginFrameDriver)
  | endFrame (drv : EndFrameDriver)
  deriving DecidableEq, Repr

/-- The state after one call. -/
def FrameCall.apply (c : FrameCall) (s : FrameState) : FrameState :=
  match c with
  | .beginFrame drv => (Vulkan.beginFrame drv s).2
  | .endFrame drv => (Vulkan.endFrame drv s).2

/-- The state after a sequence of calls, first call first. -/
def runCalls (cs : List FrameCall) (s : FrameState) : FrameState :=
  cs.foldl (fun st c => c.apply st) s

/-- A driver that answers `VK_SUCCESS` to every call of `beginFrame`. -/
def BeginFrameDriver.allSuccess (image : Nat) : BeginFrameDriver :=
  { waitForFences := VK_SUCCESS, acquireNextImage := VK_SUCCESS, acquiredImage := image,
    resetFences := VK_SUCCESS, resetCommandBuffer := VK_SUCCESS,
    beginCommandBuffer := VK_SUCCESS }

/-- A driver that answers `VK_SUCCESS` to every call of `endFrame`. -/
def EndFrameDriver.allSuccess : EndFrameDriver :=
  { endCommandBuffer := VK_SUCCESS, resetFences := VK_SUCCESS,
    queueSubmit := VK_SUCCESS, queuePresent := VK_SUCCESS }

/-- Something the graphics processor does between two calls of the backend:
the fence of `slot` signals, which completes every submission made with that
fence. -/
inductive FrameEvent where
  | gpuSignal (slot : Nat)
  | call (c : FrameCall)
  deriving DecidableEq, Repr

/-- The state after one event. -/
def FrameEvent.apply (e : FrameEvent) (s : FrameState) : FrameState :=
  match e with
  | .gpuSignal slot => { s with in_flight := s.in_flight.filter (fun x => x != slot) }
  | .call c => c.apply s

/-- Every state the backend goes through during a run, the starting state
first. -/
def trace : List FrameEvent → FrameState → List FrameState
  | [], s => [s]
  | e :: es, s => s :: trace es (e.apply s)

/-- A run of consecutive `beginFrame`/`endFrame` cycles: the calls alternate,
a `beginFrame` first, with fence signals anywhere in between.  `recording`
tells whether a `beginFrame` is waiting for its `endFrame`. -/
def isCycles (recording : Bool) : List FrameEvent → Bool
  | [] => true
  | .gpuSignal _ :: es => isCycles recording es
  | .call (.beginFrame _) :: es => !recording && isCycles true es
  | .call (.endFrame _) :: es => recording && isCycles false es

/-- Every fence wait of the run returned `VK_SUCCESS`. -/
def waitsSucceed : List FrameEvent → Bool
  | [] => true
  | .call (.beginFrame drv) :: es => decide (drv.waitForFences = VK_SUCCESS) && waitsSucceed es
  | _ :: es => waitsSucceed es

/-- One full cycle in which every driver call succeeds and no fence signals
on its own. -/
def successCycle : List FrameEvent :=
  [.call (.beginFrame (BeginFrameDriver.allSuccess 0)), .call (.endFrame EndFrameDriver.allSuccess)]

/-- One full cycle whose fence wait fails with `VK_ERROR_DEVICE_LOST` (`-4`)
while every other driver call succeeds. -/
def failedWaitCycle : List FrameEvent :=
  [.call (.beginFrame { BeginFrameDriver.allSuccess 0 with waitForFences := -4 }),
   .call (.endFrame EndFrameDriver.allSuccess)]

/-- The bookkeeping invariant of the frame cycle: the frame index is a slot,
at most one submission is in flight per slot fence, and while a frame is
being recorded nothing is in flight on the fence of its slot. -/
def FrameInv (recording : Bool) (s : FrameState) : Prop :=
  s.current_frame_index < MAX_FRAMES_IN_FLIGHT ∧
  s.in_flight.Nodup ∧
  (∀ x ∈ s.in_flight, x < MAX_FRAMES_IN_FLIGHT) ∧
  (recording = true → s.current_frame_index ∉ s.in_flight)

end Vulkan

/-! ## The legacy backend's frame calls (opengl.cpp, lines 97-105) -/

namespace OpenGL

/-- The function `GraphicsAPI::OpenGL::beginFrame`: clears and returns `true`. -/
def beginFrame : Bool := true

/-- The function `GraphicsAPI::OpenGL::endFrame`: swaps buffers and returns `true`. -/
def endFrame : Bool := true

end OpenGL

/-! ## `Renderer` frame calls and the main loop (renderer.cpp, engine.cpp) -/

namespace Renderer

/-- The function `Renderer::beginFrame`: calls the backend's `beginFrame`,
drops what it returned, and returns `false`. -/
def beginFrame (backendResult : Bool) : Bool :=
  let _dropped := backendResult
  false

/-- The function `Renderer::endFrame`: calls the backend's `endFrame`, drops
what it returned, and returns `false`. -/
def endFrame (backendResult : Bool) : Bool :=
  let _dropped := backendResult
  false

/-- The function `Renderer::updateUniformBuffer`: returns what the backend's
`updateUBO` returned. -/
def updateUniformBuffer (backendResult : Bool) : Bool := backendResult

end Renderer

namespace Instance

/-- What the window, the timer, the application and the backend answer during
one iteration of the main loop. -/
structure LoopInputs where
  shouldClose : Bool
  onUpdate : Bool
  shouldTick : Bool
  backendBeginFrame : Bool
  backendUpdateUBO : Bool
  onRender : Bool
  backendEndFrame : Bool
  deriving DecidableEq, Repr

/-- The observable steps of `Instance::run`. -/
inductive RunEvent where
  | onInit | pollEvents | onUpdate | onTick | beginFrame | updateUniformBuffer
  | onRender | endFrame | windowUpdate | returned
  deriving DecidableEq, Repr

/-- The `while (!window->shouldClose())` loop of `Instance::run`, one element
of the list per iteration.  The results of `renderer->beginFrame()` and
`renderer->endFrame()` are expression statements: nothing reads them. -/
def mainLoop : List LoopInputs → List RunEvent
  | [] => []
  | inp :: rest =>
    if inp.shouldClose then [.returned]
    else
      [.pollEvents, .onUpdate] ++
      (if !inp.onUpdate then [.returned]
       else
        (if inp.shouldTick then [.onTick] else []) ++
        (let _begun := Renderer.beginFrame inp.backendBeginFrame
         [.beginFrame, .updateUniformBuffer] ++
         (if !Renderer.updateUniformBuffer inp.backendUpdateUBO then [.returned]
          else
           [.onRender] ++
           (if !inp.onRender then [.returned]
            else
             (let _ended := Renderer.endFrame inp.backendEndFrame
              [.endFrame, .windowUpdate] ++ mainLoop rest)))))

/-- The function `Instance::run`: the application's `onInit`, then the main
loop. -/
def run (onInit : Bool) (inputs : List LoopInputs) : List RunEvent :=
  .onInit :: (if !onInit then [.returned] else mainLoop inputs)

/-- One iteration on the Vulkan backend: `beginFrame` and `endFrame` return
`false`, `updateUBO` returns `true`, the application keeps going. -/
def vulkanIteration : LoopInputs :=
  { shouldClose := false, onUpdate := true, shouldTick := false,
    backendBeginFrame := false, backendUpdateUBO := true, onRender := true,
    backendEndFrame := false }

end Instance

/-! ## Buffer allocation of `GraphicsAPI::Vulkan` (vulkan.cpp, lines 593-775) -/

namespace Vulkan

/-- The value `std::numeric_limits<uint32_t>::max()`. -/
def UINT32_MAX : Nat := UINT32_RANGE - 1

/-- The flag `VK_BUFFER_USAGE_TRANSFER_SRC_BIT`. -/
def VK_BUFFER_USAGE_TRANSFER_SRC_BIT : Nat := 0x1
/-- The flag `VK_BUFFER_USAGE_TRANSFER_DST_BIT`. -/
def VK_BUFFER_USAGE_TRANSFER_DST_BIT : Nat := 0x2
/-- The flag `VK_BUFFER_USAGE_INDEX_BUFFER_BIT`. -/
def VK_BUFFER_USAGE_INDEX_BUFFER_BIT : Nat := 0x40
/-- The flag `VK_BUFFER_USAGE_VERTEX_BUFFER_BIT`. -/
def VK_BUFFER_USAGE_VERTEX_BUFFER_BIT : Nat := 0x80
/-- The flag `VK_MEMORY_PROPERTY_DEVICE_LOCAL_BIT`. -/
def VK_MEMORY_PROPERTY_DEVICE_LOCAL_BIT : Nat := 0x1
/-- The flag `VK_MEMORY_PROPERTY_HOST_VISIBLE_BIT`. -/
def VK_MEMORY_PROPERTY_HOST_VISIBLE_BIT : Nat := 0x2
/-- The flag `VK_MEMORY_PROPERTY_HOST_COHERENT_BIT`. -/
def VK_MEMORY_PROPERTY_HOST_COHERENT_BIT : Nat := 0x4

/-- The loop of `findMemoryType` from index `i` on, over the property flags
of the remaining memory types. -/
def findMemoryTypeFrom (type_filter properties : Nat) : Nat → List Nat → Nat
  | _, [] => UINT32_MAX
  | i, flags :: rest =>
    if (type_filter &&& ((1 <<< i) % UINT32_RANGE)) ≠ 0 ∧ (flags &&& properties) = properties
    then i
    else findMemoryTypeFrom type_filter properties (i + 1) rest

/-- The function `GraphicsAPI::Vulkan::findMemoryType`; `memoryTypes` holds
the `propertyFlags` of the device's memory types, in index order. -/
def findMemoryType (memoryTypes : List Nat) (type_filter properties : Nat) : Nat :=
  findMemoryTypeFrom type_filter properties 0 memoryTypes

/-- What the driver answered to the calls of one `createRawBuffer`. -/
structure RawBufferDriver where
  createBuffer : VkResult
  bufferHandle : Handle
  memoryTypeBits : Nat
  memoryTypes : List Nat
  allocateMemory : VkResult
  memoryHandle : Handle
  bindBufferMemory : VkResult
  deriving DecidableEq, Repr

/-- The function `GraphicsAPI::Vulkan::createRawBuffer`.  `buffer` and
`memory` are the values the two reference parameters have on entry; the
result holds the return value and their values on exit. -/
def createRawBuffer (drv : RawBufferDriver) (_size _usage properties : Nat)
    (buffer memory : Handle) : Bool × Handle × Handle :=
  if drv.createBuffer ≠ VK_SUCCESS then (false, buffer, memory)
  else
    let buffer := drv.bufferHandle
    let memory_type := findMemoryType drv.memoryTypes drv.memoryTypeBits properties
    if memory_type = UINT32_MAX then (false, buffer, memory)
    else if drv.allocateMemory ≠ VK_SUCCESS then (false, buffer, memory)
    else
      let memory := drv.memoryHandle
      if drv.bindBufferMemory ≠ VK_SUCCESS then (false, buffer, memory)
      else (true, buffer, memory)

/-- What the driver answered to the calls of one `createBuffer`. -/
structure CreateBufferDriver where
  staging : RawBufferDriver
  destination : RawBufferDriver
  allocateCommandBuffers : VkResult
  commandBufferHandle : Handle
  beginCommandBuffer : VkResult
  endCommandBuffer : VkResult
  queueSubmit : VkResult
  queueWaitIdle : VkResult
  deriving DecidableEq, Repr

/-- The function `GraphicsAPI::Vulkan::beginSingleTimeCommands`. -/
def beginSingleTimeCommands (drv : CreateBufferDriver) : Handle :=
  if drv.allocateCommandBuffers ≠ VK_SUCCESS then VK_NULL_HANDLE
  else if drv.beginCommandBuffer ≠ VK_SUCCESS then VK_NULL_HANDLE
  else drv.commandBufferHandle

/-- The function `GraphicsAPI::Vulkan::endSingleTimeCommands`. -/
def endSingleTimeCommands (drv : CreateBufferDriver) (_command_buffer : Handle) : Bool :=
  if drv.endCommandBuffer ≠ VK_SUCCESS then false
  else if drv.queueSubmit ≠ VK_SUCCESS then false
  else if drv.queueWaitIdle ≠ VK_SUCCESS then false
  else true

/-- The function `GraphicsAPI::Vulkan::createBuffer`: a staging buffer, then
the destination buffer written through the reference parameters, then the
one-shot copy. -/
def createBuffer (drv : CreateBufferDriver) (size usage : Nat) (buffer memory : Handle) :
    Bool × Handle × Handle :=
  let staged := createRawBuffer drv.staging size VK_BUFFER_USAGE_TRANSFER_SRC_BIT
    (VK_MEMORY_PROPERTY_HOST_VISIBLE_BIT ||| VK_MEMORY_PROPERTY_HOST_COHERENT_BIT)
    VK_NULL_HANDLE VK_NULL_HANDLE
  if !staged.1 then (false, buffer, memory)
  else
    let made := createRawBuffer drv.destination size (VK_BUFFER_USAGE_TRANSFER_DST_BIT ||| usage)
      VK_MEMORY_PROPERTY_DEVICE_LOCAL_BIT buffer memory
    if !made.1 then (false, made.2.1, made.2.2)
    else
      let command_buffer := beginSingleTimeCommands drv
      if command_buffer = VK_NULL_HANDLE then (false, made.2.1, made.2.2)
      else if !endSingleTimeCommands drv command_buffer then (false, made.2.1, made.2.2)
      else (true, made.2.1, made.2.2)

/-- A `createRawBuffer` driver on which every call succeeds: one memory type
with every property, accepted by the buffer. -/
def RawBufferDriver.allSuccess (buffer memory : Handle) : RawBufferDriver :=
  { createBuffer := VK_SUCCESS, bufferHandle := buffer, memoryTypeBits := 1,
    memoryTypes := [7], allocateMemory := VK_SUCCESS, memoryHandle := memory,
    bindBufferMemory := VK_SUCCESS }

/-- A `createBuffer` driver on which every call succeeds; the destination
buffer gets the handles `buffer` and `memory`. -/
def CreateBufferDriver.allSuccess (buffer memory : Handle) : CreateBufferDriver :=
  { staging := RawBufferDriver.allSuccess 1000 1001,
    destination := RawBufferDriver.allSuccess buffer memory,
    allocateCommandBuffers := VK_SUCCESS, commandBufferHandle := 2000,
    beginCommandBuffer := VK_SUCCESS, endCommandBuffer := VK_SUCCESS,
    queueSubmit := VK_SUCCESS, queueWaitIdle := VK_SUCCESS }

end Vulkan

/-! ## Meshes (mesh.hpp) -/

/-- A 32-bit float, kept as its bit pattern; the managers only copy them. -/
abbrev F32 := Nat

/-- The bit pattern of `1.0f`. -/
def F32.one : F32 := 0x3F800000

/-- A `glm::vec3`. -/
structure Vec3 where
  x : F32
  y : F32
  z : F32
  deriving DecidableEq, Repr

/-- A `glm::vec2`. -/
structure Vec2 where
  x : F32
  y : F32
  deriving DecidableEq, Repr

/-- The struct `Mesh::Vertex`. -/
structure Mesh.Vertex where
  position : Vec3
  color : Vec3
  uv : Vec2
  normal : Vec3
  deriving DecidableEq, Repr

/-- The class `Mesh`: the CPU-side vertex and index lists. -/
structure Mesh where
  vertices : List Mesh.Vertex
  indices : List Nat
  deriving DecidableEq, Repr

/-- The byte size of `Mesh::Vertex`: eleven floats. -/
def Mesh.sizeofVertex : Nat := 44

/-- The byte size of `Mesh::Index`. -/
def Mesh.sizeofIndex : Nat := 4

/-- The struct `MeshInfo::Vulkan` with the fields of its base `MeshInfo`. -/
structure MeshInfo.Vulkan where
  cpu_vertices : List Mesh.Vertex
  cpu_indices : List Nat
  gpu_uploaded : Bool := false
  alive : Bool := true
  vertex_buffer : Handle := VK_NULL_HANDLE
  index_buffer : Handle := VK_NULL_HANDLE
  vertex_memory : Handle := VK_NULL_HANDLE
  index_memory : Handle := VK_NULL_HANDLE
  deriving DecidableEq, Repr

/-! ## `MeshManager::Vulkan` (vkmesh.cpp) -/

/-- One call of `GraphicsAPI::Vulkan::createBuffer` as the mesh manager makes
it: the byte size and the usage flag. -/
structure CreateBufferCall where
  size : Nat
  usage : Nat
  deriving DecidableEq, Repr

/-- The class `MeshManager::Vulkan`: the tracked entries, and as ghost state
the log of every `createBuffer` call made so far. -/
structure MeshManager.Vulkan where
  meshes : List MeshInfo.Vulkan
  createBuffer_log : List CreateBufferCall
  deriving DecidableEq, Repr

namespace MeshManager.Vulkan

/-- The answers of the driver to the `createBuffer` calls of the manager, by
the number of calls made before. -/
abbrev Allocator := Nat → Engine.Vulkan.CreateBufferDriver

/-- A freshly constructed manager. -/
def empty : MeshManager.Vulkan := { meshes := [], createBuffer_log := [] }

/-- The function `MeshManager::Vulkan::addMesh`: the handle is
`meshes.size()` converted to the 32-bit `Mesh::Handle`. -/
def addMesh (mesh : Mesh) (s : MeshManager.Vulkan) : Nat × MeshManager.Vulkan :=
  let data : MeshInfo.Vulkan :=
    { cpu_vertices := mesh.vertices, cpu_indices := mesh.indices,
      gpu_uploaded := false, alive := true }
  let handle := s.meshes.length % UINT32_RANGE
  (handle, { s with meshes := s.meshes ++ [data] })

/-- The vertex half of one iteration of `uploadPending`: when the vertex list
is not empty, `createBuffer` writes `vertex_buffer` and `vertex_memory`; its
return value is dropped. -/
def uploadVertices (drv : Allocator) (m : MeshInfo.Vulkan) (log : List CreateBufferCall) :
    MeshInfo.Vulkan × List CreateBufferCall :=
  if m.cpu_vertices.isEmpty then (m, log)
  else
    let size := (m.cpu_vertices.length * Mesh.sizeofVertex) % UINT32_RANGE
    let r := Engine.Vulkan.createBuffer (drv log.length) size
      Engine.Vulkan.VK_BUFFER_USAGE_VERTEX_BUFFER_BIT m.vertex_buffer m.vertex_memory
    ({ m with vertex_buffer := r.2.1, vertex_memory := r.2.2 },
     log ++ [{ size := size, usage := Engine.Vulkan.VK_BUFFER_USAGE_VERTEX_BUFFER_BIT }])

/-- The index half of one iteration of `uploadPending`. -/
def uploadIndices (drv : Allocator) (m : MeshInfo.Vulkan) (log : List CreateBufferCall) :
    MeshInfo.Vulkan × List CreateBufferCall :=
  if m.cpu_indices.isEmpty then (m, log)
  else
    let size := (m.cpu_indices.length * Mesh.sizeofIndex) % UINT32_RANGE
    let r := Engine.Vulkan.createBuffer (drv log.length) size
      Engine.Vulkan.VK_BUFFER_USAGE_INDEX_BUFFER_BIT m.index_buffer m.index_memory
    ({ m with index_buffer := r.2.1, index_memory := r.2.2 },
     log ++ [{ size := size, usage := Engine.Vulkan.VK_BUFFER_USAGE_INDEX_BUFFER_BIT }])

/-- One iteration of the loop of `uploadPending`. -/
def uploadMesh (drv : Allocator) (m : MeshInfo.Vulkan) (log : List CreateBufferCall) :
    MeshInfo.Vulkan × List CreateBufferCall :=
  if !m.alive || m.gpu_uploaded then (m, log)
  else
    let v := uploadVertices drv m log
    let i := uploadIndices drv v.1 v.2
    ({ i.1 with gpu_uploaded := true }, i.2)

/-- The loop of `uploadPending` over the tracked entries, in order. -/
def uploadLoop (drv : Allocator) :
    List MeshInfo.Vulkan → List CreateBufferCall → List MeshInfo.Vulkan × List CreateBufferCall
  | [], log => ([], log)
  | m :: ms, log =>
    let first := uploadMesh drv m log
    let others := uploadLoop drv ms first.2
    (first.1 :: others.1, others.2)

/-- The function `MeshManager::Vulkan::uploadPending`. -/
def uploadPending (drv : Allocator) (s : MeshManager.Vulkan) : MeshManager.Vulkan :=
  let r := uploadLoop drv s.meshes s.createBuffer_log
  { meshes := r.1, createBuffer_log := r.2 }

/-- The function `MeshManager::get`: the entry of a handle; `none` stands for
the failed assertion on a handle outside the tracked set. -/
def get (handle : Nat) (s : MeshManager.Vulkan) : Option MeshInfo.Vulkan :=
  if handle < s.meshes.length then s.meshes[handle]? else none

/-- One operation on the manager. -/
inductive Op where
  | addMesh (mesh : Mesh)
  | uploadPending (drv : Allocator)

/-- The state after one operation. -/
def Op.apply (op : Op) (s : MeshManager.Vulkan) : MeshManager.Vulkan :=
  match op with
  | .addMesh mesh => (MeshManager.Vulkan.addMesh mesh s).2
  | .uploadPending drv => MeshManager.Vulkan.uploadPending drv s

/-- The state after a sequence of operations, first operation first. -/
def runOps (ops : List Op) (s : MeshManager.Vulkan) : MeshManager.Vulkan :=
  ops.foldl (fun st op => op.apply st) s

/-- The number of `addMesh` operations in a sequence. -/
def countAdd : List Op → Nat
  | [] => 0
  | .addMesh _ :: ops => countAdd ops + 1
  | .uploadPending _ :: ops => countAdd ops

/-- Every `createBuffer` call answered by the allocator succeeds and yields a
non-null buffer handle. -/
def AllocatorSucceeds (drv : Allocator) : Prop :=
  ∀ (n size usage : Nat) (buffer memory : Handle),
    (Engine.Vulkan.createBuffer (drv n) size usage buffer memory).1 = true ∧
    (Engine.Vulkan.createBuffer (drv n) size usage buffer memory).2.1 ≠ VK_NULL_HANDLE

/-- Every `uploadPending` of the sequence ran on an allocator that succeeds. -/
def AllocationsSucceed : List Op → Prop
  | [] => True
  | .addMesh _ :: ops => AllocationsSucceed ops
  | .uploadPending drv :: ops => AllocatorSucceeds drv ∧ AllocationsSucceed ops

/-- A triangle: three vertices and three indices. -/
def triangle : Mesh :=
  { vertices := [⟨⟨0, 0, 0⟩, ⟨1, 1, 1⟩, ⟨0, 0⟩, ⟨0, 0, 1⟩⟩,
                 ⟨⟨1, 0, 0⟩, ⟨1, 1, 1⟩, ⟨1, 0⟩, ⟨0, 0, 1⟩⟩,
                 ⟨⟨0, 1, 0⟩, ⟨1, 1, 1⟩, ⟨0, 1⟩, ⟨0, 0, 1⟩⟩],
    indices := [0, 1, 2] }

/-- A mesh without vertices and indices. -/
def emptyMesh : Mesh := { vertices := [], indices := [] }

/-- An allocator on which every call succeeds, with fresh handles per call. -/
def goodAllocator : Allocator :=
  fun n => Engine.Vulkan.CreateBufferDriver.allSuccess (2 * n + 10) (2 * n + 11)

/-- An allocator whose every `vkCreateBuffer` fails with
`VK_ERROR_OUT_OF_DEVICE_MEMORY` (`-2`). -/
def failingAllocator : Allocator :=
  fun _ => { Engine.Vulkan.CreateBufferDriver.allSuccess 0 0 with
    staging := { Engine.Vulkan.RawBufferDriver.allSuccess 0 0 with createBuffer := -2 } }

/-- An entry the loop of `uploadPending` passes over: not alive, or already
uploaded. -/
def Settled (m : MeshInfo.Vulkan) : Prop := (!m.alive || m.gpu_uploaded) = true

/-- The part of the buffer bookkeeping that holds whatever the allocator
returns: an entry that is not uploaded has no buffer, and an entry without
vertex (index) data has no vertex (index) buffer. -/
def BuffersImplyUploaded (m : MeshInfo.Vulkan) : Prop :=
  (m.gpu_uploaded = false → m.vertex_buffer = VK_NULL_HANDLE ∧ m.index_buffer = VK_NULL_HANDLE) ∧
  (m.cpu_vertices = [] → m.vertex_buffer = VK_NULL_HANDLE) ∧
  (m.cpu_indices = [] → m.index_buffer = VK_NULL_HANDLE) ∧
  m.alive = true

/-- The part of the buffer bookkeeping that needs a succeeding allocator: an
uploaded entry has a buffer for each non-empty data list. -/
def UploadedHasBuffers (m : MeshInfo.Vulkan) : Prop :=
  m.gpu_uploaded = true →
    (m.cpu_vertices ≠ [] → m.vertex_buffer ≠ VK_NULL_HANDLE) ∧
    (m.cpu_indices ≠ [] → m.index_buffer ≠ VK_NULL_HANDLE)

end MeshManager.Vulkan

/-! ## `MeshManager::OpenGL` (glmesh.cpp) -/

/-- The struct `MeshInfo::OpenGL` with the fields of its base `MeshInfo`. -/
structure MeshInfo.OpenGL where
  cpu_vertices : List Mesh.Vertex
  cpu_indices : List Nat
  gpu_uploaded : Bool := false
  alive : Bool := true
  vao : Nat := 0
  vbo : Nat := 0
  ibo : Nat := 0
  deriving DecidableEq, Repr

/-- The driver calls of `MeshManager::OpenGL::uploadPending`, with the
arguments that tell them apart. -/
inductive GLCall where
  | genVertexArrays (name : Nat)
  | genBuffers (name : Nat)
  | bindVertexArray (vao : Nat)
  | bindArrayBuffer (vbo : Nat)
  | bindElementArrayBuffer (ibo : Nat)
  | arrayBufferData (bytes : Nat)
  | elementArrayBufferData (bytes : Nat)
  | enableVertexAttribArray (location : Nat)
  | vertexAttribPointer (location components offset : Nat)
  deriving DecidableEq, Repr

/-- The class `MeshManager::OpenGL`: the tracked entries, and as ghost state
the log of every driver call made so far. -/
structure MeshManager.OpenGL where
  meshes : List MeshInfo.OpenGL
  gl_log : List GLCall
  deriving DecidableEq, Repr

namespace MeshManager.OpenGL

/-- The object names `glGenVertexArrays` and `glGenBuffers` hand out, by the
number of names handed out before. -/
abbrev NameSource := Nat → Nat

/-- The number of object names the driver has handed out so far. -/
def generated (log : List GLCall) : Nat :=
  log.countP (fun c =>
    match c with
    | .genVertexArrays _ => true
    | .genBuffers _ => true
    | _ => false)

/-- A freshly constructed manager. -/
def empty : MeshManager.OpenGL := { meshes := [], gl_log := [] }

/-- The function `MeshManager::OpenGL::addMesh`. -/
def addMesh (mesh : Mesh) (s : MeshManager.OpenGL) : Nat × MeshManager.OpenGL :=
  let mesh_data : MeshInfo.OpenGL :=
    { cpu_vertices := mesh.vertices, cpu_indices := mesh.indices }
  let handle := s.meshes.length % UINT32_RANGE
  (handle, { s with meshes := s.meshes ++ [mesh_data] })

/-- The byte offset of `color` in `Mesh::Vertex`. -/
def offsetofColor : Nat := 12
/-- The byte offset of `uv` in `Mesh::Vertex`. -/
def offsetofUv : Nat := 24
/-- The byte offset of `normal` in `Mesh::Vertex`. -/
def offsetofNormal : Nat := 32

/-- The body of the loop of `uploadPending` for one entry: three fresh object
names, two buffer uploads and the four attribute bindings.  Nothing is
tested before the body runs. -/
def uploadMesh (names : NameSource) (m : MeshInfo.OpenGL) (log : List GLCall) :
    MeshInfo.OpenGL × List GLCall :=
  let vao := names (generated log)
  let vbo := names (generated log + 1)
  let ibo := names (generated log + 2)
  ({ m with vao := vao, vbo := vbo, ibo := ibo },
   log ++
    [.genVertexArrays vao, .genBuffers vbo, .genBuffers ibo,
     .bindVertexArray vao, .bindArrayBuffer vbo,
     .arrayBufferData (m.cpu_vertices.length * Mesh.sizeofVertex),
     .bindElementArrayBuffer ibo,
     .elementArrayBufferData (m.cpu_indices.length * Mesh.sizeofIndex),
     .enableVertexAttribArray 0, .vertexAttribPointer 0 3 0,
     .enableVertexAttribArray 1, .vertexAttribPointer 1 3 offsetofColor,
     .enableVertexAttribArray 2, .vertexAttribPointer 2 3 offsetofNormal,
     .enableVertexAttribArray 3, .vertexAttribPointer 3 2 offsetofUv])

/-- The loop of `uploadPending` over the tracked entries, in order. -/
def uploadLoop (names : NameSource) :
    List MeshInfo.OpenGL → List GLCall → List MeshInfo.OpenGL × List GLCall
  | [], log => ([], log)
  | m :: ms, log =>
    let first := uploadMesh names m log
    let others := uploadLoop names ms first.2
    (first.1 :: others.1, others.2)

/-- The function `MeshManager::OpenGL::uploadPending`. -/
def uploadPending (names : NameSource) (s : MeshManager.OpenGL) : MeshManager.OpenGL :=
  let r := uploadLoop names s.meshes s.gl_log
  { meshes := r.1, gl_log := r.2 }

/-- A driver that hands out the names 1, 2, 3, ... in the order of the
calls. -/
def freshNames : NameSource := fun n => n + 1

/-- The manager after one triangle was added and uploaded once. -/
def uploadedOnce : MeshManager.OpenGL :=
  uploadPending freshNames (addMesh MeshManager.Vulkan.triangle empty).2

end MeshManager.OpenGL

/-! ## `GraphicsAPI::Vulkan::DeviceManager` (vkdevice.cpp) -/

/-- The flag `VK_QUEUE_GRAPHICS_BIT`. -/
def VK_QUEUE_GRAPHICS_BIT : Nat := 0x1

/-- The name `VK_KHR_SWAPCHAIN_EXTENSION_NAME`. -/
def VK_KHR_SWAPCHAIN_EXTENSION_NAME : String := "VK_KHR_swapchain"

/-- One queue family as the driver reports it: its `queueFlags`, and what
`vkGetPhysicalDeviceSurfaceSupportKHR` returns and stores for it. -/
structure QueueFamily where
  queueFlags : Nat
  surfaceSupportResult : VkResult
  present_support : Bool
  deriving DecidableEq, Repr

/-- One physical device as the driver reports it. -/
structure PhysicalDevice where
  handle : Handle
  families : List QueueFamily
  deriving DecidableEq, Repr

/-- The data members of `DeviceManager` (vkdevice.hpp, lines 52-62); the
member `instance` is named `instance_handle` here. -/
structure DeviceManager where
  device : Handle := VK_NULL_HANDLE
  physical_device : Handle := VK_NULL_HANDLE
  graphics_queue : Handle := VK_NULL_HANDLE
  present_queue : Handle := VK_NULL_HANDLE
  graphics_queue_family : Option Nat := none
  present_queue_family : Option Nat := none
  instance_handle : Handle := VK_NULL_HANDLE
  surface : Handle := VK_NULL_HANDLE
  deriving DecidableEq, Repr

namespace DeviceManager

/-- The loop of `findQueueFamilies` from family index `i` on.  It writes the
members `graphics_queue_family` and `present_queue_family` of the manager. -/
def findQueueFamiliesFrom : Nat → List QueueFamily → DeviceManager → Bool × DeviceManager
  | _, [], s => (false, s)
  | i, family :: rest, s =>
    let s1 : DeviceManager :=
      if family.queueFlags &&& VK_QUEUE_GRAPHICS_BIT ≠ 0
      then { s with graphics_queue_family := some i } else s
    if family.surfaceSupportResult ≠ VK_SUCCESS then (false, s1)
    else
      let s2 : DeviceManager :=
        if family.present_support then { s1 with present_queue_family := some i } else s1
      if s2.graphics_queue_family.isSome && s2.present_queue_family.isSome then (true, s2)
      else findQueueFamiliesFrom (i + 1) rest s2

/-- The function `DeviceManager::findQueueFamilies`. -/
def findQueueFamilies (device : PhysicalDevice) (s : DeviceManager) : Bool × DeviceManager :=
  findQueueFamiliesFrom 0 device.families s

/-- The function `DeviceManager::isDeviceSuitable`. -/
def isDeviceSuitable (device : PhysicalDevice) (s : DeviceManager) : Bool × DeviceManager :=
  findQueueFamilies device s

/-- The loop of `pickPhysicalDevice` over the candidates, in enumeration
order. -/
def pickLoop : List PhysicalDevice → DeviceManager → Bool × DeviceManager
  | [], s => (false, s)
  | candidate :: rest, s =>
    let r := isDeviceSuitable candidate s
    if !r.1 then pickLoop rest r.2
    else (true, { r.2 with physical_device := candidate.handle })

/-- What the driver answered to the two `vkEnumeratePhysicalDevices` calls. -/
structure EnumerateDriver where
  countResult : VkResult
  listResult : VkResult
  devices : List PhysicalDevice
  deriving DecidableEq, Repr

/-- The function `DeviceManager::pickPhysicalDevice`. -/
def pickPhysicalDevice (drv : EnumerateDriver) (s : DeviceManager) : Bool × DeviceManager :=
  if drv.countResult ≠ VK_SUCCESS then (false, s)
  else if drv.devices.length = 0 then (false, s)
  else if drv.listResult ≠ VK_SUCCESS then (false, s)
  else pickLoop drv.devices s

/-- A device exposes a graphics-capable queue family. -/
def hasGraphicsFamily (device : PhysicalDevice) : Bool :=
  device.families.any (fun family => family.queueFlags &&& VK_QUEUE_GRAPHICS_BIT ≠ 0)

/-- A device exposes a queue family able to present to the surface. -/
def hasPresentFamily (device : PhysicalDevice) : Bool :=
  device.families.any (fun family => family.present_support)

/-- One entry of `queue_infos`: the family, the queue count and the priority
that `pQueuePriorities` points to. -/
structure DeviceQueueCreateInfo where
  queueFamilyIndex : Nat
  queueCount : Nat
  priority : F32
  deriving DecidableEq, Repr

/-- The part of `VkDeviceCreateInfo` handed to `vkCreateDevice`. -/
structure DeviceCreateInfo where
  queue_infos : List DeviceQueueCreateInfo
  enabled_extensions : List String
  deriving DecidableEq, Repr

/-- Insertion into a `std::set<uint32_t>`, kept as a strictly increasing
list. -/
def setInsert (x : Nat) : List Nat → List Nat
  | [] => [x]
  | y :: ys =>
    if x < y then x :: y :: ys
    else if x = y then y :: ys
    else y :: setInsert x ys

/-- The function `DeviceManager::checkDeviceExtensionSupport`, on the list of
extension names the driver reports for the device. -/
def checkDeviceExtensionSupport (available required : List String) : Bool :=
  required.all (fun ext => available.any (fun name => name == ext))

/-- What the driver answers to the calls of `createLogicalDevice`: the
extension names of a physical device, the result and handle of
`vkCreateDevice`, and the queue `vkGetDeviceQueue` stores for a device, a
family and a queue index. -/
structure LogicalDeviceDriver where
  deviceExtensions : Handle → List String
  createDevice : VkResult
  deviceHandle : Handle
  getDeviceQueue : Handle → Nat → Nat → Handle

/-- The outcome of `createLogicalDevice`: its return value, the manager, and
as ghost state the create info it passed to `vkCreateDevice`, if it got that
far. -/
structure LogicalDeviceResult where
  ok : Bool
  manager : DeviceManager
  request : Option DeviceCreateInfo

/-- The function `DeviceManager::createLogicalDevice`. -/
def createLogicalDevice (drv : LogicalDeviceDriver) (s : DeviceManager) : LogicalDeviceResult :=
  match s.graphics_queue_family, s.present_queue_family with
  | some graphics, some present =>
    let unique_families := setInsert present (setInsert graphics [])
    let priority := F32.one
    let queue_infos : List DeviceQueueCreateInfo :=
      unique_families.map (fun family =>
        { queueFamilyIndex := family, queueCount := 1, priority := priority })
    let required_extensions := [VK_KHR_SWAPCHAIN_EXTENSION_NAME]
    if !checkDeviceExtensionSupport (drv.deviceExtensions s.physical_device) required_extensions
    then { ok := false, manager := s, request := none }
    else
      let device_info : DeviceCreateInfo :=
        { queue_infos := queue_infos, enabled_extensions := required_extensions }
      if drv.createDevice ≠ VK_SUCCESS
      then { ok := false, manager := s, request := some device_info }
      else
        let device := drv.deviceHandle
        { ok := true,
          manager := { s with
            device := device,
            graphics_queue := drv.getDeviceQueue device graphics 0,
            present_queue := drv.getDeviceQueue device present 0 },
          request := some device_info }
  | _, _ => { ok := false, manager := s, request := none }

/-- A device whose only queue family supports graphics and cannot present. -/
def graphicsOnlyDevice : PhysicalDevice :=
  { handle := 101,
    families := [{ queueFlags := 0x1, surfaceSupportResult := VK_SUCCESS,
                   present_support := false }] }

/-- A device whose only queue family (transfer only) can present and does not
support graphics. -/
def presentOnlyDevice : PhysicalDevice :=
  { handle := 102,
    families := [{ queueFlags := 0x4, surfaceSupportResult := VK_SUCCESS,
                   present_support := true }] }

/-- A driver that creates the device `7` and numbers its queues by family
and index. -/
def simpleDriver : LogicalDeviceDriver :=
  { deviceExtensions := fun _ => ["VK_KHR_maintenance1", "VK_KHR_swapchain"],
    createDevice := VK_SUCCESS,
    deviceHandle := 7,
    getDeviceQueue := fun device family index => 1000 * device + 10 * family + index + 1 }

/-- The outcome of `DeviceManager::init`: its return value, the manager, and
as ghost state the create info passed to `vkCreateDevice`, if any. -/
structure InitResult where
  ok : Bool
  manager : DeviceManager
  request : Option DeviceCreateInfo

/-- The function `DeviceManager::init`: stores the instance and the surface,
picks a physical device once and then creates the logical device on it. -/
def init (instance_handle surface : Handle) (enumerated : EnumerateDriver)
    (drv : LogicalDeviceDriver) (s : DeviceManager) : InitResult :=
  let s0 : DeviceManager := { s with instance_handle := instance_handle, surface := surface }
  let picked := pickPhysicalDevice enumerated s0
  if !picked.1 then { ok := false, manager := picked.2, request := none }
  else
    let created := createLogicalDevice drv picked.2
    if !created.ok then { ok := false, manager := created.manager, request := created.request }
    else { ok := true, manager := created.manager, request := created.request }

/-- A device with one queue family that supports graphics and can present. -/
def completeDevice : PhysicalDevice :=
  { handle := 103,
    families := [{ queueFlags := 0x1, surfaceSupportResult := VK_SUCCESS,
                   present_support := true }] }

/-- A driver like `simpleDriver` whose devices lack the swapchain extension. -/
def driverWithoutSwapchain : LogicalDeviceDriver :=
  { simpleDriver with deviceExtensions := fun _ => ["VK_KHR_maintenance1"] }

end DeviceManager

/-! ## Memory type selection, stated on bits -/

namespace Vulkan

/-- Index `i` is a match: bit `i` of the filter is set and the property flags
of memory type `i` include every requested flag. -/
def MemoryTypeMatches (memoryTypes : List Nat) (type_filter properties i : Nat) : Prop :=
  type_filter.testBit i = true ∧
  ∃ flags, memoryTypes[i]? = some flags ∧
    ∀ j, properties.testBit j = true → flags.testBit j = true

/-- A `createRawBuffer` driver that creates the buffer `42` on a device whose
only memory type is device-local. -/
def deviceLocalOnlyDriver : RawBufferDriver :=
  { createBuffer := VK_SUCCESS, bufferHandle := 42, memoryTypeBits := 1,
    memoryTypes := [VK_MEMORY_PROPERTY_DEVICE_LOCAL_BIT], allocateMemory := VK_SUCCESS,
    memoryHandle := 43, bindBufferMemory := VK_SUCCESS }

end Vulkan

/-! ## Swapchain settings of `GraphicsAPI::Vulkan` (vulkan.cpp, lines 103-131, 362-396) -/

namespace Vulkan

/-- The format `VK_FORMAT_B8G8R8A8_SRGB`. -/
def VK_FORMAT_B8G8R8A8_SRGB : Nat := 50
/-- The color space `VK_COLOR_SPACE_SRGB_NONLINEAR_KHR`. -/
def VK_COLOR_SPACE_SRGB_NONLINEAR_KHR : Nat := 0
/-- The present mode `VK_PRESENT_MODE_IMMEDIATE_KHR`. -/
def VK_PRESENT_MODE_IMMEDIATE_KHR : Nat := 0
/-- The present mode `VK_PRESENT_MODE_MAILBOX_KHR`. -/
def VK_PRESENT_MODE_MAILBOX_KHR : Nat := 1
/-- The present mode `VK_PRESENT_MODE_FIFO_KHR`. -/
def VK_PRESENT_MODE_FIFO_KHR : Nat := 2

/-- The struct `VkSurfaceFormatKHR`. -/
structure SurfaceFormat where
  format : Nat
  colorSpace : Nat
  deriving DecidableEq, Repr

/-- The struct `VkExtent2D`. -/
structure Extent2D where
  width : Nat
  height : Nat
  deriving DecidableEq, Repr

/-- The fields of `VkSurfaceCapabilitiesKHR` that `createSwapchain` reads. -/
structure SurfaceCapabilities where
  minImageCount : Nat
  maxImageCount : Nat
  currentExtent : Extent2D
  deriving DecidableEq, Repr

/-- The level of a log line. -/
inductive LogLevel where
  | info | warn | error
  deriving DecidableEq, Repr

/-- One line handed to the logger: the level, the format string and the
arguments that `std::vformat` puts into its replacement fields. -/
structure LogLine where
  level : LogLevel
  fmt : String
  args : List Nat
  deriving DecidableEq, Repr

/-- The define `LOG_WARN` of logging.hpp (lines 14-24): in a build with
`DEBUG` defined it is a call of `Logger::warn`, in every other build it
expands to nothing.  The result is the list of lines the logger receives. -/
def LOG_WARN (DEBUG : Bool) (fmt : String) (args : List Nat) : List LogLine :=
  if DEBUG then [{ level := .warn, fmt := fmt, args := args }] else []

/-- The define `LOG_ERROR` of logging.hpp (lines 14-24): a call of
`Logger::error` in a build with `DEBUG` defined, nothing otherwise. -/
def LOG_ERROR (DEBUG : Bool) (fmt : String) (args : List Nat) : List LogLine :=
  if DEBUG then [{ level := .error, fmt := fmt, args := args }] else []

/-- The preferred surface format of `chooseSwapSurfaceFormat`. -/
def preferredSurfaceFormat : SurfaceFormat :=
  { format := VK_FORMAT_B8G8R8A8_SRGB, colorSpace := VK_COLOR_SPACE_SRGB_NONLINEAR_KHR }

/-- The loop of `chooseSwapSurfaceFormat`: the first entry with the preferred
format and color space, if there is one. -/
def findPreferredFormat : List SurfaceFormat → Option SurfaceFormat
  | [] => none
  | format :: rest =>
    if format.format = VK_FORMAT_B8G8R8A8_SRGB ∧
        format.colorSpace = VK_COLOR_SPACE_SRGB_NONLINEAR_KHR
    then some format
    else findPreferredFormat rest

/-- The function `GraphicsAPI::Vulkan::chooseSwapSurfaceFormat`; `none` stands
for `formats.front()` on an empty span, which the source leaves undefined. -/
def chooseSwapSurfaceFormat (formats : List SurfaceFormat) : Option SurfaceFormat :=
  match findPreferredFormat formats with
  | some format => some format
  | none => formats.head?

/-- The loop `for (mode : modes) if (mode == wanted) return mode;`. -/
def findPresentMode (wanted : Nat) : List Nat → Option Nat
  | [] => none
  | mode :: rest => if mode = wanted then some mode else findPresentMode wanted rest

/-- The function `GraphicsAPI::Vulkan::choosePresentMode` with the lines the
logger receives; `DEBUG` tells whether the build defines `DEBUG`.  The source
tests the literal `true`, so its second branch never runs. -/
def choosePresentMode (DEBUG : Bool) (modes : List Nat) : Nat × List LogLine :=
  if true then
    match findPresentMode VK_PRESENT_MODE_MAILBOX_KHR modes with
    | some mode => (mode, [])
    | none =>
      (VK_PRESENT_MODE_FIFO_KHR,
       LOG_WARN DEBUG
         "[GraphicsAPI::Vulkan]: Vsync is enabled, but mailbox mode is not supported, falling back to FIFO mode"
         [])
  else
    match findPresentMode VK_PRESENT_MODE_IMMEDIATE_KHR modes with
    | some mode => (mode, [])
    | none =>
      (VK_PRESENT_MODE_FIFO_KHR,
       LOG_WARN DEBUG
         "[GraphicsAPI::Vulkan]: Vsync is disabled, but immediate mode is not supported, falling back to FIFO mode"
         [])

/-- The function `GraphicsAPI::Vulkan::chooseSwapExtent`. -/
def chooseSwapExtent (capabilities : SurfaceCapabilities) : Extent2D :=
  if capabilities.currentExtent.width ≠ UINT32_MAX then capabilities.currentExtent
  else { width := 1280, height := 720 }

/-- The image count of `createSwapchain` (lines 109-111), in `uint32_t`
arithmetic. -/
def swapchainImageCount (capabilities : SurfaceCapabilities) : Nat :=
  let image_count := (capabilities.minImageCount + 1) % UINT32_RANGE
  if capabilities.maxImageCount > 0 ∧ image_count > capabilities.maxImageCount
  then capabilities.maxImageCount
  else image_count

end Vulkan

/-! ## Clear color (vulkan.hpp, lines 44-49; opengl.hpp, lines 24-26) -/

/-- The member `clear_color` of `GraphicsAPI::Vulkan`: the four channels
`color.float32[0..3]` of a `VkClearValue`. -/
structure ClearValue where
  float32 : List F32
  deriving DecidableEq, Repr

namespace Vulkan

/-- The value of `VkClearValue clear_color {}`: four zero channels. -/
def ClearValue.zero : ClearValue := { float32 := [0, 0, 0, 0] }

/-- The function `GraphicsAPI::Vulkan::setClearColor`.  The members `r`, `g`
and `b` of a `glm::vec3` are its `x`, `y` and `z`; the source assigns
`rgb.g` to channel 1 and to channel 2. -/
def setClearColor (rgb : Vec3) (a : F32) (clear_color : ClearValue) : ClearValue :=
  let c0 := clear_color.float32.set 0 rgb.x
  let c1 := c0.set 1 rgb.y
  let c2 := c1.set 2 rgb.y
  let c3 := c2.set 3 a
  { float32 := c3 }

/-- The clear values `beginFrame` hands to `vkCmdBeginRenderPass`:
`clearValueCount = 1` and `pClearValues = &clear_color`. -/
def renderPassClearValues (clear_color : ClearValue) : List ClearValue := [clear_color]

end Vulkan

namespace OpenGL

/-- The function `GraphicsAPI::OpenGL::setClearColor`: the four arguments of
its `glClearColor` call. -/
def setClearColor (rgb : Vec3) (a : F32) : List F32 := [rgb.x, rgb.y, rgb.z, a]

end OpenGL

/-! ## Uniform buffers (buffer.hpp, vkbuffer.hpp) and `updateUBO` (vulkan.cpp, lines 585-587) -/

/-- The enum `UniformBufferType`. -/
inductive UniformBufferType where
  | Camera | None | Count
  deriving DecidableEq, Repr

/-- The struct `BufferFrame`; `mapped` holds the bytes of the mapped memory
instead of the pointer to them. -/
structure BufferFrame where
  size : Nat
  mapped : List Nat
  buffer : Handle
  memory : Handle
  deriving DecidableEq, Repr

/-- The struct `UniformBuffer`. -/
structure UniformBuffer where
  size : Nat
  frames : List BufferFrame
  type : UniformBufferType
  deriving DecidableEq, Repr

/-- The bytes a uniform buffer of the given type holds in a frame slot, from
`offset` on, `size` bytes long. -/
def readUniformSlot (uniform_buffers : List UniformBuffer) (type : UniformBufferType)
    (frame offset size : Nat) : Option (List Nat) :=
  match uniform_buffers.find? (fun ubo => ubo.type == type) with
  | none => none
  | some ubo =>
    match ubo.frames[frame]? with
    | none => none
    | some slot => some ((slot.mapped.drop offset).take size)

namespace Vulkan

/-- The function `GraphicsAPI::Vulkan::updateUBO`: its parameters are unnamed
and its body is `return true;`, so the uniform buffers come back as they
were. -/
def updateUBO (_type : UniformBufferType) (_data : List Nat) (_size _offset : Nat)
    (uniform_buffers : List UniformBuffer) : Bool × List UniformBuffer :=
  (true, uniform_buffers)

/-- A camera uniform buffer of four zero bytes in each of the three frame
slots. -/
def zeroCameraBuffers : List UniformBuffer :=
  [{ size := 4,
     frames := [⟨4, [0, 0, 0, 0], 11, 12⟩, ⟨4, [0, 0, 0, 0], 13, 14⟩, ⟨4, [0, 0, 0, 0], 15, 16⟩],
     type := .Camera }]

end Vulkan

/-! ## `GraphicsAPI::Vulkan::DescriptorManager` (descriptor_manager.hpp) -/

/-- The struct `DescriptorData`. -/
structure DescriptorData where
  layout : Handle := VK_NULL_HANDLE
  pool : Handle := VK_NULL_HANDLE
  sets : List Handle := []
  deriving DecidableEq, Repr

/-- The struct `VkDescriptorBufferInfo`. -/
structure DescriptorBufferInfo where
  buffer : Handle
  offset : Nat
  range : Nat
  deriving DecidableEq, Repr

/-- The fields of the `VkWriteDescriptorSet` that `updateSet` fills in. -/
structure WriteDescriptorSet where
  dstSet : Handle
  dstBinding : Nat
  dstArrayElement : Nat
  descriptorCount : Nat
  bufferInfo : DescriptorBufferInfo
  deriving DecidableEq, Repr

/-- The member `descriptor_data` of the descriptor manager: the entries of
the `unordered_map`, one per uniform buffer type. -/
structure DescriptorManager where
  descriptor_data : List (UniformBufferType × DescriptorData)
  deriving DecidableEq, Repr

namespace DescriptorManager

/-- What one call of `updateSet` did: its return value, the lines it logged,
and the descriptor writes it handed to `vkUpdateDescriptorSets`. -/
structure UpdateSetResult where
  ok : Bool
  log : List Vulkan.LogLine
  writes : List WriteDescriptorSet
  deriving DecidableEq, Repr

/-- The lookup `descriptor_data.at(type)`; `none` stands for the
`std::out_of_range` it throws for a type without an entry. -/
def dataAt (s : DescriptorManager) (type : UniformBufferType) : Option DescriptorData :=
  (s.descriptor_data.find? (fun entry => entry.1 == type)).map (fun entry => entry.2)

/-- The function `DescriptorManager::updateSet`; `frame_index` is a
`uint32_t`, and `DEBUG` tells whether the build defines `DEBUG`.  The error
line carries the frame index and the number of sets as its two arguments. -/
def updateSet (DEBUG : Bool) (type : UniformBufferType) (buffer_info : DescriptorBufferInfo)
    (frame_index : Nat) (s : DescriptorManager) : Option UpdateSetResult :=
  match dataAt s type with
  | none => none
  | some data =>
    if frame_index ≥ data.sets.length then
      some { ok := false,
             log := Vulkan.LOG_ERROR DEBUG
               "[GraphicsAPI::Vulkan::DescriptorManager]: Invalid frame index \x7b\x7d >= \x7b\x7d"
               [frame_index, data.sets.length],
             writes := [] }
    else
      match data.sets[frame_index]? with
      | none => none
      | some dstSet =>
        some { ok := true, log := [],
               writes := [{ dstSet := dstSet, dstBinding := 0, dstArrayElement := 0,
                            descriptorCount := 1, bufferInfo := buffer_info }] }

/-- A manager with three allocated camera sets. -/
def cameraSets : DescriptorManager :=
  { descriptor_data := [(.Camera, { layout := 20, pool := 21, sets := [31, 32, 33] })] }

end DescriptorManager

/-! ## `Pipeline::Vulkan` (vkshader.cpp, vkshader.hpp) -/

/-- The flag `VK_SHADER_STAGE_VERTEX_BIT`. -/
def VK_SHADER_STAGE_VERTEX_BIT : Nat := 0x1
/-- The flag `VK_SHADER_STAGE_FRAGMENT_BIT`. -/
def VK_SHADER_STAGE_FRAGMENT_BIT : Nat := 0x10
/-- The format `VK_FORMAT_R32G32_SFLOAT`: two floats. -/
def VK_FORMAT_R32G32_SFLOAT : Nat := 103
/-- The format `VK_FORMAT_R32G32B32_SFLOAT`: three floats. -/
def VK_FORMAT_R32G32B32_SFLOAT : Nat := 106

/-- The struct `Pipeline::ShaderStages`: one file path per stage. -/
structure ShaderStages where
  vertex : String := ""
  fragment : String := ""
  geometry : String := ""
  compute : String := ""
  deriving DecidableEq, Repr

/-- The fields of `VkPipelineShaderStageCreateInfo` that `create` fills in. -/
structure ShaderStageCreateInfo where
  stage : Nat
  module : Handle
  pName : String
  deriving DecidableEq, Repr

/-- The struct `VkVertexInputAttributeDescription`. -/
structure VertexInputAttributeDescription where
  location : Nat
  binding : Nat
  format : Nat
  offset : Nat
  deriving DecidableEq, Repr

/-- The part of `VkGraphicsPipelineCreateInfo` that depends on the stages:
`stageCount`, and the array `pStages` points to. -/
structure GraphicsPipelineCreateInfo where
  stageCount : Nat
  stages_info : List ShaderStageCreateInfo
  attribute_descriptions : List VertexInputAttributeDescription
  deriving DecidableEq, Repr

/-- The data members of `Pipeline::Vulkan`. -/
structure PipelineVulkan where
  stages : ShaderStages := {}
  pipeline : Handle := VK_NULL_HANDLE
  layout : Handle := VK_NULL_HANDLE
  modules : List Handle := []
  deriving DecidableEq, Repr

namespace PipelineVulkan

/-- What the file system and the driver answer when one shader file is
loaded. -/
structure LoadShaderDriver where
  readContentBytes : Bool
  createShaderModule : VkResult
  moduleHandle : Handle
  deriving DecidableEq, Repr

/-- What the driver answers to the calls of `create`; `load` is asked per
file path. -/
structure CreateDriver where
  load : String → LoadShaderDriver
  createPipelineLayout : VkResult
  layoutHandle : Handle
  createGraphicsPipelines : VkResult
  pipelineHandle : Handle

/-- The outcome of `create`: its return value, the pipeline object, and as
ghost state the create info handed to `vkCreateGraphicsPipelines`, if the
function got that far. -/
structure CreateResult where
  ok : Bool
  state : PipelineVulkan
  request : Option GraphicsPipelineCreateInfo
  deriving DecidableEq, Repr

/-- The function `getAttributeDescriptions` (vkshader.cpp, lines 14-41). -/
def getAttributeDescriptions : List VertexInputAttributeDescription :=
  [{ location := 0, binding := 0, format := VK_FORMAT_R32G32B32_SFLOAT, offset := 0 },
   { location := 1, binding := 0, format := VK_FORMAT_R32G32B32_SFLOAT,
     offset := MeshManager.OpenGL.offsetofColor },
   { location := 2, binding := 0, format := VK_FORMAT_R32G32_SFLOAT,
     offset := MeshManager.OpenGL.offsetofUv },
   { location := 3, binding := 0, format := VK_FORMAT_R32G32B32_SFLOAT,
     offset := MeshManager.OpenGL.offsetofNormal }]

/-- The function `Pipeline::Vulkan::loadShader`: the module handle, null on
failure, and the pipeline object with the module tracked. -/
def loadShader (drv : LoadShaderDriver) (s : PipelineVulkan) : Handle × PipelineVulkan :=
  if !drv.readContentBytes then (VK_NULL_HANDLE, s)
  else if drv.createShaderModule ≠ VK_SUCCESS then (VK_NULL_HANDLE, s)
  else (drv.moduleHandle, { s with modules := s.modules ++ [drv.moduleHandle] })

/-- The function `Pipeline::Vulkan::create`.  The fixed-function state
between the stages and the pipeline layout does not depend on the stages and
calls no driver function; `stageCount` is the literal `2` of line 294. -/
def create (drv : CreateDriver) (stages_in : ShaderStages) (s : PipelineVulkan) : CreateResult :=
  let s0 : PipelineVulkan := { s with stages := stages_in }
  let vert : Option (PipelineVulkan × List ShaderStageCreateInfo) :=
    if !s0.stages.vertex.isEmpty then
      let loaded := loadShader (drv.load s0.stages.vertex) s0
      if loaded.1 = VK_NULL_HANDLE then none
      else some (loaded.2,
        [{ stage := VK_SHADER_STAGE_VERTEX_BIT, module := loaded.1, pName := "main" }])
    else some (s0, [])
  match vert with
  | none => { ok := false, state := s0, request := none }
  | some (s1, vertex_info) =>
    let frag : Option (PipelineVulkan × List ShaderStageCreateInfo) :=
      if !s1.stages.fragment.isEmpty then
        let loaded := loadShader (drv.load s1.stages.fragment) s1
        if loaded.1 = VK_NULL_HANDLE then none
        else some (loaded.2, vertex_info ++
          [{ stage := VK_SHADER_STAGE_FRAGMENT_BIT, module := loaded.1, pName := "main" }])
      else some (s1, vertex_info)
    match frag with
    | none => { ok := false, state := s1, request := none }
    | some (s2, stages_info) =>
      if drv.createPipelineLayout ≠ VK_SUCCESS then { ok := false, state := s2, request := none }
      else
        let s3 : PipelineVulkan := { s2 with layout := drv.layoutHandle }
        let pipeline_info : GraphicsPipelineCreateInfo :=
          { stageCount := 2, stages_info := stages_info,
            attribute_descriptions := getAttributeDescriptions }
        if drv.createGraphicsPipelines ≠ VK_SUCCESS
        then { ok := false, state := s3, request := some pipeline_info }
        else { ok := true, state := { s3 with pipeline := drv.pipelineHandle },
               request := some pipeline_info }

/-- A driver on which every file loads and every call succeeds; the module of
a file gets the length of its path as handle. -/
def goodDriver : CreateDriver :=
  { load := fun path =>
      { readContentBytes := true, createShaderModule := VK_SUCCESS,
        moduleHandle := path.length },
    createPipelineLayout := VK_SUCCESS, layoutHandle := 51,
    createGraphicsPipelines := VK_SUCCESS, pipelineHandle := 52 }

/-- The number of floats of a vertex attribute format. -/
def componentCount (format : Nat) : Nat :=
  if format = VK_FORMAT_R32G32B32_SFLOAT then 3
  else if format = VK_FORMAT_R32G32_SFLOAT then 2
  else 0

/-- The vertex input of the explicit pipeline as (location, floats, offset)
triples. -/
def vulkanAttributes : List (Nat × Nat × Nat) :=
  getAttributeDescriptions.map (fun d => (d.location, componentCount d.format, d.offset))

/-- The attribute bindings of the legacy mesh upload as (location, floats,
offset) triples: the `glVertexAttribPointer` calls of one upload. -/
def openglAttributes : List (Nat × Nat × Nat) :=
  (MeshManager.OpenGL.uploadMesh MeshManager.OpenGL.freshNames
      { cpu_vertices := [], cpu_indices := [] } []).2.filterMap (fun c =>
    match c with
    | .vertexAttribPointer location components offset => some (location, components, offset)
    | _ => none)

/-- The `glVertexAttribPointer` calls in a list of driver calls, as (location,
floats, offset) triples. -/
def attributePointers (calls : List GLCall) : List (Nat × Nat × Nat) :=
  calls.filterMap (fun c =>
    match c with
    | .vertexAttribPointer location components offset => some (location, components, offset)
    | _ => none)

/-- The `glEnableVertexAttribArray` calls in a list of driver calls: the
locations they enable. -/
def enabledLocations (calls : List GLCall) : List Nat :=
  calls.filterMap (fun c =>
    match c with
    | .enableVertexAttribArray location => some location
    | _ => none)

end PipelineVulkan

/-! ## Driver calls of the frame cycle (vulkan.cpp, lines 474-558; renderer.cpp, lines 63-69) -/

namespace Vulkan

/-- The flag `VK_PIPELINE_STAGE_COLOR_ATTACHMENT_OUTPUT_BIT`. -/
def VK_PIPELINE_STAGE_COLOR_ATTACHMENT_OUTPUT_BIT : Nat := 0x400

/-- The objects the frame cycle works with: the swapchain, the command
buffers (one per swapchain image), the framebuffers, the per-slot semaphores
and fences, and the two queues of the device manager. -/
structure FrameResources where
  swapchain : Handle
  command_buffers : List Handle
  frame_buffers : List Handle
  image_available_semaphores : List Handle
  render_finished_semaphores : List Handle
  in_flight_fences : List Handle
  graphics_queue : Handle
  present_queue : Handle
  deriving DecidableEq, Repr

/-- A call into the driver made by the frame cycle, with the arguments that
matter.  An object read from an array is `none` when the index is outside
the array. -/
inductive DriverCall where
  | waitForFences (fence : Option Handle)
  | acquireNextImage (swapchain : Handle) (semaphore : Option Handle)
  | resetFences (fence : Option Handle)
  | resetCommandBuffer (command_buffer : Option Handle)
  | beginCommandBuffer (command_buffer : Option Handle)
  | cmdBeginRenderPass (command_buffer : Option Handle) (framebuffer : Option Handle)
  | cmdEndRenderPass (command_buffer : Option Handle)
  | endCommandBuffer (command_buffer : Option Handle)
  | queueSubmit (queue : Handle) (waitSemaphore : Option Handle) (waitDstStageMask : Nat)
      (command_buffer : Option Handle) (signalSemaphore : Option Handle) (fence : Option Handle)
  | queuePresent (queue : Handle) (waitSemaphore : Option Handle) (swapchain : Handle)
      (imageIndex : Nat)
  | cmdBindPipeline (command_buffer : Option Handle) (pipeline : Handle)
  deriving DecidableEq, Repr

/-- The accessor `getCommandBuffer`. -/
def getCommandBuffer (res : FrameResources) (index : Nat) : Option Handle :=
  res.command_buffers[index]?

/-- The accessor `getFence`. -/
def getFence (res : FrameResources) (index : Nat) : Option Handle :=
  res.in_flight_fences[index]?

/-- The accessor `getImageAvailableSemaphore`. -/
def getImageAvailableSemaphore (res : FrameResources) (index : Nat) : Option Handle :=
  res.image_available_semaphores[index]?

/-- The accessor `getRenderFinishedSemaphore`. -/
def getRenderFinishedSemaphore (res : FrameResources) (index : Nat) : Option Handle :=
  res.render_finished_semaphores[index]?

/-- The accessor `getFramebufferForImage`. -/
def getFramebufferForImage (res : FrameResources) (index : Nat) : Option Handle :=
  res.frame_buffers[index]?

/-- The driver calls of `beginFrame`, in the order of the source.  The image
index used after the acquire is the one `beginFrame` leaves in
`current_image_index`; no call depends on what an earlier call returned. -/
def beginFrameCalls (res : FrameResources) (drv : BeginFrameDriver) (s : FrameState) :
    List DriverCall :=
  let fence := getFence res s.current_frame_index
  let image := (beginFrame drv s).2.current_image_index
  let command_buffer := getCommandBuffer res image
  [.waitForFences fence,
   .acquireNextImage res.swapchain (getImageAvailableSemaphore res s.current_frame_index),
   .resetFences fence,
   .resetCommandBuffer command_buffer,
   .beginCommandBuffer command_buffer,
   .cmdBeginRenderPass command_buffer (getFramebufferForImage res image)]

/-- The function `GraphicsAPI::Vulkan::submitQueue`: one `vkQueueSubmit` on
the given queue with the fence of the given slot. -/
def submitQueue (res : FrameResources) (queue : Handle) (waitSemaphore : Option Handle)
    (command_buffer signalSemaphore : Option Handle) (frame_index : Nat) : DriverCall :=
  .queueSubmit queue waitSemaphore VK_PIPELINE_STAGE_COLOR_ATTACHMENT_OUTPUT_BIT command_buffer
    signalSemaphore (getFence res frame_index)

/-- The driver calls of `endFrame`, in the order of the source.  The queue
passed to `submitQueue` is `device_manager.getPresentQueue()` (line 541). -/
def endFrameCalls (res : FrameResources) (s : FrameState) : List DriverCall :=
  let command_buffer := getCommandBuffer res s.current_image_index
  let image_available_semaphore := getImageAvailableSemaphore res s.current_frame_index
  let render_finished_semaphore := getRenderFinishedSemaphore res s.current_frame_index
  [.cmdEndRenderPass command_buffer,
   .endCommandBuffer command_buffer,
   .resetFences (getFence res s.current_frame_index),
   submitQueue res res.present_queue image_available_semaphore command_buffer
     render_finished_semaphore s.current_frame_index,
   .queuePresent res.present_queue render_finished_semaphore res.swapchain
     s.current_image_index]

/-- The function `Pipeline::Vulkan::bind`: the bind is recorded into
`getCommandBuffer(frame_index)`. -/
def pipelineBind (res : FrameResources) (pipeline : Handle) (frame_index : Nat) : DriverCall :=
  .cmdBindPipeline (getCommandBuffer res frame_index) pipeline

/-- A device with separate graphics (`1`) and present (`2`) queues and a
swapchain of two images. -/
def twoImageResources : FrameResources :=
  { swapchain := 5, command_buffers := [60, 61], frame_buffers := [70, 71],
    image_available_semaphores := [80, 81, 82], render_finished_semaphores := [90, 91, 92],
    in_flight_fences := [100, 101, 102], graphics_queue := 1, present_queue := 2 }

end Vulkan

namespace Renderer

/-- The function `Renderer::bindPipeline`: it reads
`graphics_api->getCurrentFrameIndex()` and passes it to the pipeline's
`bind`. -/
def bindPipeline (res : Vulkan.FrameResources) (pipeline : Handle) (s : Vulkan.FrameState) :
    Bool × Vulkan.DriverCall :=
  let current_frame_index := s.current_frame_index
  (true, Vulkan.pipelineBind res pipeline current_frame_index)

end Renderer

/-! ## Entity-component store (ecs.hpp) -/

namespace ECS

/-- The class `EntityManager` without its registry: the next fresh id, the
alive list, and the queue of free ids with its front first. -/
structure EntityManager where
  next_id : Nat := 1
  alive : List Nat := []
  free_ids : List Nat := []
  deriving DecidableEq, Repr

namespace EntityManager

/-- The function `EntityManager::create` called without components: the
front of the free queue if there is one, else `next_id++` in `uint32_t`. -/
def create (s : EntityManager) : Nat × EntityManager :=
  match s.free_ids with
  | id :: rest => (id, { s with free_ids := rest, alive := s.alive ++ [id] })
  | [] =>
    (s.next_id,
     { s with next_id := (s.next_id + 1) % UINT32_RANGE, alive := s.alive ++ [s.next_id] })

/-- The body of the `if` in `destroy`: the first occurrence of `e` is
overwritten with the last element, then the last element is popped. -/
def swapRemove (alive : List Nat) (e : Nat) : List Nat :=
  if e ∈ alive then
    match alive.getLast? with
    | some last => (alive.set (alive.indexOf e) last).dropLast
    | none => alive
  else alive

/-- The function `EntityManager::destroy`: `e` is pushed to the free queue
first, then removed from the alive list if it is found there. -/
def destroy (e : Nat) (s : EntityManager) : EntityManager :=
  { s with free_ids := s.free_ids ++ [e], alive := swapRemove s.alive e }

end EntityManager

/-- The struct `ComponentArray<T>`; `lookup` holds the entries of the
`unordered_map` from entity to index. -/
structure ComponentArray (T : Type) where
  components : List T := []
  entities : List Nat := []
  lookup : List (Nat × Nat) := []

namespace ComponentArray

/-- The lookup `m.find(key)` of an `unordered_map`. -/
def mapFind (m : List (Nat × Nat)) (key : Nat) : Option Nat :=
  (m.find? (fun entry => entry.1 == key)).map (fun entry => entry.2)

/-- The assignment `m[key] = value` of an `unordered_map`: the entry of the
key is replaced or created. -/
def mapAssign (m : List (Nat × Nat)) (key value : Nat) : List (Nat × Nat) :=
  (key, value) :: m.filter (fun entry => entry.1 != key)

/-- The call `m.erase(it)` for the entry of `key`. -/
def mapErase (m : List (Nat × Nat)) (key : Nat) : List (Nat × Nat) :=
  m.filter (fun entry => entry.1 != key)

/-- The call `std::swap(v[i], v[j])` on a vector. -/
def swapAt {α : Type} (v : List α) (i j : Nat) : List α :=
  match v[i]?, v[j]? with
  | some a, some b => (v.set i b).set j a
  | _, _ => v

/-- The function `ComponentArray::addComponent`; `none` stands for the failed
assertion on an entity that already has a component. -/
def addComponent {T : Type} (entity : Nat) (value : T) (s : ComponentArray T) :
    Option (ComponentArray T) :=
  if (mapFind s.lookup entity).isSome then none
  else
    let index := s.components.length
    some { components := s.components ++ [value],
           entities := s.entities ++ [entity],
           lookup := mapAssign s.lookup entity index }

/-- The function `ComponentArray::getComponent`; `none` is the null pointer. -/
def getComponent {T : Type} (entity : Nat) (s : ComponentArray T) : Option T :=
  match mapFind s.lookup entity with
  | some index => s.components[index]?
  | none => none

/-- The function `ComponentArray::remove`. -/
def remove {T : Type} (entity : Nat) (s : ComponentArray T) : ComponentArray T :=
  match mapFind s.lookup entity with
  | some index =>
    let lastIndex := s.components.length - 1
    let components := swapAt s.components index lastIndex
    let entities := swapAt s.entities index lastIndex
    let lookup :=
      match entities[index]? with
      | some moved => mapAssign s.lookup moved index
      | none => s.lookup
    { components := components.dropLast,
      entities := entities.dropLast,
      lookup := mapErase lookup entity }
  | none => s

/-- The function `ComponentArray::size`. -/
def size {T : Type} (s : ComponentArray T) : Nat := s.components.length

/-- One operation on a component array. -/
inductive Op (T : Type) where
  | addComponent (entity : Nat) (value : T)
  | remove (entity : Nat)

/-- The array after a sequence of operations, first operation first; `none`
when an `addComponent` hit its assertion. -/
def run {T : Type} : List (Op T) → ComponentArray T → Option (ComponentArray T)
  | [], s => some s
  | .addComponent entity value :: ops, s =>
    match addComponent entity value s with
    | some s1 => run ops s1
    | none => none
  | .remove entity :: ops, s => run ops (remove entity s)

/-- In the words of the claim: the component last added for each entity and
not removed since, after one more operation. -/
def lastAddedStep {T : Type} (op : Op T) (current : Nat → Option T) : Nat → Option T :=
  match op with
  | .addComponent entity value => fun e => if e = entity then some value else current e
  | .remove entity => fun e => if e = entity then none else current e

/-- In the words of the claim: the component last added for each entity and
not removed since, after a sequence of operations. -/
def lastAdded {T : Type} : List (Op T) → (Nat → Option T) → Nat → Option T
  | [], current => current
  | op :: ops, current => lastAdded ops (lastAddedStep op current)

/-- In the words of the claim: every `addComponent` of the sequence is for an
entity that has no component at that moment. -/
def AddsAreFresh {T : Type} : List (Op T) → (Nat → Option T) → Prop
  | [], _ => True
  | .addComponent entity value :: ops, current =>
    current entity = none ∧
      AddsAreFresh ops (lastAddedStep (.addComponent entity value) current)
  | .remove entity :: ops, current => AddsAreFresh ops (lastAddedStep (.remove entity) current)

/-- The consistency of the three containers, together with the values the
entities are expected to have: the sizes agree, the keys of `lookup` are
distinct, `lookup` maps `e` to `i` exactly when `entities[i]` is `e`, and
the component at the index of an entity is its expected value. -/
def Consistent {T : Type} (s : ComponentArray T) (expected : Nat → Option T) : Prop :=
  s.components.length = s.entities.length ∧
  s.lookup.length = s.entities.length ∧
  (s.lookup.map (fun entry => entry.1)).Nodup ∧
  (∀ e i : Nat, mapFind s.lookup e = some i ↔ s.entities[i]? = some e) ∧
  (∀ e i : Nat, s.entities[i]? = some e →
    s.components[i]? = expected e ∧ (expected e).isSome = true) ∧
  (∀ e : Nat, mapFind s.lookup e = none → expected e = none)

end ComponentArray

end ECS

/-! ## `Mesh::fromOBJ` (mesh.cpp, lines 17-175) -/

namespace Obj

/-- The struct `Key`: zero-based position, texcoord and normal index, `-1`
for none. -/
structure Key where
  vi : Int
  ti : Int
  ni : Int
  deriving DecidableEq, Repr

/-- One vertex token of a face line, `v`, `v/t`, `v//n` or `v/t/n`, as its
three number fields after `std::stoi`; `none` for a field that is absent or
empty. -/
structure FaceToken where
  v : Option Int
  t : Option Int
  n : Option Int
  deriving DecidableEq, Repr

/-- One line of an OBJ text as the dispatch of `fromOBJ` reads it: a
position with an optional color, a texcoord, a normal, a face with its
tokens, or a line that is skipped. -/
inductive ObjLine where
  | v (position : Vec3) (color : Option Vec3)
  | vt (uv : Vec2)
  | vn (normal : Vec3)
  | f (tokens : List FaceToken)
  | other
  deriving DecidableEq, Repr

/-- The arrays `fromOBJ` subscripts. -/
inductive ObjArray where
  | positions | uvs | normals
  deriving DecidableEq, Repr

/-- A subscript read `array[index]` made while the array had `size`
elements. -/
structure ObjRead where
  array : ObjArray
  index : Int
  size : Nat
  deriving DecidableEq, Repr

/-- The read stays within the bounds of the array. -/
def ObjRead.inBounds (r : ObjRead) : Bool := decide (0 ≤ r.index) && decide (r.index < r.size)

/-- The floating-point computations of `fromOBJ`, which the embedding takes
as given: `glm::normalize(glm::cross(p1 - p0, p2 - p0))` and the comparison
of a vector with `glm::vec3(0.0f)`. -/
structure FloatOps where
  faceNormal : Vec3 → Vec3 → Vec3 → Vec3
  isZero : Vec3 → Bool

/-- The local state of `fromOBJ`, with the subscript reads made so far as
ghost state. -/
structure ObjState where
  positions : List (Vec3 × Vec3) := []
  uvs : List Vec2 := []
  normals : List Vec3 := []
  vertices : List Mesh.Vertex := []
  indices : List Nat := []
  unique : List (Key × Nat) := []
  reads : List ObjRead := []
  deriving DecidableEq, Repr

/-- The vector `glm::vec3(0.0f)`. -/
def vec3Zero : Vec3 := ⟨0, 0, 0⟩
/-- The vector `glm::vec3(1.0f)`. -/
def vec3One : Vec3 := ⟨F32.one, F32.one, F32.one⟩
/-- The vector `glm::vec3(0, 0, 1)`. -/
def vec3UnitZ : Vec3 := ⟨0, 0, F32.one⟩
/-- The vector `glm::vec2(0.0f)`. -/
def vec2Zero : Vec2 := ⟨0, 0⟩

/-- The function `objIndexToZeroBased`. -/
def objIndexToZeroBased (idx : Int) (vec_size : Nat) : Int :=
  if idx > 0 then idx - 1
  else if idx < 0 then (vec_size : Int) + idx
  else -1

/-- The function `parseFaceToken`: the three outputs start at `-1` and a
field that is present overwrites its output. -/
def parseFaceToken (token : FaceToken) : Int × Int × Int :=
  (token.v.getD (-1), token.t.getD (-1), token.n.getD (-1))

/-- The key a face token becomes (lines 128-133). -/
def tokenKey (st : ObjState) (token : FaceToken) : Key :=
  let parsed := parseFaceToken token
  let vi := parsed.1
  let ti := parsed.2.1
  let ni := parsed.2.2
  { vi := if vi ≠ 0 then objIndexToZeroBased vi st.positions.length else -1,
    ti := if ti ≠ 0 then objIndexToZeroBased ti st.uvs.length else -1,
    ni := if ni ≠ 0 then objIndexToZeroBased ni st.normals.length else -1 }

/-- The value of `positions[index]`; a subscript outside the vector is
undefined in the source and yields zeros here. -/
def positionAt (st : ObjState) (index : Int) : Vec3 × Vec3 :=
  (st.positions[index.toNat]?).getD (vec3Zero, vec3Zero)

/-- The face normal of lines 138-145 with the subscript reads it makes: the
three position indices are tested for `>= 0` only. -/
def faceNormalOf (ops : FloatOps) (st : ObjState) (face : List Key) : Vec3 × List ObjRead :=
  let none_key : Key := ⟨-1, -1, -1⟩
  let k0 := face.getD 0 none_key
  let k1 := face.getD 1 none_key
  let k2 := face.getD 2 none_key
  let need_face_normal := face.any (fun k => decide (k.ni < 0))
  if need_face_normal ∧ k0.vi ≥ 0 ∧ k1.vi ≥ 0 ∧ k2.vi ≥ 0 then
    (ops.faceNormal (positionAt st k0.vi).1 (positionAt st k1.vi).1 (positionAt st k2.vi).1,
     [⟨.positions, k0.vi, st.positions.length⟩, ⟨.positions, k1.vi, st.positions.length⟩,
      ⟨.positions, k2.vi, st.positions.length⟩])
  else (vec3Zero, [])

/-- The lookup `unique.find(key)`. -/
def findKey (unique : List (Key × Nat)) (key : Key) : Option Nat :=
  (unique.find? (fun entry => entry.1 == key)).map (fun entry => entry.2)

/-- The vertex built for a new key (lines 152-161) with the subscript reads
it makes; each of them is guarded on both sides. -/
def buildVertex (ops : FloatOps) (st : ObjState) (face_normal : Vec3) (key : Key) :
    Mesh.Vertex × List ObjRead :=
  let hasPosition := decide (key.vi ≥ 0) && decide (key.vi.toNat < st.positions.length)
  let hasUv := decide (key.ti ≥ 0) && decide (key.ti.toNat < st.uvs.length)
  let hasNormal := decide (key.ni ≥ 0) && decide (key.ni.toNat < st.normals.length)
  let position := if hasPosition then (positionAt st key.vi).1 else vec3Zero
  let color := if hasPosition then (positionAt st key.vi).2 else vec3Zero
  let uv := if hasUv then (st.uvs[key.ti.toNat]?).getD vec2Zero else vec2Zero
  let normal :=
    if hasNormal then (st.normals[key.ni.toNat]?).getD vec3Zero
    else if !ops.isZero face_normal then face_normal else vec3UnitZ
  ({ position := position, color := color, uv := uv, normal := normal },
   (if hasPosition then
      [⟨.positions, key.vi, st.positions.length⟩, ⟨.positions, key.vi, st.positions.length⟩]
    else []) ++
   (if hasUv then [⟨.uvs, key.ti, st.uvs.length⟩] else []) ++
   (if hasNormal then [⟨.normals, key.ni, st.normals.length⟩] else []))

/-- The body of the loop over the three keys of a triangle (lines 150-168). -/
def addKey (ops : FloatOps) (face_normal : Vec3) (st : ObjState) (key : Key) : ObjState :=
  match findKey st.unique key with
  | none =>
    let built := buildVertex ops st face_normal key
    let newIndex := st.vertices.length % UINT32_RANGE
    { st with
      vertices := st.vertices ++ [built.1],
      unique := st.unique ++ [(key, newIndex)],
      indices := st.indices ++ [newIndex],
      reads := st.reads ++ built.2 }
  | some index => { st with indices := st.indices ++ [index] }

/-- The keys the triangle loop of a face goes through, in order: for
`i = 1, ..., size - 2` the keys `face[0]`, `face[i]`, `face[i + 1]`. -/
def triangleKeys (face : List Key) : List Key :=
  let none_key : Key := ⟨-1, -1, -1⟩
  (List.range (face.length - 2)).flatMap (fun j =>
    [face.getD 0 none_key, face.getD (j + 1) none_key, face.getD (j + 2) none_key])

/-- The handling of one face line (lines 123-171). -/
def addFace (ops : FloatOps) (st : ObjState) (tokens : List FaceToken) : ObjState :=
  let face := tokens.map (tokenKey st)
  if face.length < 3 then st
  else
    let normal := faceNormalOf ops st face
    (triangleKeys face).foldl (addKey ops normal.1) { st with reads := st.reads ++ normal.2 }

/-- The handling of one line (lines 104-171). -/
def step (ops : FloatOps) (st : ObjState) (line : ObjLine) : ObjState :=
  match line with
  | .v position color => { st with positions := st.positions ++ [(position, color.getD vec3One)] }
  | .vt uv => { st with uvs := st.uvs ++ [uv] }
  | .vn normal => { st with normals := st.normals ++ [normal] }
  | .f tokens => addFace ops st tokens
  | .other => st

/-- The loop of `Mesh::fromOBJ` over the lines of an opened file. -/
def parse (ops : FloatOps) (lines : List ObjLine) : ObjState :=
  lines.foldl (step ops) {}

/-- The function `Mesh::fromOBJ` on an opened file: the mesh it returns. -/
def fromOBJ (ops : FloatOps) (lines : List ObjLine) : Mesh :=
  { vertices := (parse ops lines).vertices, indices := (parse ops lines).indices }

/-- Float operations for examples: the face normal is the unit z vector. -/
def exampleOps : FloatOps :=
  { faceNormal := fun _ _ _ => vec3UnitZ, isZero := fun v => decide (v = vec3Zero) }

/-- A face token with a position index only. -/
def positionToken (v : Int) : FaceToken := { v := some v, t := none, n := none }

/-- The text `v 0 0 0`, `v 1 0 0`, `v 0 1 0`, `f 1 2 9`: three positions and
a face whose third position index is past the end. -/
def faceBeyondPositions : List ObjLine :=
  [.v ⟨0, 0, 0⟩ none, .v ⟨F32.one, 0, 0⟩ none, .v ⟨0, F32.one, 0⟩ none,
   .f [positionToken 1, positionToken 2, positionToken 9]]

/-- The text of a unit square: four positions and one face `f 1 2 3 4`. -/
def squareLines : List ObjLine :=
  [.v ⟨0, 0, 0⟩ none, .v ⟨F32.one, 0, 0⟩ none, .v ⟨F32.one, F32.one, 0⟩ none,
   .v ⟨0, F32.one, 0⟩ none,
   .f [positionToken 1, positionToken 2, positionToken 3, positionToken 4]]

/-- The indices are vertex positions, and so are the values of `unique`. -/
def IndicesBounded (st : ObjState) : Prop :=
  (∀ idx ∈ st.indices, idx < st.vertices.length) ∧
  (∀ entry ∈ st.unique, entry.2 < st.vertices.length)

end Obj

/-! ## Theorems -/

namespace Vulkan

theorem runCalls_frame_index_lt (cs : List FrameCall) (s : FrameState)
    (h : s.current_frame_index < MAX_FRAMES_IN_FLIGHT) :
    (runCalls cs s).current_frame_index < MAX_FRAMES_IN_FLIGHT := by
  induction cs generalizing s with
  | nil => simpa [runCalls] using h
  | cons c cs ih =>
    have step : (c.apply s).current_frame_index < MAX_FRAMES_IN_FLIGHT := by
      cases c with
      | beginFrame drv => simpa [FrameCall.apply, Vulkan.beginFrame] using h
      | endFrame drv =>
        simp only [FrameCall.apply, Vulkan.endFrame]
        exact Nat.mod_lt _ (by decide)
    simpa [runCalls] using ih (c.apply s) step

/-- C1: for every backend state whose frame index `f` is below the `uint32_t`
maximum, `endFrame` leaves the frame index at `(f + 1) mod 3` and the image
index unchanged, whatever the driver calls returned; and starting from the
initial state the frame index is below 3 after every sequence of
`beginFrame`/`endFrame` calls. -/
theorem endFrame_advances_frame_index :
    (∀ (drv : EndFrameDriver) (s : FrameState),
      s.current_frame_index + 1 < UINT32_RANGE →
        (endFrame drv s).2.current_frame_index = (s.current_frame_index + 1) % 3 ∧
        (endFrame drv s).2.current_image_index = s.current_image_index) ∧
    (∀ cs : List FrameCall,
      (runCalls cs FrameState.initial).current_frame_index < 3) := by
  refine ⟨?_, ?_⟩
  · intro drv s h
    simp [endFrame, MAX_FRAMES_IN_FLIGHT, Nat.mod_eq_of_lt h]
  · intro cs
    exact runCalls_frame_index_lt cs FrameState.initial (by decide)

/-- Witness for C1 at slot 2 with a failing submit and three calls. -/
theorem endFrame_advances_frame_index_witness :
    (endFrame { EndFrameDriver.allSuccess with queueSubmit := -4 }
        { current_image_index := 1, current_frame_index := 2, in_flight := [] }).2.current_frame_index
      = (2 + 1) % 3 ∧
    (runCalls [.beginFrame (BeginFrameDriver.allSuccess 1), .endFrame EndFrameDriver.allSuccess,
        .endFrame EndFrameDriver.allSuccess] FrameState.initial).current_frame_index < 3 :=
  ⟨(endFrame_advances_frame_index.1 { EndFrameDriver.allSuccess with queueSubmit := -4 }
      { current_image_index := 1, current_frame_index := 2, in_flight := [] } (by decide)).1,
   endFrame_advances_frame_index.2 _⟩

/-- C2: with every driver call answering `VK_SUCCESS`, `beginFrame` and the
`endFrame` that follows it both return `false`, where the legacy backend's
frame calls return `true`. -/
theorem beginFrame_endFrame_false_on_success :
    (beginFrame (BeginFrameDriver.allSuccess 0) FrameState.initial).1 = false ∧
    (endFrame EndFrameDriver.allSuccess
      (beginFrame (BeginFrameDriver.allSuccess 0) FrameState.initial).2).1 = false ∧
    OpenGL.beginFrame = true ∧ OpenGL.endFrame = true := by
  decide

theorem frameInv_length_le {recording : Bool} {s : FrameState} (h : FrameInv recording s) :
    s.in_flight.length ≤ MAX_FRAMES_IN_FLIGHT := by
  obtain ⟨_, hnd, hlt, _⟩ := h
  have hsub : s.in_flight ⊆ List.range MAX_FRAMES_IN_FLIGHT := by
    intro x hx
    exact List.mem_range.mpr (hlt x hx)
  simpa using (hnd.subperm hsub).length_le

theorem frameInv_gpuSignal {recording : Bool} {s : FrameState} (slot : Nat)
    (h : FrameInv recording s) : FrameInv recording ((FrameEvent.gpuSignal slot).apply s) := by
  obtain ⟨hf, hnd, hlt, hrec⟩ := h
  refine ⟨hf, hnd.filter _, ?_, ?_⟩
  · intro x hx
    exact hlt x (List.mem_filter.mp hx).1
  · intro hr hx
    exact hrec hr (List.mem_filter.mp hx).1

theorem frameInv_beginFrame {s : FrameState} (drv : BeginFrameDriver)
    (hw : drv.waitForFences = VK_SUCCESS) (h : FrameInv false s) :
    FrameInv true (Vulkan.beginFrame drv s).2 := by
  obtain ⟨hf, hnd, hlt, _⟩ := h
  refine ⟨hf, ?_, ?_, ?_⟩
  · simpa [Vulkan.beginFrame, hw] using hnd.filter _
  · intro x hx
    simp only [Vulkan.beginFrame, hw, if_true] at hx
    exact hlt x (List.mem_filter.mp hx).1
  · intro _ hx
    simp [Vulkan.beginFrame, hw] at hx

theorem frameInv_endFrame {s : FrameState} (drv : EndFrameDriver) (h : FrameInv true s) :
    FrameInv false (Vulkan.endFrame drv s).2 := by
  obtain ⟨hf, hnd, hlt, hrec⟩ := h
  have hnot := hrec rfl
  refine ⟨Nat.mod_lt _ (by decide), ?_, ?_, ?_⟩
  · by_cases hs : drv.queueSubmit = VK_SUCCESS
    · simp only [Vulkan.endFrame, hs, if_true]
      exact List.Nodup.append hnd (List.nodup_singleton _) (by simpa using hnot)
    · simpa [Vulkan.endFrame, hs] using hnd
  · intro x hx
    by_cases hs : drv.queueSubmit = VK_SUCCESS
    · simp only [Vulkan.endFrame, hs, if_true, List.mem_append, List.mem_singleton] at hx
      rcases hx with hx | hx
      · exact hlt x hx
      · exact hx ▸ hf
    · simp only [Vulkan.endFrame, hs, if_false] at hx
      exact hlt x hx
  · intro hr
    cases hr

theorem trace_frameInv (evs : List FrameEvent) (recording : Bool) (s : FrameState)
    (hc : isCycles recording evs = true) (hw : waitsSucceed evs = true)
    (h : FrameInv recording s) :
    ∀ st ∈ trace evs s, st.in_flight.length ≤ MAX_FRAMES_IN_FLIGHT := by
  induction evs generalizing recording s with
  | nil =>
    intro st hst
    simp only [trace, List.mem_singleton] at hst
    exact hst ▸ frameInv_length_le h
  | cons e es ih =>
    intro st hst
    simp only [trace, List.mem_cons] at hst
    rcases hst with hst | hst
    · exact hst ▸ frameInv_length_le h
    · cases e with
      | gpuSignal slot =>
        exact ih recording _ (by simpa [isCycles] using hc) (by simpa [waitsSucceed] using hw)
          (frameInv_gpuSignal slot h) st hst
      | call c =>
        cases c with
        | beginFrame drv =>
          simp only [isCycles, Bool.and_eq_true, Bool.not_eq_true'] at hc
          simp only [waitsSucceed, Bool.and_eq_true, decide_eq_true_eq] at hw
          obtain ⟨hrec, hc⟩ := hc
          subst hrec
          exact ih true _ hc hw.2 (frameInv_beginFrame drv hw.1 h) st hst
        | endFrame drv =>
          simp only [isCycles, Bool.and_eq_true] at hc
          obtain ⟨hrec, hc⟩ := hc
          subst hrec
          exact ih false _ hc (by simpa [waitsSucceed] using hw) (frameInv_endFrame drv h) st hst

/-- C4 as stated fails: after three cycles without a fence signal, a fourth
cycle whose fence wait returns an error submits a fourth command buffer while
the first three are still in flight. -/
theorem in_flight_exceeds_after_failed_wait :
    isCycles false (successCycle ++ successCycle ++ successCycle ++ failedWaitCycle) = true ∧
    ∃ st ∈ trace (successCycle ++ successCycle ++ successCycle ++ failedWaitCycle)
        FrameState.initial,
      MAX_FRAMES_IN_FLIGHT < st.in_flight.length := by
  refine ⟨by decide, ?_⟩
  refine ⟨{ current_image_index := 0, current_frame_index := 1, in_flight := [0, 1, 2, 0] },
    by decide, by decide⟩

/-- C4, amended: on every run of consecutive `beginFrame`/`endFrame` cycles
from the initial state in which each fence wait returns `VK_SUCCESS`, with
fences signaling at any moment and whatever the other driver calls return, no
state of the run has more than 3 command buffers in flight. -/
theorem in_flight_bounded (evs : List FrameEvent)
    (hc : isCycles false evs = true) (hw : waitsSucceed evs = true) :
    ∀ st ∈ trace evs FrameState.initial, st.in_flight.length ≤ 3 :=
  trace_frameInv evs false FrameState.initial hc hw
    ⟨by decide, List.nodup_nil, by simp [FrameState.initial], by simp⟩

/-- Witness for C4: four successful cycles with no fence signal in between. -/
theorem in_flight_bounded_witness :
    isCycles false (successCycle ++ successCycle ++ successCycle ++ successCycle) = true ∧
    waitsSucceed (successCycle ++ successCycle ++ successCycle ++ successCycle) = true ∧
    ∀ st ∈ trace (successCycle ++ successCycle ++ successCycle ++ successCycle)
        FrameState.initial, st.in_flight.length ≤ 3 :=
  ⟨by decide, by decide,
   in_flight_bounded (successCycle ++ successCycle ++ successCycle ++ successCycle)
     (by decide) (by decide)⟩

end Vulkan

namespace Instance

/-- C3: when the backend's `beginFrame` and `endFrame` return `false`, the
main loop still calls `onRender`, ends the frame and runs the next
iteration. -/
theorem run_continues_after_failed_frame :
    run true [vulkanIteration, vulkanIteration] =
      [.onInit,
       .pollEvents, .onUpdate, .beginFrame, .updateUniformBuffer, .onRender, .endFrame,
       .windowUpdate,
       .pollEvents, .onUpdate, .beginFrame, .updateUniformBuffer, .onRender, .endFrame,
       .windowUpdate] := by
  decide

end Instance


namespace MeshManager.Vulkan

theorem uploadMesh_of_settled (drv : Allocator) (m : MeshInfo.Vulkan)
    (log : List CreateBufferCall) (h : Settled m) : uploadMesh drv m log = (m, log) := by
  unfold Settled at h
  simp [uploadMesh, h]

theorem uploadVertices_flags (drv : Allocator) (m : MeshInfo.Vulkan)
    (log : List CreateBufferCall) :
    (uploadVertices drv m log).1.alive = m.alive ∧
    (uploadVertices drv m log).1.gpu_uploaded = m.gpu_uploaded ∧
    (uploadVertices drv m log).1.cpu_vertices = m.cpu_vertices ∧
    (uploadVertices drv m log).1.cpu_indices = m.cpu_indices ∧
    (uploadVertices drv m log).1.index_buffer = m.index_buffer := by
  unfold uploadVertices
  split <;> simp

theorem uploadIndices_flags (drv : Allocator) (m : MeshInfo.Vulkan)
    (log : List CreateBufferCall) :
    (uploadIndices drv m log).1.alive = m.alive ∧
    (uploadIndices drv m log).1.gpu_uploaded = m.gpu_uploaded ∧
    (uploadIndices drv m log).1.cpu_vertices = m.cpu_vertices ∧
    (uploadIndices drv m log).1.cpu_indices = m.cpu_indices ∧
    (uploadIndices drv m log).1.vertex_buffer = m.vertex_buffer := by
  unfold uploadIndices
  split <;> simp

theorem uploadMesh_settled (drv : Allocator) (m : MeshInfo.Vulkan)
    (log : List CreateBufferCall) : Settled (uploadMesh drv m log).1 := by
  unfold uploadMesh
  split
  · assumption
  · simp [Settled]

theorem uploadMesh_cpu (drv : Allocator) (m : MeshInfo.Vulkan) (log : List CreateBufferCall) :
    (uploadMesh drv m log).1.cpu_vertices = m.cpu_vertices ∧
    (uploadMesh drv m log).1.cpu_indices = m.cpu_indices := by
  unfold uploadMesh
  split
  · exact ⟨rfl, rfl⟩
  · have hv := uploadVertices_flags drv m log
    have hi := uploadIndices_flags drv (uploadVertices drv m log).1 (uploadVertices drv m log).2
    exact ⟨hi.2.2.1.trans hv.2.2.1, hi.2.2.2.1.trans hv.2.2.2.1⟩

theorem uploadLoop_of_settled (drv : Allocator) (ms : List MeshInfo.Vulkan)
    (log : List CreateBufferCall) (h : ∀ m ∈ ms, Settled m) :
    uploadLoop drv ms log = (ms, log) := by
  induction ms generalizing log with
  | nil => rfl
  | cons m ms ih =>
    have hm := uploadMesh_of_settled drv m log (h m (List.mem_cons_self _ _))
    have hrest := ih log (fun x hx => h x (List.mem_cons_of_mem _ hx))
    simp [uploadLoop, hm, hrest]

theorem uploadLoop_settled (drv : Allocator) (ms : List MeshInfo.Vulkan)
    (log : List CreateBufferCall) : ∀ m ∈ (uploadLoop drv ms log).1, Settled m := by
  induction ms generalizing log with
  | nil => intro m hm; simp [uploadLoop] at hm
  | cons x xs ih =>
    intro m hm
    simp only [uploadLoop, List.mem_cons] at hm
    rcases hm with hm | hm
    · exact hm ▸ uploadMesh_settled drv x log
    · exact ih _ m hm

theorem uploadLoop_cpu (drv : Allocator) (ms : List MeshInfo.Vulkan)
    (log : List CreateBufferCall) :
    (uploadLoop drv ms log).1.map (fun m => (m.cpu_vertices, m.cpu_indices)) =
      ms.map (fun m => (m.cpu_vertices, m.cpu_indices)) := by
  induction ms generalizing log with
  | nil => rfl
  | cons x xs ih =>
    have hx := uploadMesh_cpu drv x log
    simp [uploadLoop, hx.1, hx.2, ih]

/-- C5: on every manager state and for every pair of allocators, a second
`uploadPending` right after a first one returns the state unchanged: the log
of `createBuffer` calls does not grow and every tracked entry is the same. -/
theorem uploadPending_idempotent (first second : Allocator) (s : MeshManager.Vulkan) :
    uploadPending second (uploadPending first s) = uploadPending first s := by
  have h := uploadLoop_of_settled second (uploadLoop first s.meshes s.createBuffer_log).1
    (uploadLoop first s.meshes s.createBuffer_log).2
    (uploadLoop_settled first s.meshes s.createBuffer_log)
  simp [uploadPending, h]

theorem uploadVertices_buffer (drv : Allocator) (m : MeshInfo.Vulkan)
    (log : List CreateBufferCall) :
    (m.cpu_vertices = [] → (uploadVertices drv m log).1.vertex_buffer = m.vertex_buffer) ∧
    (AllocatorSucceeds drv → m.cpu_vertices ≠ [] →
      (uploadVertices drv m log).1.vertex_buffer ≠ VK_NULL_HANDLE) := by
  unfold uploadVertices
  refine ⟨fun h => by simp [h], fun hok hne => ?_⟩
  have hne2 : m.cpu_vertices.isEmpty = false := by
    cases hv : m.cpu_vertices with
    | nil => exact absurd hv hne
    | cons _ _ => rfl
  simp only [hne2, Bool.false_eq_true, if_false]
  exact (hok _ _ _ _ _).2

theorem uploadIndices_buffer (drv : Allocator) (m : MeshInfo.Vulkan)
    (log : List CreateBufferCall) :
    (m.cpu_indices = [] → (uploadIndices drv m log).1.index_buffer = m.index_buffer) ∧
    (AllocatorSucceeds drv → m.cpu_indices ≠ [] →
      (uploadIndices drv m log).1.index_buffer ≠ VK_NULL_HANDLE) := by
  unfold uploadIndices
  refine ⟨fun h => by simp [h], fun hok hne => ?_⟩
  have hne2 : m.cpu_indices.isEmpty = false := by
    cases hv : m.cpu_indices with
    | nil => exact absurd hv hne
    | cons _ _ => rfl
  simp only [hne2, Bool.false_eq_true, if_false]
  exact (hok _ _ _ _ _).2

theorem uploadMesh_fields (drv : Allocator) (m : MeshInfo.Vulkan)
    (log : List CreateBufferCall) (h : ¬ Settled m) :
    (uploadMesh drv m log).1.gpu_uploaded = true ∧
    (uploadMesh drv m log).1.alive = m.alive ∧
    (m.cpu_vertices = [] → (uploadMesh drv m log).1.vertex_buffer = m.vertex_buffer) ∧
    (m.cpu_indices = [] → (uploadMesh drv m log).1.index_buffer = m.index_buffer) ∧
    (AllocatorSucceeds drv →
      (m.cpu_vertices ≠ [] → (uploadMesh drv m log).1.vertex_buffer ≠ VK_NULL_HANDLE) ∧
      (m.cpu_indices ≠ [] → (uploadMesh drv m log).1.index_buffer ≠ VK_NULL_HANDLE)) := by
  have hv := uploadVertices_flags drv m log
  have hvb := uploadVertices_buffer drv m log
  have hi := uploadIndices_flags drv (uploadVertices drv m log).1 (uploadVertices drv m log).2
  have hib := uploadIndices_buffer drv (uploadVertices drv m log).1 (uploadVertices drv m log).2
  unfold Settled at h
  simp only [uploadMesh, h, if_false]
  refine ⟨rfl, hi.1.trans hv.1, ?_, ?_, ?_⟩
  · intro he
    exact hi.2.2.2.2.trans (hvb.1 he)
  · intro he
    exact (hib.1 (hv.2.2.2.1.trans he)).trans hv.2.2.2.2
  · intro hok
    refine ⟨fun hne => ?_, fun hne => ?_⟩
    · show (uploadIndices drv _ _).1.vertex_buffer ≠ VK_NULL_HANDLE
      rw [hi.2.2.2.2]
      exact hvb.2 hok hne
    · exact hib.2 hok (by rw [hv.2.2.2.1]; exact hne)

theorem uploadMesh_buffersImplyUploaded (drv : Allocator) (m : MeshInfo.Vulkan)
    (log : List CreateBufferCall) (h : BuffersImplyUploaded m) :
    BuffersImplyUploaded (uploadMesh drv m log).1 := by
  by_cases hs : Settled m
  · rw [uploadMesh_of_settled drv m log hs]
    exact h
  · obtain ⟨hup, hal, hvb, hib, _⟩ := uploadMesh_fields drv m log hs
    obtain ⟨hcv, hci⟩ := uploadMesh_cpu drv m log
    obtain ⟨h1, h2, h3, h4⟩ := h
    have hnot : m.gpu_uploaded = false := by
      unfold Settled at hs
      simp only [h4, Bool.not_true, Bool.false_or] at hs
      simpa using hs
    refine ⟨fun hf => ?_, fun he => ?_, fun he => ?_, hal.trans h4⟩
    · rw [hup] at hf
      cases hf
    · rw [hcv] at he
      exact (hvb he).trans (h1 hnot).1
    · rw [hci] at he
      exact (hib he).trans (h1 hnot).2

theorem uploadMesh_uploadedHasBuffers (drv : Allocator) (hok : AllocatorSucceeds drv)
    (m : MeshInfo.Vulkan) (log : List CreateBufferCall) (h : UploadedHasBuffers m) :
    UploadedHasBuffers (uploadMesh drv m log).1 := by
  by_cases hs : Settled m
  · rw [uploadMesh_of_settled drv m log hs]
    exact h
  · obtain ⟨_, _, _, _, hgood⟩ := uploadMesh_fields drv m log hs
    obtain ⟨hcv, hci⟩ := uploadMesh_cpu drv m log
    intro _
    refine ⟨fun hne => (hgood hok).1 (by rw [← hcv]; exact hne),
      fun hne => (hgood hok).2 (by rw [← hci]; exact hne)⟩

theorem uploadLoop_forall (P : MeshInfo.Vulkan → Prop) (drv : Allocator)
    (hP : ∀ m log, P m → P (uploadMesh drv m log).1) (ms : List MeshInfo.Vulkan)
    (log : List CreateBufferCall) (h : ∀ m ∈ ms, P m) :
    ∀ m ∈ (uploadLoop drv ms log).1, P m := by
  induction ms generalizing log with
  | nil => intro m hm; simp [uploadLoop] at hm
  | cons x xs ih =>
    intro m hm
    simp only [uploadLoop, List.mem_cons] at hm
    rcases hm with hm | hm
    · exact hm ▸ hP x log (h x (List.mem_cons_self _ _))
    · exact ih _ (fun y hy => h y (List.mem_cons_of_mem _ hy)) m hm

theorem runOps_buffersImplyUploaded (ops : List Op) (s : MeshManager.Vulkan)
    (h : ∀ m ∈ s.meshes, BuffersImplyUploaded m) :
    ∀ m ∈ (runOps ops s).meshes, BuffersImplyUploaded m := by
  induction ops generalizing s with
  | nil => simpa [runOps] using h
  | cons op ops ih =>
    have step : ∀ m ∈ (op.apply s).meshes, BuffersImplyUploaded m := by
      cases op with
      | addMesh mesh =>
        intro m hm
        simp only [Op.apply, addMesh, List.mem_append, List.mem_singleton] at hm
        rcases hm with hm | hm
        · exact h m hm
        · subst hm
          simp [BuffersImplyUploaded]
      | uploadPending drv =>
        exact uploadLoop_forall _ drv (uploadMesh_buffersImplyUploaded drv) _ _ h
    simpa [runOps] using ih (op.apply s) step

theorem runOps_uploadedHasBuffers (ops : List Op) (s : MeshManager.Vulkan)
    (hok : AllocationsSucceed ops) (h : ∀ m ∈ s.meshes, UploadedHasBuffers m) :
    ∀ m ∈ (runOps ops s).meshes, UploadedHasBuffers m := by
  induction ops generalizing s with
  | nil => simpa [runOps] using h
  | cons op ops ih =>
    cases op with
    | addMesh mesh =>
      have step : ∀ m ∈ ((Op.addMesh mesh).apply s).meshes, UploadedHasBuffers m := by
        intro m hm
        simp only [Op.apply, addMesh, List.mem_append, List.mem_singleton] at hm
        rcases hm with hm | hm
        · exact h m hm
        · subst hm
          simp [UploadedHasBuffers]
      simpa [runOps] using ih _ hok step
    | uploadPending drv =>
      have step : ∀ m ∈ ((Op.uploadPending drv).apply s).meshes, UploadedHasBuffers m :=
        uploadLoop_forall _ drv (uploadMesh_uploadedHasBuffers drv hok.1) _ _ h
      simpa [runOps] using ih _ hok.2 step

/-- C6 as stated fails: a mesh without vertices and indices is marked
uploaded by `uploadPending` while both of its buffer handles stay null, even
on an allocator that never fails. -/
theorem uploaded_without_buffers :
    (runOps [.addMesh emptyMesh, .uploadPending goodAllocator] empty).meshes =
      [{ cpu_vertices := [], cpu_indices := [], gpu_uploaded := true, alive := true,
         vertex_buffer := VK_NULL_HANDLE, index_buffer := VK_NULL_HANDLE,
         vertex_memory := VK_NULL_HANDLE, index_memory := VK_NULL_HANDLE }] := by
  decide

/-- C6, amended: in every state reachable from the empty manager by `addMesh`
and `uploadPending`, whatever the allocator returns, a tracked mesh with a
non-null vertex or index buffer handle has `gpu_uploaded` set, and a mesh
with no vertex (index) data has a null vertex (index) handle; and when every
`createBuffer` call succeeded with a non-null handle, the vertex (index)
buffer handle is non-null exactly when the mesh is uploaded and its vertex
(index) data is not empty. -/
theorem buffers_exist_iff_uploaded_nonempty (ops : List Op) (m : MeshInfo.Vulkan)
    (hm : m ∈ (runOps ops empty).meshes) :
    ((m.vertex_buffer ≠ VK_NULL_HANDLE ∨ m.index_buffer ≠ VK_NULL_HANDLE) →
      m.gpu_uploaded = true) ∧
    (m.cpu_vertices = [] → m.vertex_buffer = VK_NULL_HANDLE) ∧
    (m.cpu_indices = [] → m.index_buffer = VK_NULL_HANDLE) ∧
    (AllocationsSucceed ops →
      (m.vertex_buffer ≠ VK_NULL_HANDLE ↔ (m.gpu_uploaded = true ∧ m.cpu_vertices ≠ [])) ∧
      (m.index_buffer ≠ VK_NULL_HANDLE ↔ (m.gpu_uploaded = true ∧ m.cpu_indices ≠ []))) := by
  obtain ⟨h1, h2, h3, _⟩ :=
    runOps_buffersImplyUploaded ops empty (by simp [empty]) m hm
  have hup : ∀ b : Handle, b ≠ VK_NULL_HANDLE → (m.gpu_uploaded = false → b = VK_NULL_HANDLE) →
      m.gpu_uploaded = true := by
    intro b hb himp
    cases hu : m.gpu_uploaded with
    | true => rfl
    | false => exact absurd (himp hu) hb
  refine ⟨?_, h2, h3, fun hok => ?_⟩
  · rintro (hv | hi)
    · exact hup _ hv (fun hu => (h1 hu).1)
    · exact hup _ hi (fun hu => (h1 hu).2)
  · have hU := runOps_uploadedHasBuffers ops empty hok (by simp [empty]) m hm
    refine ⟨⟨fun hv => ⟨hup _ hv (fun hu => (h1 hu).1), fun he => hv (h2 he)⟩,
        fun ⟨hu, hne⟩ => (hU hu).1 hne⟩,
      ⟨fun hi => ⟨hup _ hi (fun hu => (h1 hu).2), fun he => hi (h3 he)⟩,
        fun ⟨hu, hne⟩ => (hU hu).2 hne⟩⟩

theorem goodAllocator_succeeds : AllocatorSucceeds goodAllocator := by
  intro n size usage buffer memory
  have h76 : (7 &&& 6 : Nat) = 6 := by decide
  simp [goodAllocator, h76, Engine.Vulkan.createBuffer, Engine.Vulkan.createRawBuffer,
    Engine.Vulkan.CreateBufferDriver.allSuccess, Engine.Vulkan.RawBufferDriver.allSuccess,
    Engine.Vulkan.findMemoryType, Engine.Vulkan.findMemoryTypeFrom,
    Engine.Vulkan.beginSingleTimeCommands, Engine.Vulkan.endSingleTimeCommands,
    Engine.Vulkan.UINT32_MAX, UINT32_RANGE, VK_SUCCESS, VK_NULL_HANDLE,
    Engine.Vulkan.VK_MEMORY_PROPERTY_DEVICE_LOCAL_BIT,
    Engine.Vulkan.VK_MEMORY_PROPERTY_HOST_VISIBLE_BIT,
    Engine.Vulkan.VK_MEMORY_PROPERTY_HOST_COHERENT_BIT]

/-- Witness for C6: a triangle added and uploaded on a succeeding allocator
has both buffers and is marked uploaded. -/
theorem buffers_exist_iff_uploaded_nonempty_witness :
    AllocationsSucceed [.addMesh triangle, .uploadPending goodAllocator] ∧
    ∃ m ∈ (runOps [.addMesh triangle, .uploadPending goodAllocator] empty).meshes,
      m.vertex_buffer = 10 ∧ m.index_buffer = 12 ∧
      (m.vertex_buffer ≠ VK_NULL_HANDLE ↔ (m.gpu_uploaded = true ∧ m.cpu_vertices ≠ [])) ∧
      (m.index_buffer ≠ VK_NULL_HANDLE ↔ (m.gpu_uploaded = true ∧ m.cpu_indices ≠ [])) := by
  have hok : AllocationsSucceed [.addMesh triangle, .uploadPending goodAllocator] :=
    ⟨goodAllocator_succeeds, trivial⟩
  refine ⟨hok, ?_⟩
  refine ⟨{ cpu_vertices := triangle.vertices, cpu_indices := triangle.indices,
            gpu_uploaded := true, alive := true, vertex_buffer := 10, index_buffer := 12,
            vertex_memory := 11, index_memory := 13 }, by decide, rfl, rfl, ?_⟩
  exact (buffers_exist_iff_uploaded_nonempty
    [.addMesh triangle, .uploadPending goodAllocator] _ (by decide)).2.2.2 hok

theorem op_apply_cpu (op : Op) (s : MeshManager.Vulkan) (k : Nat)
    (d : List Mesh.Vertex × List Nat)
    (h : (s.meshes.map (fun m => (m.cpu_vertices, m.cpu_indices)))[k]? = some d) :
    ((op.apply s).meshes.map (fun m => (m.cpu_vertices, m.cpu_indices)))[k]? = some d := by
  cases op with
  | addMesh mesh =>
    simp only [Op.apply, addMesh, List.map_append]
    rw [List.getElem?_append_left]
    · exact h
    · exact (List.getElem?_eq_some.mp h).1
  | uploadPending drv =>
    simp only [Op.apply, uploadPending]
    rw [uploadLoop_cpu]
    exact h

theorem runOps_cpu (ops : List Op) (s : MeshManager.Vulkan) (k : Nat)
    (d : List Mesh.Vertex × List Nat)
    (h : (s.meshes.map (fun m => (m.cpu_vertices, m.cpu_indices)))[k]? = some d) :
    ((runOps ops s).meshes.map (fun m => (m.cpu_vertices, m.cpu_indices)))[k]? = some d := by
  induction ops generalizing s with
  | nil => simpa [runOps] using h
  | cons op ops ih => simpa [runOps] using ih (op.apply s) (op_apply_cpu op s k d h)

theorem uploadLoop_length (drv : Allocator) (ms : List MeshInfo.Vulkan)
    (log : List CreateBufferCall) : (uploadLoop drv ms log).1.length = ms.length := by
  have h := congrArg List.length (uploadLoop_cpu drv ms log)
  simpa using h

theorem runOps_length (ops : List Op) (s : MeshManager.Vulkan) :
    (runOps ops s).meshes.length = s.meshes.length + countAdd ops := by
  induction ops generalizing s with
  | nil => simp [runOps, countAdd]
  | cons op ops ih =>
    have h := ih (op.apply s)
    cases op with
    | addMesh mesh =>
      simp only [runOps, List.foldl_cons] at h ⊢
      rw [h]
      simp [Op.apply, addMesh, countAdd]
      omega
    | uploadPending drv =>
      simp only [runOps, List.foldl_cons] at h ⊢
      rw [h]
      simp [Op.apply, uploadPending, uploadLoop_length, countAdd]

/-- C7: on an initially empty manager, after any operations containing `k`
calls of `addMesh` (with `k` in the range of the 32-bit handle), the next
`addMesh` returns handle `k`, and after any later sequence of `addMesh` and
`uploadPending` calls `get k` succeeds with an entry whose CPU vertices and
indices are those of the mesh passed to that call. -/
theorem addMesh_handle_stable (before later : List Op) (mesh : Mesh)
    (hk : countAdd before < UINT32_RANGE) :
    (addMesh mesh (runOps before empty)).1 = countAdd before ∧
    ∃ e, get (countAdd before) (runOps later (addMesh mesh (runOps before empty)).2) = some e ∧
      e.cpu_vertices = mesh.vertices ∧ e.cpu_indices = mesh.indices := by
  have hlen : (runOps before empty).meshes.length = countAdd before := by
    simpa [empty] using runOps_length before empty
  refine ⟨by simp [addMesh, hlen, Nat.mod_eq_of_lt hk], ?_⟩
  have hat : (((addMesh mesh (runOps before empty)).2).meshes.map
      (fun m => (m.cpu_vertices, m.cpu_indices)))[countAdd before]? =
        some (mesh.vertices, mesh.indices) := by
    simp only [addMesh, List.map_append, List.map_cons, List.map_nil]
    rw [List.getElem?_append_right (by simp [hlen])]
    simp [hlen]
  have hfin := runOps_cpu later _ _ _ hat
  rw [List.getElem?_map] at hfin
  obtain ⟨e, he, hd⟩ := Option.map_eq_some'.mp hfin
  have hlt : countAdd before <
      (runOps later (addMesh mesh (runOps before empty)).2).meshes.length :=
    (List.getElem?_eq_some.mp he).1
  refine ⟨e, by simp only [get, hlt, if_true]; exact he, ?_, ?_⟩
  · exact congrArg Prod.fst hd
  · exact congrArg Prod.snd hd

/-- Witness for C7: the second mesh added gets handle 1 and is still found
there after an upload and a third mesh. -/
theorem addMesh_handle_stable_witness :
    countAdd [.addMesh emptyMesh, .uploadPending goodAllocator] < UINT32_RANGE ∧
    (addMesh triangle (runOps [.addMesh emptyMesh, .uploadPending goodAllocator] empty)).1 = 1 ∧
    ∃ e, get 1 (runOps [.uploadPending failingAllocator, .addMesh emptyMesh]
        (addMesh triangle
          (runOps [.addMesh emptyMesh, .uploadPending goodAllocator] empty)).2) = some e ∧
      e.cpu_vertices = triangle.vertices ∧ e.cpu_indices = triangle.indices :=
  ⟨by decide,
   addMesh_handle_stable [.addMesh emptyMesh, .uploadPending goodAllocator]
     [.uploadPending failingAllocator, .addMesh emptyMesh] triangle (by decide)⟩

end MeshManager.Vulkan

namespace MeshManager.OpenGL

/-- C8: on a manager holding one uploaded triangle, a second `uploadPending`
with nothing newly added makes sixteen more driver calls, three object
creations and two buffer uploads among them, and replaces the entry's
vao/vbo/ibo names. -/
theorem uploadPending_repeats_work :
    uploadedOnce.gl_log.length = 16 ∧
    uploadedOnce.meshes.map (fun m => (m.vao, m.vbo, m.ibo)) = [(1, 2, 3)] ∧
    (uploadPending freshNames uploadedOnce).gl_log.length = 32 ∧
    (uploadPending freshNames uploadedOnce).gl_log.drop 16 =
      [.genVertexArrays 4, .genBuffers 5, .genBuffers 6,
       .bindVertexArray 4, .bindArrayBuffer 5, .arrayBufferData 132,
       .bindElementArrayBuffer 6, .elementArrayBufferData 12,
       .enableVertexAttribArray 0, .vertexAttribPointer 0 3 0,
       .enableVertexAttribArray 1, .vertexAttribPointer 1 3 12,
       .enableVertexAttribArray 2, .vertexAttribPointer 2 3 32,
       .enableVertexAttribArray 3, .vertexAttribPointer 3 2 24] ∧
    (uploadPending freshNames uploadedOnce).meshes.map (fun m => (m.vao, m.vbo, m.ibo)) =
      [(4, 5, 6)] := by
  decide

end MeshManager.OpenGL

namespace DeviceManager

/-- C9: with a graphics-only device enumerated before a present-only device,
neither of which has both kinds of queue family, `pickPhysicalDevice` returns
`true` and selects the present-only device, pairing it with the graphics
family index left over from the first device; enumerated alone, the same
present-only device is rejected. -/
theorem pickPhysicalDevice_selects_unsuitable :
    hasGraphicsFamily graphicsOnlyDevice = true ∧ hasPresentFamily graphicsOnlyDevice = false ∧
    hasGraphicsFamily presentOnlyDevice = false ∧ hasPresentFamily presentOnlyDevice = true ∧
    (pickPhysicalDevice
      { countResult := VK_SUCCESS, listResult := VK_SUCCESS,
        devices := [presentOnlyDevice] } {}).1 = false ∧
    pickPhysicalDevice
      { countResult := VK_SUCCESS, listResult := VK_SUCCESS,
        devices := [graphicsOnlyDevice, presentOnlyDevice] } {} =
      (true, { physical_device := 102, graphics_queue_family := some 0,
               present_queue_family := some 0 }) := by
  decide

theorem setInsert_pair (g p : Nat) :
    setInsert p (setInsert g []) =
      if p < g then [p, g] else if p = g then [g] else [g, p] := by
  simp [setInsert]

/-- C10: when both queue families are known (`g` for graphics, `p` for
present) and the swapchain extension is available, `createLogicalDevice`
passes a create info to `vkCreateDevice` in which every queue entry asks for
one queue with priority 1.0; there is one entry, for family `g`, when
`g = p`, and two entries with different family indices, `g` and `p`, when
`g ≠ p`; and when device creation succeeds with `g = p`, the graphics and
present queue handles are both the queue the driver gives for
`(device, g, 0)`. -/
theorem createLogicalDevice_queue_requests (drv : LogicalDeviceDriver) (s : DeviceManager)
    (g p : Nat) (hg : s.graphics_queue_family = some g) (hp : s.present_queue_family = some p)
    (hext : checkDeviceExtensionSupport (drv.deviceExtensions s.physical_device)
      [VK_KHR_SWAPCHAIN_EXTENSION_NAME] = true) :
    ∃ info, (createLogicalDevice drv s).request = some info ∧
      (∀ q ∈ info.queue_infos, q.queueCount = 1 ∧ q.priority = F32.one) ∧
      (g = p → info.queue_infos.map (fun q => q.queueFamilyIndex) = [g]) ∧
      (g ≠ p → info.queue_infos.length = 2 ∧
        (info.queue_infos.map (fun q => q.queueFamilyIndex)).Nodup ∧
        ∀ f, f ∈ info.queue_infos.map (fun q => q.queueFamilyIndex) ↔ f = g ∨ f = p) ∧
      ((createLogicalDevice drv s).ok = true → g = p →
        (createLogicalDevice drv s).manager.graphics_queue =
          (createLogicalDevice drv s).manager.present_queue ∧
        (createLogicalDevice drv s).manager.graphics_queue =
          drv.getDeviceQueue (createLogicalDevice drv s).manager.device g 0) := by
  refine ⟨{ queue_infos := (setInsert p (setInsert g [])).map (fun family =>
              { queueFamilyIndex := family, queueCount := 1, priority := F32.one }),
            enabled_extensions := [VK_KHR_SWAPCHAIN_EXTENSION_NAME] }, ?_, ?_, ?_, ?_, ?_⟩
  · unfold createLogicalDevice
    simp only [hg, hp, hext, Bool.not_true, Bool.false_eq_true, if_false]
    split <;> rfl
  · intro q hq
    simp only [List.mem_map] at hq
    obtain ⟨_, _, rfl⟩ := hq
    exact ⟨rfl, rfl⟩
  · intro h
    subst h
    simp [setInsert_pair]
  · intro h
    have hpg : ¬ p = g := fun e => h e.symm
    rw [List.map_map, setInsert_pair]
    by_cases hlt : p < g
    · simp only [hlt, if_true]
      refine ⟨by simp, by simp [hpg], fun f => ?_⟩
      simp only [List.map_cons, List.map_nil, Function.comp, List.mem_cons, List.mem_nil_iff,
        or_false]
      exact or_comm
    · simp only [hlt, hpg, if_false]
      refine ⟨by simp, by simp [h], fun f => ?_⟩
      simp only [List.map_cons, List.map_nil, Function.comp, List.mem_cons, List.mem_nil_iff,
        or_false]
  · intro hok h
    subst h
    unfold createLogicalDevice at hok ⊢
    simp only [hg, hp, hext, Bool.not_true, Bool.false_eq_true, if_false] at hok ⊢
    split
    · rename_i hc
      rw [if_pos hc] at hok
      cases hok
    · exact ⟨rfl, rfl⟩

/-- Witness for C10 (scenario A): with family 2 serving both roles the
driver gets one queue request, for family 2, and both queue handles are the
queue of `(device 7, family 2, index 0)`. -/
theorem createLogicalDevice_queue_requests_witness :
    ∃ info, (createLogicalDevice simpleDriver
        { physical_device := 5, graphics_queue_family := some 2,
          present_queue_family := some 2 }).request = some info ∧
      info.queue_infos = [⟨2, 1, F32.one⟩] ∧
      (createLogicalDevice simpleDriver
        { physical_device := 5, graphics_queue_family := some 2,
          present_queue_family := some 2 }).manager.graphics_queue = 7021 ∧
      (createLogicalDevice simpleDriver
        { physical_device := 5, graphics_queue_family := some 2,
          present_queue_family := some 2 }).manager.present_queue = 7021 := by
  obtain ⟨info, hreq, _, _, _, hqueue⟩ := createLogicalDevice_queue_requests simpleDriver
    { physical_device := 5, graphics_queue_family := some 2, present_queue_family := some 2 }
    2 2 rfl rfl (by decide)
  have hq := hqueue (by decide) rfl
  refine ⟨info, hreq, ?_, ?_, ?_⟩
  · have h : (createLogicalDevice simpleDriver
        { physical_device := 5, graphics_queue_family := some 2,
          present_queue_family := some 2 }).request =
        some { queue_infos := [⟨2, 1, F32.one⟩],
               enabled_extensions := [VK_KHR_SWAPCHAIN_EXTENSION_NAME] } := by decide
    rw [h] at hreq
    exact (Option.some.inj hreq) ▸ rfl
  · rw [hq.2]
    decide
  · rw [← hq.1, hq.2]
    decide

/-- C11: when the driver enumerates no physical device, `init` on a fresh
manager returns `false`, makes no `vkCreateDevice` call, and leaves the
physical device, the device, both queue handles and both queue family
indices unset; only the instance and surface handles are stored. -/
theorem init_without_devices (instance_handle surface : Handle) (enumerated : EnumerateDriver)
    (drv : LogicalDeviceDriver) (h : enumerated.devices = []) :
    (init instance_handle surface enumerated drv {}).ok = false ∧
    (init instance_handle surface enumerated drv {}).request = none ∧
    (init instance_handle surface enumerated drv {}).manager.physical_device = VK_NULL_HANDLE ∧
    (init instance_handle surface enumerated drv {}).manager.device = VK_NULL_HANDLE ∧
    (init instance_handle surface enumerated drv {}).manager.graphics_queue = VK_NULL_HANDLE ∧
    (init instance_handle surface enumerated drv {}).manager.present_queue = VK_NULL_HANDLE ∧
    (init instance_handle surface enumerated drv {}).manager.graphics_queue_family = none ∧
    (init instance_handle surface enumerated drv {}).manager.present_queue_family = none := by
  have hpick : ∀ s, pickPhysicalDevice enumerated s = (false, s) := by
    intro s
    unfold pickPhysicalDevice
    split
    · rfl
    · simp [h]
  simp [init, hpick]

/-- Witness for C11 (scenario B): an empty enumeration that itself succeeds. -/
theorem init_without_devices_witness :
    (init 1 2 { countResult := VK_SUCCESS, listResult := VK_SUCCESS, devices := [] }
      simpleDriver {}).ok = false ∧
    (init 1 2 { countResult := VK_SUCCESS, listResult := VK_SUCCESS, devices := [] }
      simpleDriver {}).manager = { instance_handle := 1, surface := 2 } :=
  ⟨(init_without_devices 1 2
      { countResult := VK_SUCCESS, listResult := VK_SUCCESS, devices := [] } simpleDriver rfl).1,
   by decide⟩

theorem checkDeviceExtensionSupport_iff (available required : List String) :
    checkDeviceExtensionSupport available required = true ↔
      ∀ ext ∈ required, ∃ name ∈ available, name = ext := by
  simp [checkDeviceExtensionSupport, List.all_eq_true, List.any_eq_true]

theorem createLogicalDevice_without_swapchain (drv : LogicalDeviceDriver) (s : DeviceManager)
    (h : VK_KHR_SWAPCHAIN_EXTENSION_NAME ∉ drv.deviceExtensions s.physical_device) :
    (createLogicalDevice drv s).ok = false ∧ (createLogicalDevice drv s).request = none ∧
    (createLogicalDevice drv s).manager = s := by
  have hcheck : checkDeviceExtensionSupport (drv.deviceExtensions s.physical_device)
      [VK_KHR_SWAPCHAIN_EXTENSION_NAME] = false := by
    cases hc : checkDeviceExtensionSupport (drv.deviceExtensions s.physical_device)
        [VK_KHR_SWAPCHAIN_EXTENSION_NAME] with
    | false => rfl
    | true =>
      obtain ⟨name, hmem, hname⟩ :=
        (checkDeviceExtensionSupport_iff _ _).mp hc VK_KHR_SWAPCHAIN_EXTENSION_NAME
          (List.mem_singleton.mpr rfl)
      exact absurd (hname ▸ hmem) h
  unfold createLogicalDevice
  split
  · simp [hcheck]
  · exact ⟨rfl, rfl, rfl⟩

/-- C12: `checkDeviceExtensionSupport` returns `true` exactly when every
required extension name is the name of some available extension; when the
swapchain extension is not among the extensions of the selected device,
`createLogicalDevice` returns `false`, makes no `vkCreateDevice` call and
leaves the manager as it was; and `init`, once `pickPhysicalDevice` has
selected such a device, returns `false` with the manager exactly as
`pickPhysicalDevice` left it, the selected device included. -/
theorem missing_swapchain_extension_fails :
    (∀ available required : List String,
      checkDeviceExtensionSupport available required = true ↔
        ∀ ext ∈ required, ∃ name ∈ available, name = ext) ∧
    (∀ (drv : LogicalDeviceDriver) (s : DeviceManager),
      VK_KHR_SWAPCHAIN_EXTENSION_NAME ∉ drv.deviceExtensions s.physical_device →
        (createLogicalDevice drv s).ok = false ∧ (createLogicalDevice drv s).request = none ∧
        (createLogicalDevice drv s).manager = s) ∧
    (∀ (instance_handle surface : Handle) (enumerated : EnumerateDriver)
        (drv : LogicalDeviceDriver) (s : DeviceManager),
      (pickPhysicalDevice enumerated
        { s with instance_handle := instance_handle, surface := surface }).1 = true →
      VK_KHR_SWAPCHAIN_EXTENSION_NAME ∉ drv.deviceExtensions
        (pickPhysicalDevice enumerated
          { s with instance_handle := instance_handle, surface := surface }).2.physical_device →
        (init instance_handle surface enumerated drv s).ok = false ∧
        (init instance_handle surface enumerated drv s).request = none ∧
        (init instance_handle surface enumerated drv s).manager =
          (pickPhysicalDevice enumerated
            { s with instance_handle := instance_handle, surface := surface }).2) := by
  refine ⟨checkDeviceExtensionSupport_iff, createLogicalDevice_without_swapchain, ?_⟩
  intro instance_handle surface enumerated drv s hpick hmiss
  obtain ⟨hok, hreq, hman⟩ := createLogicalDevice_without_swapchain drv _ hmiss
  simp only [init, hpick, hok, hreq, hman, Bool.not_true, Bool.not_false, Bool.false_eq_true,
    if_false, if_true, and_self]

/-- Witness for C12: two suitable devices are enumerated and the driver
reports no swapchain extension; `init` fails with the first device still
selected and no logical device. -/
theorem missing_swapchain_extension_fails_witness :
    checkDeviceExtensionSupport ["VK_KHR_maintenance1", "VK_KHR_swapchain"]
      [VK_KHR_SWAPCHAIN_EXTENSION_NAME] = true ∧
    checkDeviceExtensionSupport ["VK_KHR_maintenance1"] [VK_KHR_SWAPCHAIN_EXTENSION_NAME] =
      false ∧
    (init 1 2 { countResult := VK_SUCCESS, listResult := VK_SUCCESS,
                devices := [completeDevice, { completeDevice with handle := 104 }] }
        driverWithoutSwapchain {}).ok = false ∧
    (init 1 2 { countResult := VK_SUCCESS, listResult := VK_SUCCESS,
                devices := [completeDevice, { completeDevice with handle := 104 }] }
        driverWithoutSwapchain {}).manager =
      { physical_device := 103, graphics_queue_family := some 0,
        present_queue_family := some 0, instance_handle := 1, surface := 2 } := by
  have h := missing_swapchain_extension_fails.2.2 1 2
    { countResult := VK_SUCCESS, listResult := VK_SUCCESS,
      devices := [completeDevice, { completeDevice with handle := 104 }] }
    driverWithoutSwapchain {} (by decide) (by decide)
  refine ⟨by decide, by decide, h.1, ?_⟩
  rw [h.2.2]
  decide

end DeviceManager

namespace Vulkan

theorem filter_bit_iff (type_filter i : Nat) (hi : i < 32) :
    (type_filter &&& ((1 <<< i) % UINT32_RANGE)) ≠ 0 ↔ type_filter.testBit i = true := by
  have hpow : (1 <<< i) % UINT32_RANGE = 2 ^ i := by
    rw [Nat.one_shiftLeft]
    exact Nat.mod_eq_of_lt (Nat.pow_lt_pow_right (by decide) hi)
  rw [hpow]
  constructor
  · intro h
    obtain ⟨j, hj⟩ := Nat.ne_zero_implies_bit_true h
    rw [Nat.testBit_and, Nat.testBit_two_pow] at hj
    simp only [Bool.and_eq_true, decide_eq_true_eq] at hj
    exact hj.2 ▸ hj.1
  · intro h hz
    have := congrArg (fun x => Nat.testBit x i) hz
    simp [Nat.testBit_and, Nat.testBit_two_pow, h] at this

theorem flags_include_iff (flags properties : Nat) :
    (flags &&& properties) = properties ↔
      ∀ j, properties.testBit j = true → flags.testBit j = true := by
  constructor
  · intro h j hj
    rw [← h, Nat.testBit_and] at hj
    simp only [Bool.and_eq_true] at hj
    exact hj.1
  · intro h
    apply Nat.eq_of_testBit_eq
    intro j
    rw [Nat.testBit_and]
    cases hp : properties.testBit j with
    | false => simp
    | true => simp [h j hp]

theorem findMemoryTypeFrom_spec (type_filter properties : Nat) (l : List Nat) (k : Nat)
    (hk : k + l.length ≤ 32) :
    (findMemoryTypeFrom type_filter properties k l = UINT32_MAX ∧
      ∀ n flags, l[n]? = some flags →
        ¬ (type_filter.testBit (k + n) = true ∧
          ∀ j, properties.testBit j = true → flags.testBit j = true)) ∨
    (∃ n flags, l[n]? = some flags ∧
      findMemoryTypeFrom type_filter properties k l = k + n ∧
      type_filter.testBit (k + n) = true ∧
      (∀ j, properties.testBit j = true → flags.testBit j = true) ∧
      ∀ m other, m < n → l[m]? = some other →
        ¬ (type_filter.testBit (k + m) = true ∧
          ∀ j, properties.testBit j = true → other.testBit j = true)) := by
  induction l generalizing k with
  | nil =>
    left
    exact ⟨rfl, by intro n flags h; simp at h⟩
  | cons flags rest ih =>
    have hk32 : k < 32 := by simp at hk; omega
    by_cases hstep : (type_filter &&& ((1 <<< k) % UINT32_RANGE)) ≠ 0 ∧
        (flags &&& properties) = properties
    · right
      refine ⟨0, flags, by simp, by simp [findMemoryTypeFrom, hstep], ?_, ?_, ?_⟩
      · exact (filter_bit_iff _ _ hk32).mp hstep.1
      · exact (flags_include_iff _ _).mp hstep.2
      · intro m other hm
        omega
    · have hrest : findMemoryTypeFrom type_filter properties k (flags :: rest) =
          findMemoryTypeFrom type_filter properties (k + 1) rest := by
        simp only [findMemoryTypeFrom, hstep, if_false]
      have hno : ¬ (type_filter.testBit (k + 0) = true ∧
          ∀ j, properties.testBit j = true → flags.testBit j = true) := by
        intro h
        exact hstep ⟨(filter_bit_iff _ _ hk32).mpr h.1, (flags_include_iff _ _).mpr h.2⟩
      rcases ih (k + 1) (by simp at hk ⊢; omega) with ⟨hmax, hnone⟩ | ⟨n, fl, hget, hres, hbit, hinc, hmin⟩
      · left
        refine ⟨hrest.trans hmax, ?_⟩
        intro n fl hget
        cases n with
        | zero =>
          simp at hget
          subst hget
          exact hno
        | succ n =>
          have := hnone n fl (by simpa using hget)
          rwa [show k + 1 + n = k + (n + 1) by omega] at this
      · right
        refine ⟨n + 1, fl, by simpa using hget, ?_, ?_, hinc, ?_⟩
        · rw [hrest, hres]; omega
        · rwa [show k + 1 + n = k + (n + 1) by omega] at hbit
        · intro m other hm hgetm
          cases m with
          | zero =>
            simp at hgetm
            subst hgetm
            exact hno
          | succ m =>
            have := hmin m other (by omega) (by simpa using hgetm)
            rwa [show k + 1 + m = k + (m + 1) by omega] at this

/-- C13: for every type filter, property mask and table of at most 32 memory
types, `findMemoryType` returns `i` (a value other than `0xFFFFFFFF`) exactly
when `i` is the smallest index whose filter bit is set and whose property
flags include every requested flag, and it returns `0xFFFFFFFF` exactly when
no index is such a match. -/
theorem findMemoryType_first_match (memoryTypes : List Nat) (type_filter properties : Nat)
    (hlen : memoryTypes.length ≤ 32) :
    (∀ i, (findMemoryType memoryTypes type_filter properties = i ∧ i ≠ UINT32_MAX) ↔
      (MemoryTypeMatches memoryTypes type_filter properties i ∧
        ∀ j, j < i → ¬ MemoryTypeMatches memoryTypes type_filter properties j)) ∧
    (findMemoryType memoryTypes type_filter properties = UINT32_MAX ↔
      ∀ i, ¬ MemoryTypeMatches memoryTypes type_filter properties i) := by
  have hmax : UINT32_MAX = 4294967295 := by decide
  rcases findMemoryTypeFrom_spec type_filter properties memoryTypes 0 (by omega) with
    ⟨hres, hnone⟩ | ⟨n, flags, hget, hres, hbit, hinc, hmin⟩
  · have hno : ∀ i, ¬ MemoryTypeMatches memoryTypes type_filter properties i := by
      rintro i ⟨hb, fl, hg, hi⟩
      exact hnone i fl hg ⟨by simpa using hb, hi⟩
    refine ⟨fun i => ⟨?_, fun h => absurd h.1 (hno i)⟩, ⟨fun _ => hno, fun _ => hres⟩⟩
    rintro ⟨hr, hne⟩
    exact absurd (hr.symm.trans hres) hne
  · simp only [Nat.zero_add] at hres hbit hmin
    have hn : n < memoryTypes.length := (List.getElem?_eq_some.mp hget).1
    have hmatch : MemoryTypeMatches memoryTypes type_filter properties n :=
      ⟨hbit, flags, hget, hinc⟩
    have hminimal : ∀ j, j < n → ¬ MemoryTypeMatches memoryTypes type_filter properties j := by
      rintro j hj ⟨hb, fl, hg, hi⟩
      exact hmin j fl hj hg ⟨hb, hi⟩
    have hr : findMemoryType memoryTypes type_filter properties = n := hres
    refine ⟨fun i => ⟨?_, ?_⟩, ⟨?_, ?_⟩⟩
    · rintro ⟨hi, _⟩
      rw [hr] at hi
      subst hi
      exact ⟨hmatch, hminimal⟩
    · rintro ⟨hi, hismall⟩
      have hin : i = n := by
        rcases Nat.lt_trichotomy i n with h | h | h
        · exact absurd hi (hminimal i h)
        · exact h
        · exact absurd hmatch (hismall n h)
      subst hin
      exact ⟨hr, by rw [hmax]; omega⟩
    · intro h
      rw [hr, hmax] at h
      omega
    · intro h
      exact absurd hmatch (h n)

/-- Witness for C13: of three memory types, type 1 is the first one allowed
by the filter `0b110` that is host-visible and host-coherent. -/
theorem findMemoryType_first_match_witness :
    [1, 6, 7].length ≤ 32 ∧ findMemoryType [1, 6, 7] 6 6 = 1 ∧
    MemoryTypeMatches [1, 6, 7] 6 6 1 ∧ findMemoryType [1, 6, 7] 1 6 = UINT32_MAX :=
  ⟨by decide, by decide,
   (((findMemoryType_first_match [1, 6, 7] 6 6 (by decide)).1 1).mp ⟨by decide, by decide⟩).1,
   by decide⟩

/-- C14 as stated fails: with a successful `vkCreateBuffer` and no matching
memory type, `createRawBuffer` returns `false` with the buffer output holding
the new buffer `42`, not the null handle it had on entry. -/
theorem createRawBuffer_keeps_created_buffer :
    findMemoryType deviceLocalOnlyDriver.memoryTypes deviceLocalOnlyDriver.memoryTypeBits
      (VK_MEMORY_PROPERTY_HOST_VISIBLE_BIT ||| VK_MEMORY_PROPERTY_HOST_COHERENT_BIT) =
        UINT32_MAX ∧
    createRawBuffer deviceLocalOnlyDriver 64 VK_BUFFER_USAGE_TRANSFER_SRC_BIT
      (VK_MEMORY_PROPERTY_HOST_VISIBLE_BIT ||| VK_MEMORY_PROPERTY_HOST_COHERENT_BIT)
      VK_NULL_HANDLE VK_NULL_HANDLE = (false, 42, VK_NULL_HANDLE) := by
  decide

theorem findMemoryType_max_of_no_match (memoryTypes : List Nat) (type_filter properties : Nat)
    (hlen : memoryTypes.length ≤ 32)
    (hnone : ∀ i, ¬ MemoryTypeMatches memoryTypes type_filter properties i) :
    findMemoryType memoryTypes type_filter properties = UINT32_MAX := by
  rcases findMemoryTypeFrom_spec type_filter properties memoryTypes 0 (by omega) with
    ⟨hres, _⟩ | ⟨n, flags, hget, _, hbit, hinc, _⟩
  · exact hres
  · simp only [Nat.zero_add] at hbit
    exact absurd ⟨hbit, flags, hget, hinc⟩ (hnone n)

/-- C14, amended: when `vkCreateBuffer` succeeded and no memory type (of at
most 32) has its bit in the buffer's `memoryTypeBits` together with every
requested property, `createRawBuffer` returns `false`, leaves the memory
output at its entry value, and leaves in the buffer output the handle
`vkCreateBuffer` stored. -/
theorem createRawBuffer_without_memory_type (drv : RawBufferDriver)
    (size usage properties : Nat) (buffer memory : Handle)
    (hcreate : drv.createBuffer = VK_SUCCESS) (hlen : drv.memoryTypes.length ≤ 32)
    (hnone : ∀ i, ¬ MemoryTypeMatches drv.memoryTypes drv.memoryTypeBits properties i) :
    createRawBuffer drv size usage properties buffer memory =
      (false, drv.bufferHandle, memory) := by
  have hmax := findMemoryType_max_of_no_match drv.memoryTypes drv.memoryTypeBits properties
    hlen hnone
  simp [createRawBuffer, hcreate, hmax]

/-- Witness for C14: the device-local-only driver asked for host-visible
memory, with outputs `7` and `8` on entry. -/
theorem createRawBuffer_without_memory_type_witness :
    createRawBuffer deviceLocalOnlyDriver 64 VK_BUFFER_USAGE_TRANSFER_SRC_BIT
      VK_MEMORY_PROPERTY_HOST_VISIBLE_BIT 7 8 = (false, 42, 8) := by
  refine createRawBuffer_without_memory_type deviceLocalOnlyDriver 64
    VK_BUFFER_USAGE_TRANSFER_SRC_BIT VK_MEMORY_PROPERTY_HOST_VISIBLE_BIT 7 8
    (by decide) (by decide) ?_
  rintro i ⟨_, flags, hget, hinc⟩
  cases i with
  | zero =>
    have hflags : flags = 1 := by
      simpa [deviceLocalOnlyDriver, VK_MEMORY_PROPERTY_DEVICE_LOCAL_BIT] using hget.symm
    subst hflags
    exact absurd (hinc 1 (by decide)) (by decide)
  | succ n => simp [deviceLocalOnlyDriver] at hget

end Vulkan

namespace Vulkan

theorem findPreferredFormat_of_mem (formats : List SurfaceFormat)
    (h : preferredSurfaceFormat ∈ formats) :
    findPreferredFormat formats = some preferredSurfaceFormat := by
  induction formats with
  | nil => simp at h
  | cons format rest ih =>
    by_cases hf : format.format = VK_FORMAT_B8G8R8A8_SRGB ∧
        format.colorSpace = VK_COLOR_SPACE_SRGB_NONLINEAR_KHR
    · have heq : format = preferredSurfaceFormat := by
        cases format
        simp only [preferredSurfaceFormat, SurfaceFormat.mk.injEq]
        exact hf
      rw [heq]
      simp [findPreferredFormat, preferredSurfaceFormat]
    · have hne : preferredSurfaceFormat ≠ format := by
        intro he
        exact hf (he ▸ ⟨rfl, rfl⟩)
      have hrest : preferredSurfaceFormat ∈ rest := by
        rcases List.mem_cons.mp h with h | h
        · exact absurd h hne
        · exact h
      simp only [findPreferredFormat, hf, if_false]
      exact ih hrest

theorem findPreferredFormat_of_not_mem (formats : List SurfaceFormat)
    (h : preferredSurfaceFormat ∉ formats) : findPreferredFormat formats = none := by
  induction formats with
  | nil => rfl
  | cons format rest ih =>
    have hf : ¬ (format.format = VK_FORMAT_B8G8R8A8_SRGB ∧
        format.colorSpace = VK_COLOR_SPACE_SRGB_NONLINEAR_KHR) := by
      intro hf
      apply h
      have heq : format = preferredSurfaceFormat := by
        cases format
        simp only [preferredSurfaceFormat, SurfaceFormat.mk.injEq]
        exact hf
      exact heq ▸ List.mem_cons_self _ _
    simp only [findPreferredFormat, hf, if_false]
    exact ih (fun hmem => h (List.mem_cons_of_mem _ hmem))

/-- C15: for every non-empty list of surface formats,
`chooseSwapSurfaceFormat` returns the (B8G8R8A8_SRGB, SRGB_NONLINEAR) entry
when the list contains it, and the first entry of the list otherwise. -/
theorem chooseSwapSurfaceFormat_preferred_or_first (first : SurfaceFormat)
    (rest : List SurfaceFormat) :
    (preferredSurfaceFormat ∈ first :: rest →
      chooseSwapSurfaceFormat (first :: rest) = some preferredSurfaceFormat) ∧
    (preferredSurfaceFormat ∉ first :: rest →
      chooseSwapSurfaceFormat (first :: rest) = some first) := by
  refine ⟨fun h => ?_, fun h => ?_⟩
  · simp [chooseSwapSurfaceFormat, findPreferredFormat_of_mem _ h]
  · simp [chooseSwapSurfaceFormat, findPreferredFormat_of_not_mem _ h]

/-- Witness for C15: the preferred pair in second place is chosen; a list
without it gives its first entry. -/
theorem chooseSwapSurfaceFormat_preferred_or_first_witness :
    chooseSwapSurfaceFormat [⟨44, 0⟩, ⟨50, 0⟩, ⟨37, 0⟩] = some ⟨50, 0⟩ ∧
    chooseSwapSurfaceFormat [⟨44, 0⟩, ⟨50, 7⟩, ⟨37, 0⟩] = some ⟨44, 0⟩ :=
  ⟨(chooseSwapSurfaceFormat_preferred_or_first ⟨44, 0⟩ [⟨50, 0⟩, ⟨37, 0⟩]).1 (by decide),
   (chooseSwapSurfaceFormat_preferred_or_first ⟨44, 0⟩ [⟨50, 7⟩, ⟨37, 0⟩]).2 (by decide)⟩

theorem findPresentMode_eq (wanted : Nat) (modes : List Nat) :
    findPresentMode wanted modes = if wanted ∈ modes then some wanted else none := by
  induction modes with
  | nil => rfl
  | cons mode rest ih =>
    by_cases hm : mode = wanted
    · simp [findPresentMode, hm]
    · have hne : ¬ wanted = mode := fun h => hm h.symm
      simp [findPresentMode, hm, hne, ih]

/-- C16 as stated fails: in a build that does not define `DEBUG`, for the list
of FIFO and IMMEDIATE, which lacks MAILBOX, `choosePresentMode` returns FIFO
and the logger receives no line at all. -/
theorem choosePresentMode_silent_without_debug :
    VK_PRESENT_MODE_MAILBOX_KHR ∉ [2, 0] ∧
    choosePresentMode false [2, 0] = (VK_PRESENT_MODE_FIFO_KHR, []) := by
  decide

/-- C16, amended: for every list of present modes and in every build,
`choosePresentMode` returns MAILBOX and logs nothing when the list contains
MAILBOX; when it does not, it returns FIFO, and the logger receives exactly
one line, the warning about the fallback, in a build that defines `DEBUG`,
and no line in a build that does not. -/
theorem choosePresentMode_mailbox_or_fifo (DEBUG : Bool) (modes : List Nat) :
    (VK_PRESENT_MODE_MAILBOX_KHR ∈ modes →
      choosePresentMode DEBUG modes = (VK_PRESENT_MODE_MAILBOX_KHR, [])) ∧
    (VK_PRESENT_MODE_MAILBOX_KHR ∉ modes →
      (choosePresentMode DEBUG modes).1 = VK_PRESENT_MODE_FIFO_KHR ∧
      (DEBUG = true →
        (choosePresentMode DEBUG modes).2 =
          [{ level := LogLevel.warn,
             fmt := "[GraphicsAPI::Vulkan]: Vsync is enabled, but mailbox mode is not supported, falling back to FIFO mode",
             args := [] }]) ∧
      (DEBUG = false → (choosePresentMode DEBUG modes).2 = [])) := by
  refine ⟨fun h => ?_, fun h => ⟨?_, fun hd => ?_, fun hd => ?_⟩⟩
  · simp [choosePresentMode, findPresentMode_eq, h]
  · simp [choosePresentMode, findPresentMode_eq, h]
  · simp [choosePresentMode, findPresentMode_eq, h, LOG_WARN, hd]
  · simp [choosePresentMode, findPresentMode_eq, h, LOG_WARN, hd]

/-- Witness for C16: a list with MAILBOX, and the list of FIFO and IMMEDIATE
in a build with `DEBUG` and in a build without. -/
theorem choosePresentMode_mailbox_or_fifo_witness :
    choosePresentMode true [2, 1, 0] = (VK_PRESENT_MODE_MAILBOX_KHR, []) ∧
    (choosePresentMode true [2, 0]).1 = VK_PRESENT_MODE_FIFO_KHR ∧
    (choosePresentMode true [2, 0]).2 =
      [{ level := LogLevel.warn,
         fmt := "[GraphicsAPI::Vulkan]: Vsync is enabled, but mailbox mode is not supported, falling back to FIFO mode",
         args := [] }] ∧
    (choosePresentMode false [2, 0]).2 = [] :=
  ⟨(choosePresentMode_mailbox_or_fifo true [2, 1, 0]).1 (by decide),
   ((choosePresentMode_mailbox_or_fifo true [2, 0]).2 (by decide)).1,
   ((choosePresentMode_mailbox_or_fifo true [2, 0]).2 (by decide)).2.1 rfl,
   ((choosePresentMode_mailbox_or_fifo false [2, 0]).2 (by decide)).2.2 rfl⟩

/-- C17: for every surface-capabilities value, `chooseSwapExtent` returns
1280x720 when the current extent width is `0xFFFFFFFF`, and the current
extent unchanged in every other case. -/
theorem chooseSwapExtent_sentinel (capabilities : SurfaceCapabilities) :
    (capabilities.currentExtent.width = 0xFFFFFFFF →
      chooseSwapExtent capabilities = { width := 1280, height := 720 }) ∧
    (capabilities.currentExtent.width ≠ 0xFFFFFFFF →
      chooseSwapExtent capabilities = capabilities.currentExtent) := by
  have hmax : UINT32_MAX = 0xFFFFFFFF := by decide
  refine ⟨fun h => ?_, fun h => ?_⟩
  · simp [chooseSwapExtent, hmax, h]
  · simp [chooseSwapExtent, hmax, h]

/-- Witness for C17: the sentinel extent and an 800x600 extent. -/
theorem chooseSwapExtent_sentinel_witness :
    chooseSwapExtent { minImageCount := 2, maxImageCount := 3,
                       currentExtent := ⟨0xFFFFFFFF, 0xFFFFFFFF⟩ } = ⟨1280, 720⟩ ∧
    chooseSwapExtent { minImageCount := 2, maxImageCount := 3,
                       currentExtent := ⟨800, 600⟩ } = ⟨800, 600⟩ :=
  ⟨(chooseSwapExtent_sentinel _).1 rfl, (chooseSwapExtent_sentinel _).2 (by decide)⟩

/-- C18: the image count of `createSwapchain` is `minImageCount + 1` in 32-bit
arithmetic, replaced by `maxImageCount` exactly when `maxImageCount` is
nonzero and smaller than that sum; so with `maxImageCount > 0` the count is
at most `maxImageCount`, and with `minImageCount < 2^32 - 1` the count is
greater than `minImageCount` or equal to `maxImageCount`. -/
theorem swapchainImageCount_clamped (capabilities : SurfaceCapabilities) :
    ((capabilities.maxImageCount ≠ 0 ∧
        capabilities.maxImageCount < (capabilities.minImageCount + 1) % 2 ^ 32) →
      swapchainImageCount capabilities = capabilities.maxImageCount) ∧
    (¬ (capabilities.maxImageCount ≠ 0 ∧
        capabilities.maxImageCount < (capabilities.minImageCount + 1) % 2 ^ 32) →
      swapchainImageCount capabilities = (capabilities.minImageCount + 1) % 2 ^ 32) ∧
    (0 < capabilities.maxImageCount →
      swapchainImageCount capabilities ≤ capabilities.maxImageCount) ∧
    (capabilities.minImageCount < 2 ^ 32 - 1 →
      capabilities.minImageCount < swapchainImageCount capabilities ∨
      swapchainImageCount capabilities = capabilities.maxImageCount) := by
  have hrange : UINT32_RANGE = 2 ^ 32 := rfl
  unfold swapchainImageCount
  rw [hrange]
  dsimp only
  refine ⟨fun h => ?_, fun h => ?_, fun h => ?_, fun h => ?_⟩
  · rw [if_pos ⟨Nat.pos_of_ne_zero h.1, h.2⟩]
  · rw [if_neg (fun hc => h ⟨Nat.pos_iff_ne_zero.mp hc.1, hc.2⟩)]
  · split
    · exact Nat.le_refl _
    · rename_i hc
      have : ¬ (capabilities.minImageCount + 1) % 2 ^ 32 > capabilities.maxImageCount :=
        fun hgt => hc ⟨h, hgt⟩
      omega
  · split
    · exact Or.inr rfl
    · left
      rw [Nat.mod_eq_of_lt (by omega)]
      omega

/-- Witness for C18: a driver with minimum 2 and maximum 2, one with no
maximum, and one at the top of the 32-bit range. -/
theorem swapchainImageCount_clamped_witness :
    swapchainImageCount { minImageCount := 2, maxImageCount := 2, currentExtent := ⟨0, 0⟩ } = 2 ∧
    swapchainImageCount { minImageCount := 2, maxImageCount := 0, currentExtent := ⟨0, 0⟩ } = 3 ∧
    swapchainImageCount
      { minImageCount := 4294967295, maxImageCount := 8, currentExtent := ⟨0, 0⟩ } = 0 :=
  ⟨(swapchainImageCount_clamped _).1 (by decide),
   (swapchainImageCount_clamped _).2.1 (by decide),
   (swapchainImageCount_clamped
      { minImageCount := 4294967295, maxImageCount := 8, currentExtent := ⟨0, 0⟩ }).2.1
      (by decide)⟩

end Vulkan

namespace Vulkan

/-- C19: after `setClearColor` with red `1.0`, green `0.5`, blue `0.25` and
alpha `1.0` (as bit patterns), the clear value of the next `beginFrame` has
channel 2 equal to green, not blue; the legacy backend passes blue. -/
theorem setClearColor_stores_green_twice :
    renderPassClearValues
        (setClearColor ⟨0x3F800000, 0x3F000000, 0x3E800000⟩ 0x3F800000 ClearValue.zero) =
      [{ float32 := [0x3F800000, 0x3F000000, 0x3F000000, 0x3F800000] }] ∧
    OpenGL.setClearColor ⟨0x3F800000, 0x3F000000, 0x3E800000⟩ 0x3F800000 =
      [0x3F800000, 0x3F000000, 0x3E800000, 0x3F800000] := by
  decide

/-- C20: `updateUBO` for the camera buffer with the bytes 1, 2, 3, 4 at offset
0 returns `true`, and afterwards every frame slot of the camera buffer still
holds the four zero bytes it held before. -/
theorem updateUBO_true_without_write :
    (updateUBO .Camera [1, 2, 3, 4] 4 0 zeroCameraBuffers).1 = true ∧
    readUniformSlot (updateUBO .Camera [1, 2, 3, 4] 4 0 zeroCameraBuffers).2 .Camera 0 0 4 =
      some [0, 0, 0, 0] ∧
    readUniformSlot (updateUBO .Camera [1, 2, 3, 4] 4 0 zeroCameraBuffers).2 .Camera 1 0 4 =
      some [0, 0, 0, 0] ∧
    readUniformSlot (updateUBO .Camera [1, 2, 3, 4] 4 0 zeroCameraBuffers).2 .Camera 2 0 4 =
      some [0, 0, 0, 0] := by
  decide

end Vulkan

namespace DescriptorManager

/-- C21 as stated fails: `updateSet` for the camera sets with frame index 3,
one past the three allocated sets, writes no descriptor and returns `false`,
in a build with `DEBUG` (where the logger receives one error line with the
arguments 3 and 3) and in a build without (where it receives nothing). -/
theorem updateSet_out_of_range_returns_false :
    updateSet true .Camera ⟨40, 0, 64⟩ 3 cameraSets =
      some { ok := false,
             log := [{ level := .error,
                       fmt := "[GraphicsAPI::Vulkan::DescriptorManager]: Invalid frame index \x7b\x7d >= \x7b\x7d",
                       args := [3, 3] }],
             writes := [] } ∧
    updateSet false .Camera ⟨40, 0, 64⟩ 3 cameraSets =
      some { ok := false, log := [], writes := [] } := by
  decide

/-- C21, amended: in every build, `updateSet` called for a type with allocated
descriptor data and a frame index that is out of range for its sets returns,
writes no descriptor and returns `false`; the logger receives exactly one
line, an error carrying the frame index and the number of sets, in a build
that defines `DEBUG`, and no line in a build that does not. -/
theorem updateSet_out_of_range (DEBUG : Bool) (type : UniformBufferType)
    (buffer_info : DescriptorBufferInfo) (frame_index : Nat) (s : DescriptorManager)
    (data : DescriptorData)
    (hdata : dataAt s type = some data) (hrange : data.sets.length ≤ frame_index) :
    ∃ r, updateSet DEBUG type buffer_info frame_index s = some r ∧
      r.ok = false ∧ r.writes = [] ∧
      (DEBUG = true →
        r.log =
          [{ level := Vulkan.LogLevel.error,
             fmt := "[GraphicsAPI::Vulkan::DescriptorManager]: Invalid frame index \x7b\x7d >= \x7b\x7d",
             args := [frame_index, data.sets.length] }]) ∧
      (DEBUG = false → r.log = []) := by
  refine ⟨{ ok := false,
            log := Vulkan.LOG_ERROR DEBUG
              "[GraphicsAPI::Vulkan::DescriptorManager]: Invalid frame index \x7b\x7d >= \x7b\x7d"
              [frame_index, data.sets.length],
            writes := [] }, ?_, rfl, rfl, fun hd => ?_, fun hd => ?_⟩
  · simp only [updateSet, hdata]
    rw [if_pos hrange]
  · simp [Vulkan.LOG_ERROR, hd]
  · simp [Vulkan.LOG_ERROR, hd]

/-- Witness for C21: frame index 7 on the three camera sets, in a build with
`DEBUG`. -/
theorem updateSet_out_of_range_witness :
    ∃ r, updateSet true .Camera ⟨40, 0, 64⟩ 7 cameraSets = some r ∧
      r.ok = false ∧ r.writes = [] ∧
      (true = true →
        r.log =
          [{ level := Vulkan.LogLevel.error,
             fmt := "[GraphicsAPI::Vulkan::DescriptorManager]: Invalid frame index \x7b\x7d >= \x7b\x7d",
             args := [7, 3] }]) ∧
      (true = false → r.log = []) :=
  updateSet_out_of_range true .Camera ⟨40, 0, 64⟩ 7 cameraSets
    { layout := 20, pool := 21, sets := [31, 32, 33] } (by decide) (by decide)

end DescriptorManager

namespace PipelineVulkan

/-- C22: with a vertex stage path and an empty fragment path, on a driver
where everything succeeds, `create` loads one shader module and hands
`vkCreateGraphicsPipelines` a stage count of 2 with a one-element stage
array. -/
theorem create_stage_count_fixed :
    (create goodDriver { vertex := "block_vert.spv" } {}).ok = true ∧
    (create goodDriver { vertex := "block_vert.spv" } {}).state.modules = [14] ∧
    (create goodDriver { vertex := "block_vert.spv" } {}).request =
      some { stageCount := 2,
             stages_info := [{ stage := VK_SHADER_STAGE_VERTEX_BIT, module := 14,
                               pName := "main" }],
             attribute_descriptions := getAttributeDescriptions } ∧
    ((create goodDriver {} {}).request.map (fun info => (info.stageCount, info.stages_info)) =
      some (2, [])) := by
  decide

/-- C23 as stated fails: the legacy mesh upload binds location 2 to three
floats at the offset of `normal` and location 3 to two floats at the offset
of `uv`, where the explicit pipeline reads `uv` at location 2 and `normal`
at location 3; the two layouts are not the same. -/
theorem legacy_upload_binds_normal_at_two :
    openglAttributes[2]? = some (2, 3, MeshManager.OpenGL.offsetofNormal) ∧
    openglAttributes[3]? = some (3, 2, MeshManager.OpenGL.offsetofUv) ∧
    vulkanAttributes[2]? = some (2, 2, MeshManager.OpenGL.offsetofUv) ∧
    vulkanAttributes[3]? = some (3, 3, MeshManager.OpenGL.offsetofNormal) ∧
    openglAttributes ≠ vulkanAttributes := by
  decide

/-- C23, amended: the explicit pipeline's vertex input has position at
location 0 (3 floats, offset 0), color at 1 (3 floats, offset 12), uv at 2
(2 floats, offset 24) and normal at 3 (3 floats, offset 32); the legacy
upload of any mesh, after any earlier driver calls, enables the locations 0
to 3 and binds position at 0 (3 floats, offset 0), color at 1 (3 floats,
offset 12), normal at 2 (3 floats, offset 32) and uv at 3 (2 floats, offset
24).  Every field is read at its offset in `Mesh::Vertex`; the backends agree
on the locations of position and color and have uv and normal exchanged. -/
theorem attribute_layouts_per_backend (names : MeshManager.OpenGL.NameSource)
    (m : MeshInfo.OpenGL) (log : List GLCall) :
    vulkanAttributes = [(0, 3, 0), (1, 3, 12), (2, 2, 24), (3, 3, 32)] ∧
    (MeshManager.OpenGL.uploadMesh names m log).2.take log.length = log ∧
    attributePointers ((MeshManager.OpenGL.uploadMesh names m log).2.drop log.length) =
      [(0, 3, 0), (1, 3, 12), (2, 3, 32), (3, 2, 24)] ∧
    enabledLocations ((MeshManager.OpenGL.uploadMesh names m log).2.drop log.length) =
      [0, 1, 2, 3] := by
  refine ⟨by decide, ?_, ?_, ?_⟩
  · simp [MeshManager.OpenGL.uploadMesh]
  · simp [MeshManager.OpenGL.uploadMesh, attributePointers, MeshManager.OpenGL.offsetofColor,
      MeshManager.OpenGL.offsetofNormal, MeshManager.OpenGL.offsetofUv]
  · simp [MeshManager.OpenGL.uploadMesh, enabledLocations]

end PipelineVulkan

namespace Vulkan

/-- C24: on a device whose graphics queue is `1` and whose present queue is
`2`, the submit of `endFrame` in slot 0 waits on slot 0's image-available
semaphore, signals slot 0's render-finished semaphore and fence, and goes to
queue `2`, the present queue. -/
theorem endFrame_submits_to_present_queue :
    twoImageResources.graphics_queue = 1 ∧ twoImageResources.present_queue = 2 ∧
    endFrameCalls twoImageResources
        { current_image_index := 1, current_frame_index := 0, in_flight := [] } =
      [.cmdEndRenderPass (some 61), .endCommandBuffer (some 61), .resetFences (some 100),
       .queueSubmit 2 (some 80) VK_PIPELINE_STAGE_COLOR_ATTACHMENT_OUTPUT_BIT (some 61)
         (some 90) (some 100),
       .queuePresent 2 (some 90) 5 1] := by
  decide

/-- C25 as stated fails: when the fence wait of `beginFrame` returns
`VK_ERROR_DEVICE_LOST` (`-4`), the reset of the same fence is still issued. -/
theorem beginFrame_resets_after_failed_wait :
    beginFrameCalls twoImageResources
        { BeginFrameDriver.allSuccess 1 with waitForFences := -4 } FrameState.initial =
      [.waitForFences (some 100), .acquireNextImage 5 (some 80), .resetFences (some 100),
       .resetCommandBuffer (some 61), .beginCommandBuffer (some 61),
       .cmdBeginRenderPass (some 61) (some 71)] := by
  decide

/-- C25, amended: in the driver calls of `beginFrame` the wait on the fence
of slot `f` is the first call and the only reset of a fence, two calls later,
is a reset of that same fence; the reset is issued whatever the wait
returned. -/
theorem beginFrame_wait_precedes_reset (res : FrameResources) (drv : BeginFrameDriver)
    (s : FrameState) :
    (beginFrameCalls res drv s)[0]? = some (.waitForFences (getFence res s.current_frame_index)) ∧
    (beginFrameCalls res drv s)[2]? = some (.resetFences (getFence res s.current_frame_index)) ∧
    (∀ (i : Nat) (fence : Option Handle),
      (beginFrameCalls res drv s)[i]? = some (.resetFences fence) → i = 2) := by
  refine ⟨rfl, rfl, ?_⟩
  intro i fence h
  simp only [beginFrameCalls] at h
  match i, h with
  | 2, _ => rfl
  | 0, h => simp at h
  | 1, h => simp at h
  | 3, h => simp at h
  | 4, h => simp at h
  | 5, h => simp at h
  | n + 6, h => simp at h

end Vulkan

namespace Renderer

/-- C26: in the first frame, with image 1 acquired in slot 0, `beginFrame`
resets and begins command buffer `61` (image 1) while `bindPipeline` records
into command buffer `60` (index 0, the slot); and in slot 2 of a swapchain
with two images the index `bindPipeline` uses is outside the command-buffer
array. -/
theorem bindPipeline_uses_frame_index :
    (Vulkan.beginFrame (Vulkan.BeginFrameDriver.allSuccess 1) Vulkan.FrameState.initial).2 =
      { current_image_index := 1, current_frame_index := 0, in_flight := [] } ∧
    (Vulkan.beginFrameCalls Vulkan.twoImageResources (Vulkan.BeginFrameDriver.allSuccess 1)
        Vulkan.FrameState.initial)[4]? = some (.beginCommandBuffer (some 61)) ∧
    bindPipeline Vulkan.twoImageResources 52
        (Vulkan.beginFrame (Vulkan.BeginFrameDriver.allSuccess 1)
          Vulkan.FrameState.initial).2 = (true, .cmdBindPipeline (some 60) 52) ∧
    Vulkan.twoImageResources.command_buffers.length = 2 ∧
    bindPipeline Vulkan.twoImageResources 52
        { current_image_index := 0, current_frame_index := 2, in_flight := [] } =
      (true, .cmdBindPipeline none 52) := by
  decide

end Renderer

namespace ECS

namespace ComponentArray

theorem mapFind_cons (entry : Nat × Nat) (rest : List (Nat × Nat)) (x : Nat) :
    mapFind (entry :: rest) x = if entry.1 = x then some entry.2 else mapFind rest x := by
  by_cases h : entry.1 = x
  · rw [if_pos h]
    unfold mapFind
    rw [List.find?_cons_of_pos _ (by simpa using h)]
    rfl
  · rw [if_neg h]
    unfold mapFind
    rw [List.find?_cons_of_neg _ (by simpa using h)]

theorem mapErase_cons (entry : Nat × Nat) (rest : List (Nat × Nat)) (key : Nat) :
    mapErase (entry :: rest) key =
      if entry.1 = key then mapErase rest key else entry :: mapErase rest key := by
  by_cases h : entry.1 = key
  · rw [if_pos h]
    unfold mapErase
    rw [List.filter_cons_of_neg (by simpa using h)]
  · rw [if_neg h]
    unfold mapErase
    rw [List.filter_cons_of_pos (by simpa using h)]

theorem mapFind_mapErase (m : List (Nat × Nat)) (key x : Nat) :
    mapFind (mapErase m key) x = if x = key then none else mapFind m x := by
  induction m with
  | nil =>
    have : mapFind (mapErase [] key) x = none := rfl
    rw [this]
    split <;> rfl
  | cons entry rest ih =>
    rw [mapErase_cons, mapFind_cons]
    by_cases hk : entry.1 = key
    · rw [if_pos hk, ih]
      by_cases hx : x = key
      · rw [if_pos hx, if_pos hx]
      · rw [if_neg hx, if_neg hx, if_neg (fun e => hx (e.symm.trans hk))]
    · rw [if_neg hk, mapFind_cons, ih]
      by_cases hx : x = key
      · rw [if_pos hx, if_pos hx, if_neg (fun e => hk (e.trans hx))]
      · rw [if_neg hx, if_neg hx]

theorem mapFind_mapAssign (m : List (Nat × Nat)) (key value x : Nat) :
    mapFind (mapAssign m key value) x = if x = key then some value else mapFind m x := by
  have herase := mapFind_mapErase m key x
  have hcons := mapFind_cons (key, value) (mapErase m key) x
  have hdef : mapAssign m key value = (key, value) :: mapErase m key := rfl
  rw [hdef, hcons, herase]
  by_cases h : x = key
  · rw [if_pos (show (key, value).1 = x from h.symm), if_pos h]
  · rw [if_neg (fun e : (key, value).1 = x => h e.symm), if_neg h, if_neg h]

theorem mapFind_eq_none_iff (m : List (Nat × Nat)) (key : Nat) :
    mapFind m key = none ↔ key ∉ m.map (fun entry => entry.1) := by
  simp only [mapFind, Option.map_eq_none', List.find?_eq_none, List.mem_map, not_exists, not_and]
  constructor
  · intro h entry hmem heq
    exact absurd (h entry hmem) (by simp [heq])
  · intro h entry hmem
    simpa using h entry hmem

theorem mapErase_keys_nodup (m : List (Nat × Nat)) (key : Nat)
    (h : (m.map (fun entry => entry.1)).Nodup) :
    ((mapErase m key).map (fun entry => entry.1)).Nodup := by
  unfold mapErase
  exact (List.Nodup.sublist ((List.filter_sublist m).map _) h)

theorem mapErase_key_not_mem (m : List (Nat × Nat)) (key : Nat) :
    key ∉ (mapErase m key).map (fun entry => entry.1) := by
  simp [mapErase]

theorem mapAssign_keys_nodup (m : List (Nat × Nat)) (key value : Nat)
    (h : (m.map (fun entry => entry.1)).Nodup) :
    ((mapAssign m key value).map (fun entry => entry.1)).Nodup := by
  unfold mapAssign
  rw [List.map_cons, List.nodup_cons]
  exact ⟨mapErase_key_not_mem m key, mapErase_keys_nodup m key h⟩

theorem mapErase_of_not_mem (m : List (Nat × Nat)) (key : Nat)
    (h : key ∉ m.map (fun entry => entry.1)) : mapErase m key = m := by
  unfold mapErase
  rw [List.filter_eq_self]
  intro entry hmem
  have : entry.1 ≠ key := fun e => h (List.mem_map.mpr ⟨entry, hmem, e⟩)
  simpa using this

theorem mapErase_length_of_mem (m : List (Nat × Nat)) (key : Nat)
    (hnd : (m.map (fun entry => entry.1)).Nodup)
    (h : key ∈ m.map (fun entry => entry.1)) : (mapErase m key).length + 1 = m.length := by
  induction m with
  | nil => simp at h
  | cons entry rest ih =>
    rw [List.map_cons, List.nodup_cons] at hnd
    by_cases hk : entry.1 = key
    · have hrest : key ∉ rest.map (fun entry => entry.1) := hk ▸ hnd.1
      have := mapErase_of_not_mem rest key hrest
      unfold mapErase at this ⊢
      simp [List.filter_cons, hk, this]
    · have hmem : key ∈ rest.map (fun entry => entry.1) := by
        rw [List.map_cons, List.mem_cons] at h
        rcases h with h | h
        · exact absurd h.symm hk
        · exact h
      have := ih hnd.2 hmem
      unfold mapErase at this ⊢
      simp [List.filter_cons, hk]
      omega

theorem mapAssign_length_of_mem (m : List (Nat × Nat)) (key value : Nat)
    (hnd : (m.map (fun entry => entry.1)).Nodup)
    (h : key ∈ m.map (fun entry => entry.1)) : (mapAssign m key value).length = m.length := by
  have := mapErase_length_of_mem m key hnd h
  unfold mapErase at this
  simpa [mapAssign] using this

theorem mapAssign_length_of_not_mem (m : List (Nat × Nat)) (key value : Nat)
    (h : key ∉ m.map (fun entry => entry.1)) : (mapAssign m key value).length = m.length + 1 := by
  have := mapErase_of_not_mem m key h
  unfold mapErase at this
  simp [mapAssign, this]

theorem swapAt_length {α : Type} (v : List α) (i j : Nat) : (swapAt v i j).length = v.length := by
  unfold swapAt
  split <;> simp

theorem swapAt_getElem?_first {α : Type} (v : List α) (i : Nat) (hi : i < v.length) :
    (swapAt v i (v.length - 1))[i]? = v[v.length - 1]? := by
  have hlast : v.length - 1 < v.length := by omega
  have hsame : v.length - 1 = i → some v[i] = some v[v.length - 1] := by
    intro h
    have : v[i]? = v[v.length - 1]? := by rw [h]
    rwa [List.getElem?_eq_getElem hi, List.getElem?_eq_getElem hlast] at this
  unfold swapAt
  rw [List.getElem?_eq_getElem hi, List.getElem?_eq_getElem hlast]
  simp only
  rw [List.getElem?_set]
  by_cases h : v.length - 1 = i
  · rw [if_pos h, List.length_set, if_pos hlast]
    exact hsame h
  · rw [if_neg h, List.getElem?_set, if_pos rfl, if_pos hi]

theorem swapAt_dropLast_getElem? {α : Type} (v : List α) (i j : Nat) (hi : i < v.length) :
    ((swapAt v i (v.length - 1)).dropLast)[j]? =
      if j < v.length - 1 then (if j = i then v[v.length - 1]? else v[j]?) else none := by
  have hlast : v.length - 1 < v.length := by omega
  rw [List.getElem?_dropLast, swapAt_length]
  by_cases hj : j < v.length - 1
  · rw [if_pos hj, if_pos hj]
    unfold swapAt
    rw [List.getElem?_eq_getElem hi, List.getElem?_eq_getElem hlast]
    simp only
    rw [List.getElem?_set_ne (by omega), List.getElem?_set]
    by_cases hji : j = i
    · rw [if_pos hji, if_pos hji.symm, if_pos hi]
    · rw [if_neg hji, if_neg (fun e => hji e.symm)]
  · rw [if_neg hj, if_neg hj]

theorem consistent_injective {T : Type} {s : ComponentArray T} {expected : Nat → Option T}
    (h : Consistent s expected) {i j x : Nat}
    (hi : s.entities[i]? = some x) (hj : s.entities[j]? = some x) : i = j := by
  obtain ⟨_, _, _, h3, _, _⟩ := h
  have h1 := (h3 x i).mpr hi
  have h2 := (h3 x j).mpr hj
  rw [h1] at h2
  exact Option.some.inj h2

theorem getComponent_of_consistent {T : Type} {s : ComponentArray T}
    {expected : Nat → Option T} (h : Consistent s expected) (e : Nat) :
    getComponent e s = expected e := by
  obtain ⟨_, _, _, h3, h4, h5⟩ := h
  unfold getComponent
  cases hf : mapFind s.lookup e with
  | none => exact (h5 e hf).symm
  | some i => exact (h4 e i ((h3 e i).mp hf)).1

theorem addComponent_consistent {T : Type} (entity : Nat) (value : T) (s : ComponentArray T)
    (expected : Nat → Option T) (h : Consistent s expected) (hfresh : expected entity = none) :
    ∃ s1, addComponent entity value s = some s1 ∧
      Consistent s1 (lastAddedStep (.addComponent entity value) expected) := by
  obtain ⟨hlen, hlook, hnd, h3, h4, h5⟩ := h
  have hnone : mapFind s.lookup entity = none := by
    cases hf : mapFind s.lookup entity with
    | none => rfl
    | some i =>
      have := (h4 entity i ((h3 entity i).mp hf)).2
      rw [hfresh] at this
      cases this
  have hkey : entity ∉ s.lookup.map (fun entry => entry.1) := (mapFind_eq_none_iff _ _).mp hnone
  refine ⟨{ components := s.components ++ [value], entities := s.entities ++ [entity],
            lookup := mapAssign s.lookup entity s.components.length },
    by simp [addComponent, hnone], ?_, ?_, ?_, ?_, ?_, ?_⟩
  · simp [hlen]
  · simp [mapAssign_length_of_not_mem _ _ _ hkey, hlook]
  · exact mapAssign_keys_nodup _ _ _ hnd
  · intro e i
    simp only [mapFind_mapAssign]
    by_cases he : e = entity
    · subst he
      rw [if_pos rfl]
      constructor
      · intro hi
        have hi2 : s.components.length = i := Option.some.inj hi
        rw [List.getElem?_append_right (by omega)]
        simp [← hi2, hlen]
      · intro hi
        by_cases hlt : i < s.entities.length
        · rw [List.getElem?_append_left hlt] at hi
          have := (h3 e i).mpr hi
          rw [hnone] at this
          cases this
        · rw [List.getElem?_append_right (by omega)] at hi
          have hz : i - s.entities.length = 0 := by
            cases hd : i - s.entities.length with
            | zero => rfl
            | succ n => rw [hd] at hi; simp at hi
          congr 1
          omega
    · rw [if_neg he, h3]
      by_cases hlt : i < s.entities.length
      · rw [List.getElem?_append_left hlt]
      · rw [List.getElem?_append_right (by omega), List.getElem?_eq_none (by omega)]
        constructor
        · intro hi; cases hi
        · intro hi
          cases hd : i - s.entities.length with
          | zero => rw [hd] at hi; simp at hi; exact absurd hi.symm he
          | succ n => rw [hd] at hi; simp at hi
  · intro e i hi
    simp only [lastAddedStep]
    by_cases hlt : i < s.entities.length
    · rw [List.getElem?_append_left hlt] at hi
      have hne : e ≠ entity := by
        intro he
        have := (h3 e i).mpr hi
        rw [he, hnone] at this
        cases this
      rw [if_neg hne, List.getElem?_append_left (by omega)]
      exact h4 e i hi
    · rw [List.getElem?_append_right (by omega)] at hi
      cases hd : i - s.entities.length with
      | zero =>
        rw [hd] at hi
        simp at hi
        rw [if_pos hi.symm, List.getElem?_append_right (by omega)]
        have : i - s.components.length = 0 := by omega
        simp [this]
      | succ n => rw [hd] at hi; simp at hi
  · intro e he
    simp only [mapFind_mapAssign] at he
    simp only [lastAddedStep]
    by_cases hx : e = entity
    · rw [if_pos hx] at he
      cases he
    · rw [if_neg hx] at he ⊢
      exact h5 e he

theorem remove_absent_consistent {T : Type} (entity : Nat) (s : ComponentArray T)
    (expected : Nat → Option T) (h : Consistent s expected)
    (hnone : mapFind s.lookup entity = none) :
    Consistent (remove entity s) (lastAddedStep (.remove entity) expected) := by
  have hrem : remove entity s = s := by simp [remove, hnone]
  rw [hrem]
  obtain ⟨hlen, hlook, hnd, h3, h4, h5⟩ := h
  refine ⟨hlen, hlook, hnd, h3, ?_, ?_⟩
  · intro e i hi
    have hne : e ≠ entity := by
      intro he
      have := (h3 e i).mpr hi
      rw [he, hnone] at this
      cases this
    simp only [lastAddedStep, if_neg hne]
    exact h4 e i hi
  · intro e he
    simp only [lastAddedStep]
    by_cases hx : e = entity
    · rw [if_pos hx]
    · rw [if_neg hx]
      exact h5 e he

theorem remove_present_consistent {T : Type} (entity : Nat) (s : ComponentArray T)
    (expected : Nat → Option T) (h : Consistent s expected) (idx : Nat)
    (hfound : mapFind s.lookup entity = some idx) :
    Consistent (remove entity s) (lastAddedStep (.remove entity) expected) := by
  have hinj := @consistent_injective T s expected h
  obtain ⟨hlen, hlook, hnd, h3, h4, h5⟩ := h
  have hidx : s.entities[idx]? = some entity := (h3 entity idx).mp hfound
  have hidxlt : idx < s.entities.length := (List.getElem?_eq_some.mp hidx).1
  have hlastlt : s.entities.length - 1 < s.entities.length := by omega
  obtain ⟨moved, hmoved⟩ : ∃ moved, s.entities[s.entities.length - 1]? = some moved :=
    ⟨_, List.getElem?_eq_getElem hlastlt⟩
  have hmovedFind : mapFind s.lookup moved = some (s.entities.length - 1) :=
    (h3 moved _).mpr hmoved
  have hfirst : (swapAt s.entities idx (s.entities.length - 1))[idx]? = some moved := by
    rw [swapAt_getElem?_first _ _ hidxlt, hmoved]
  have hrem : remove entity s =
      { components := (swapAt s.components idx (s.components.length - 1)).dropLast,
        entities := (swapAt s.entities idx (s.entities.length - 1)).dropLast,
        lookup := mapErase (mapAssign s.lookup moved idx) entity } := by
    simp only [remove, hfound, hlen, hfirst]
  have hE : ∀ j, ((swapAt s.entities idx (s.entities.length - 1)).dropLast)[j]? =
      if j < s.entities.length - 1 then (if j = idx then some moved else s.entities[j]?)
      else none := by
    intro j
    rw [swapAt_dropLast_getElem? _ _ _ hidxlt, hmoved]
  have hC : ∀ j, ((swapAt s.components idx (s.components.length - 1)).dropLast)[j]? =
      if j < s.entities.length - 1 then
        (if j = idx then s.components[s.entities.length - 1]? else s.components[j]?)
      else none := by
    intro j
    rw [swapAt_dropLast_getElem? _ _ _ (by omega), hlen]
  have hF : ∀ x, mapFind (mapErase (mapAssign s.lookup moved idx) entity) x =
      if x = entity then none else if x = moved then some idx else mapFind s.lookup x := by
    intro x
    rw [mapFind_mapErase, mapFind_mapAssign]
  have hmovedKey : moved ∈ s.lookup.map (fun entry => entry.1) := by
    by_contra hc
    have := (mapFind_eq_none_iff _ _).mpr hc
    rw [hmovedFind] at this
    cases this
  have hentityKey : entity ∈ (mapAssign s.lookup moved idx).map (fun entry => entry.1) := by
    by_contra hc
    have := (mapFind_eq_none_iff _ _).mpr hc
    rw [mapFind_mapAssign] at this
    by_cases hx : entity = moved
    · rw [if_pos hx] at this
      cases this
    · rw [if_neg hx, hfound] at this
      cases this
  have hmovedNe : moved = entity → idx = s.entities.length - 1 := by
    intro he
    exact hinj hidx (he ▸ hmoved)
  rw [hrem]
  refine ⟨?_, ?_, ?_, ?_, ?_, ?_⟩
  · simp [swapAt_length, hlen]
  · have h1 := mapErase_length_of_mem (mapAssign s.lookup moved idx) entity
      (mapAssign_keys_nodup _ _ _ hnd) hentityKey
    have h2 := mapAssign_length_of_mem s.lookup moved idx hnd hmovedKey
    simp only [List.length_dropLast, swapAt_length]
    omega
  · exact mapErase_keys_nodup _ _ (mapAssign_keys_nodup _ _ _ hnd)
  · intro x i
    simp only [hF, hE]
    by_cases hxe : x = entity
    · rw [if_pos hxe]
      constructor
      · intro hc; cases hc
      · intro hi
        exfalso
        by_cases hlt : i < s.entities.length - 1
        · rw [if_pos hlt] at hi
          by_cases hii : i = idx
          · rw [if_pos hii] at hi
            have := hmovedNe ((Option.some.inj hi).trans hxe)
            omega
          · rw [if_neg hii] at hi
            exact hii (hinj (hxe ▸ hi) hidx)
        · rw [if_neg hlt] at hi
          cases hi
    · rw [if_neg hxe]
      by_cases hxm : x = moved
      · rw [if_pos hxm]
        have hidxne : idx < s.entities.length - 1 := by
          have : idx ≠ s.entities.length - 1 := by
            intro hc
            rw [hc, hmoved] at hidx
            exact hxe (hxm.trans (Option.some.inj hidx))
          omega
        constructor
        · intro hi
          have hi2 : idx = i := Option.some.inj hi
          rw [← hi2, if_pos hidxne, if_pos rfl, hxm]
        · intro hi
          by_cases hlt : i < s.entities.length - 1
          · rw [if_pos hlt] at hi
            by_cases hii : i = idx
            · rw [hii]
            · rw [if_neg hii] at hi
              have := hinj (hxm ▸ hi) hmoved
              omega
          · rw [if_neg hlt] at hi
            cases hi
      · rw [if_neg hxm, h3]
        constructor
        · intro hi
          have hilt : i < s.entities.length := (List.getElem?_eq_some.mp hi).1
          have hne1 : i ≠ s.entities.length - 1 := by
            intro hc
            rw [hc, hmoved] at hi
            exact hxm (Option.some.inj hi).symm
          have hne2 : i ≠ idx := by
            intro hc
            rw [hc, hidx] at hi
            exact hxe (Option.some.inj hi).symm
          rw [if_pos (by omega), if_neg hne2]
          exact hi
        · intro hi
          by_cases hlt : i < s.entities.length - 1
          · rw [if_pos hlt] at hi
            by_cases hii : i = idx
            · rw [if_pos hii] at hi
              exact absurd (Option.some.inj hi).symm hxm
            · rw [if_neg hii] at hi
              exact hi
          · rw [if_neg hlt] at hi
            cases hi
  · intro x i hi
    simp only [hE] at hi
    simp only [hC, lastAddedStep]
    by_cases hlt : i < s.entities.length - 1
    · rw [if_pos hlt] at hi ⊢
      by_cases hii : i = idx
      · rw [if_pos hii] at hi ⊢
        have hxm : moved = x := Option.some.inj hi
        have hxe : x ≠ entity := by
          intro hc
          have := hmovedNe (hxm.trans hc)
          omega
        rw [if_neg hxe, ← hxm]
        exact h4 moved _ hmoved
      · rw [if_neg hii] at hi ⊢
        have hxe : x ≠ entity := by
          intro hc
          exact hii (hinj (hc ▸ hi) hidx)
        rw [if_neg hxe]
        exact h4 x i hi
    · rw [if_neg hlt] at hi
      cases hi
  · intro x hx
    simp only [hF] at hx
    simp only [lastAddedStep]
    by_cases hxe : x = entity
    · rw [if_pos hxe]
    · rw [if_neg hxe] at hx ⊢
      by_cases hxm : x = moved
      · rw [if_pos hxm] at hx
        cases hx
      · rw [if_neg hxm] at hx
        exact h5 x hx

theorem remove_consistent {T : Type} (entity : Nat) (s : ComponentArray T)
    (expected : Nat → Option T) (h : Consistent s expected) :
    Consistent (remove entity s) (lastAddedStep (.remove entity) expected) := by
  cases hf : mapFind s.lookup entity with
  | none => exact remove_absent_consistent entity s expected h hf
  | some idx => exact remove_present_consistent entity s expected h idx hf

theorem run_consistent {T : Type} (ops : List (Op T)) (s : ComponentArray T)
    (expected : Nat → Option T) (h : Consistent s expected) (hfresh : AddsAreFresh ops expected) :
    ∃ s1, run ops s = some s1 ∧ Consistent s1 (lastAdded ops expected) := by
  induction ops generalizing s expected with
  | nil => exact ⟨s, rfl, h⟩
  | cons op ops ih =>
    cases op with
    | addComponent entity value =>
      obtain ⟨s1, hadd, hcons⟩ := addComponent_consistent entity value s expected h hfresh.1
      obtain ⟨s2, hrun, hfinal⟩ := ih s1 _ hcons hfresh.2
      exact ⟨s2, by simp only [run, hadd]; exact hrun, hfinal⟩
    | remove entity =>
      obtain ⟨s2, hrun, hfinal⟩ := ih (remove entity s) _ (remove_consistent entity s expected h)
        hfresh
      exact ⟨s2, by simp only [run]; exact hrun, hfinal⟩

theorem empty_consistent {T : Type} : Consistent ({} : ComponentArray T) (fun _ => none) := by
  refine ⟨rfl, rfl, List.nodup_nil, ?_, ?_, ?_⟩
  · intro e i
    simp [mapFind]
  · intro e i hi
    simp at hi
  · intro e _
    rfl

/-- C29: for every sequence of `addComponent` (each for an entity without a
component at that moment) and `remove` (for any entity) on an empty
component array, the operations all return, and afterwards `components`,
`entities` and `lookup` have the same size, `lookup[e] = i` exactly when
`entities[i] = e`, `getComponent(e)` is the component last added for `e` and
not removed since (null otherwise), and a further `remove` makes the removed
entity's component null and leaves `getComponent` of every other entity
unchanged. -/
theorem componentArray_consistent {T : Type} (ops : List (Op T))
    (hfresh : AddsAreFresh ops (fun _ => none)) :
    ∃ s, run ops {} = some s ∧
      s.components.length = s.entities.length ∧
      s.lookup.length = s.entities.length ∧
      (∀ e i : Nat, mapFind s.lookup e = some i ↔ s.entities[i]? = some e) ∧
      (∀ e : Nat, getComponent e s = lastAdded ops (fun _ => none) e) ∧
      (∀ removed : Nat, getComponent removed (remove removed s) = none) ∧
      (∀ removed other : Nat, other ≠ removed →
        getComponent other (remove removed s) = getComponent other s) := by
  obtain ⟨s, hrun, hcons⟩ := run_consistent ops {} (fun _ => none) empty_consistent hfresh
  refine ⟨s, hrun, hcons.1, hcons.2.1, hcons.2.2.2.1, ?_, ?_, ?_⟩
  · exact getComponent_of_consistent hcons
  · intro removed
    rw [getComponent_of_consistent (remove_consistent removed s _ hcons)]
    simp [lastAddedStep]
  · intro removed other hne
    rw [getComponent_of_consistent (remove_consistent removed s _ hcons),
      getComponent_of_consistent hcons]
    simp [lastAddedStep, hne]

/-- Witness for C29: three entities get a component, the first one is
removed; the last one, moved into the freed slot, keeps its value. -/
theorem componentArray_consistent_witness :
    AddsAreFresh [Op.addComponent 5 50, .addComponent 7 70, .addComponent 9 90, .remove 5]
      (fun _ => none) ∧
    ∃ s, run [Op.addComponent 5 50, .addComponent 7 70, .addComponent 9 90, .remove 5] {} =
        some s ∧
      s.entities = [9, 7] ∧ s.components = [90, 70] ∧
      getComponent 9 s = some 90 ∧ getComponent 7 s = some 70 ∧ getComponent 5 s = none := by
  have hfresh : AddsAreFresh
      [Op.addComponent 5 50, .addComponent 7 70, .addComponent 9 90, .remove 5]
      (fun _ => none) := ⟨rfl, rfl, rfl, trivial⟩
  obtain ⟨s, hrun, _, _, _, hget, _, _⟩ := componentArray_consistent _ hfresh
  have hs : s = { components := [90, 70], entities := [9, 7], lookup := [(9, 0), (7, 1)] } := by
    have hrun2 : run [Op.addComponent 5 50, .addComponent 7 70, .addComponent 9 90, .remove 5]
        {} = some { components := [90, 70], entities := [9, 7],
                    lookup := [(9, 0), (7, 1)] } := by
      rfl
    rw [hrun2] at hrun
    exact (Option.some.inj hrun).symm
  refine ⟨hfresh, s, hrun, by rw [hs], by rw [hs], ?_, ?_, ?_⟩
  · rw [hget]; rfl
  · rw [hget]; rfl
  · rw [hget]; rfl

end ComponentArray

namespace EntityManager

/-- C30: after `create` (id 1), `destroy(1)` and a second `destroy(1)`, the
free queue holds id 1 twice; the next two `create` calls both return 1, the
second while 1 is alive, and the alive list is `[1, 1]`. -/
theorem create_returns_alive_id_after_double_destroy :
    (create {}).1 = 1 ∧
    (destroy 1 (destroy 1 (create {}).2)) = { next_id := 2, alive := [], free_ids := [1, 1] } ∧
    (create (destroy 1 (destroy 1 (create {}).2))).1 = 1 ∧
    (create (destroy 1 (destroy 1 (create {}).2))).2.alive = [1] ∧
    (create (create (destroy 1 (destroy 1 (create {}).2))).2).1 = 1 ∧
    (create (create (destroy 1 (destroy 1 (create {}).2))).2).2.alive = [1, 1] := by
  decide

end EntityManager

end ECS

namespace Obj

/-- C27: for the text `v 0 0 0`, `v 1 0 0`, `v 0 1 0`, `f 1 2 9` (no normal
indices) the face normal computation subscripts `positions` with index 8
while the vector holds 3 elements. -/
theorem fromOBJ_reads_past_positions :
    (parse exampleOps faceBeyondPositions).reads.filter (fun r => !r.inBounds) =
      [⟨.positions, 8, 3⟩] ∧
    (parse exampleOps faceBeyondPositions).reads.take 3 =
      [⟨.positions, 0, 3⟩, ⟨.positions, 1, 3⟩, ⟨.positions, 8, 3⟩] := by
  decide

theorem findKey_append_of_some (unique extra : List (Key × Nat)) (key : Key) (i : Nat)
    (h : findKey unique key = some i) : findKey (unique ++ extra) key = some i := by
  unfold findKey at h ⊢
  rw [List.find?_append]
  cases hf : unique.find? (fun entry => entry.1 == key) with
  | none => rw [hf] at h; cases h
  | some entry => rw [hf] at h; exact h

theorem findKey_append_of_none (unique : List (Key × Nat)) (key : Key) (i : Nat)
    (h : findKey unique key = none) : findKey (unique ++ [(key, i)]) key = some i := by
  unfold findKey at h ⊢
  rw [List.find?_append]
  have hf : unique.find? (fun entry => entry.1 == key) = none := by
    cases hf : unique.find? (fun entry => entry.1 == key) with
    | none => rfl
    | some entry => rw [hf] at h; cases h
  rw [hf]
  simp

theorem findKey_bound (unique : List (Key × Nat)) (key : Key) (i bound : Nat)
    (hall : ∀ entry ∈ unique, entry.2 < bound) (h : findKey unique key = some i) : i < bound := by
  unfold findKey at h
  cases hf : unique.find? (fun entry => entry.1 == key) with
  | none => rw [hf] at h; cases h
  | some entry =>
    rw [hf] at h
    have hmem := List.mem_of_find?_eq_some hf
    have := hall entry hmem
    have hi : entry.2 = i := Option.some.inj h
    omega

theorem addKey_stable (ops : FloatOps) (normal : Vec3) (st : ObjState) (key other : Key)
    (i : Nat) (h : findKey st.unique other = some i) :
    findKey (addKey ops normal st key).unique other = some i := by
  unfold addKey
  cases hf : findKey st.unique key with
  | none => exact findKey_append_of_some _ _ _ _ h
  | some index => exact h

theorem addKey_pushes (ops : FloatOps) (normal : Vec3) (st : ObjState) (key : Key) :
    ∃ i, findKey (addKey ops normal st key).unique key = some i ∧
      (addKey ops normal st key).indices = st.indices ++ [i] := by
  unfold addKey
  cases hf : findKey st.unique key with
  | none => exact ⟨_, findKey_append_of_none _ _ _ hf, rfl⟩
  | some index => exact ⟨index, hf, rfl⟩

theorem addKey_bounded (ops : FloatOps) (normal : Vec3) (st : ObjState) (key : Key)
    (h : IndicesBounded st) : IndicesBounded (addKey ops normal st key) := by
  obtain ⟨h1, h2⟩ := h
  unfold addKey
  cases hf : findKey st.unique key with
  | none =>
    have hmod : st.vertices.length % UINT32_RANGE ≤ st.vertices.length := Nat.mod_le _ _
    refine ⟨?_, ?_⟩
    · intro idx hidx
      simp only [List.mem_append, List.mem_singleton, List.length_append, List.length_singleton]
        at hidx ⊢
      rcases hidx with hidx | hidx
      · have := h1 idx hidx; omega
      · omega
    · intro entry hentry
      simp only [List.mem_append, List.mem_singleton, List.length_append, List.length_singleton]
        at hentry ⊢
      rcases hentry with hentry | hentry
      · have := h2 entry hentry; omega
      · rw [hentry]; simp only; omega
  | some index =>
    refine ⟨?_, h2⟩
    intro idx hidx
    simp only [List.mem_append, List.mem_singleton] at hidx
    rcases hidx with hidx | hidx
    · exact h1 idx hidx
    · rw [hidx]; exact findKey_bound _ _ _ _ h2 hf

theorem foldl_addKey_bounded (ops : FloatOps) (normal : Vec3) (keys : List Key) (st : ObjState)
    (h : IndicesBounded st) : IndicesBounded (keys.foldl (addKey ops normal) st) := by
  induction keys generalizing st with
  | nil => exact h
  | cons key rest ih => exact ih _ (addKey_bounded ops normal st key h)

theorem foldl_addKey_stable (ops : FloatOps) (normal : Vec3) (keys : List Key) (st : ObjState)
    (other : Key) (i : Nat) (h : findKey st.unique other = some i) :
    findKey (keys.foldl (addKey ops normal) st).unique other = some i := by
  induction keys generalizing st with
  | nil => exact h
  | cons key rest ih => exact ih _ (addKey_stable ops normal st key other i h)

theorem foldl_addKey_indices (ops : FloatOps) (normal : Vec3) (keys : List Key) (st : ObjState) :
    (keys.foldl (addKey ops normal) st).indices =
      st.indices ++ keys.map (fun k =>
        (findKey (keys.foldl (addKey ops normal) st).unique k).getD 0) := by
  induction keys generalizing st with
  | nil => simp
  | cons key rest ih =>
    obtain ⟨i, hfind, hpush⟩ := addKey_pushes ops normal st key
    have hfinal := foldl_addKey_stable ops normal rest _ key i hfind
    simp only [List.foldl_cons, List.map_cons]
    rw [ih, hpush, hfinal]
    simp

theorem triangleKeys_length (face : List Key) : (triangleKeys face).length = 3 * (face.length - 2) := by
  unfold triangleKeys
  generalize face.length - 2 = n
  induction n with
  | zero => simp
  | succ n ih =>
    rw [List.range_succ, List.flatMap_append, List.length_append, ih]
    simp
    omega

theorem addFace_short (ops : FloatOps) (st : ObjState) (tokens : List FaceToken)
    (h : tokens.length < 3) : addFace ops st tokens = st := by
  simp [addFace, h]

theorem addFace_indices (ops : FloatOps) (st : ObjState) (tokens : List FaceToken)
    (h : 3 ≤ tokens.length) :
    (addFace ops st tokens).indices =
      st.indices ++ (triangleKeys (tokens.map (tokenKey st))).map (fun k =>
        (findKey (addFace ops st tokens).unique k).getD 0) := by
  have hlen : ¬ (tokens.map (tokenKey st)).length < 3 := by simp; omega
  simp only [addFace, hlen, if_false]
  rw [foldl_addKey_indices]

theorem addFace_bounded (ops : FloatOps) (st : ObjState) (tokens : List FaceToken)
    (h : IndicesBounded st) : IndicesBounded (addFace ops st tokens) := by
  unfold addFace
  dsimp only
  split
  · exact h
  · exact foldl_addKey_bounded ops _ _ _ h

theorem addFace_length (ops : FloatOps) (st : ObjState) (tokens : List FaceToken) :
    (addFace ops st tokens).indices.length =
      st.indices.length + (if 3 ≤ tokens.length then 3 * (tokens.length - 2) else 0) := by
  by_cases h : 3 ≤ tokens.length
  · rw [if_pos h, addFace_indices ops st tokens h, List.length_append, List.length_map,
      triangleKeys_length, List.length_map]
  · rw [if_neg h, addFace_short ops st tokens (by omega)]
    rfl

theorem step_bounded (ops : FloatOps) (st : ObjState) (line : ObjLine)
    (h : IndicesBounded st) : IndicesBounded (step ops st line) := by
  cases line with
  | f tokens => exact addFace_bounded ops st tokens h
  | v position color => exact h
  | vt uv => exact h
  | vn normal => exact h
  | other => exact h

theorem step_length_mod (ops : FloatOps) (st : ObjState) (line : ObjLine) :
    (step ops st line).indices.length % 3 = st.indices.length % 3 := by
  cases line with
  | f tokens =>
    simp only [step]
    rw [addFace_length]
    split <;> omega
  | v position color => rfl
  | vt uv => rfl
  | vn normal => rfl
  | other => rfl

theorem foldl_step_bounded (ops : FloatOps) (lines : List ObjLine) (st : ObjState)
    (h : IndicesBounded st) : IndicesBounded (lines.foldl (step ops) st) := by
  induction lines generalizing st with
  | nil => exact h
  | cons line rest ih => exact ih _ (step_bounded ops st line h)

theorem foldl_step_length_mod (ops : FloatOps) (lines : List ObjLine) (st : ObjState) :
    (lines.foldl (step ops) st).indices.length % 3 = st.indices.length % 3 := by
  induction lines generalizing st with
  | nil => rfl
  | cons line rest ih =>
    rw [List.foldl_cons, ih, step_length_mod]

/-- C28: for every OBJ text and whatever the float operations return, every
index of the mesh `fromOBJ` returns is smaller than the number of its
vertices and the index count is a multiple of 3; and from any parser state a
face line with fewer than 3 tokens leaves the indices as they are, while a
face line with `n >= 3` tokens appends exactly `3 (n - 2)` indices, which are
the indices of the vertices for tokens `0, i, i + 1` with `i = 1, ..., n - 2`
in this order. -/
theorem fromOBJ_indices_valid (ops : FloatOps) (lines : List ObjLine) :
    (∀ idx ∈ (fromOBJ ops lines).indices, idx < (fromOBJ ops lines).vertices.length) ∧
    (fromOBJ ops lines).indices.length % 3 = 0 ∧
    (∀ (st : ObjState) (tokens : List FaceToken),
      (tokens.length < 3 → (step ops st (.f tokens)).indices = st.indices) ∧
      (3 ≤ tokens.length →
        (step ops st (.f tokens)).indices.length =
          st.indices.length + 3 * (tokens.length - 2) ∧
        (step ops st (.f tokens)).indices =
          st.indices ++ (triangleKeys (tokens.map (tokenKey st))).map (fun k =>
            (findKey (step ops st (.f tokens)).unique k).getD 0))) := by
  have hinit : IndicesBounded ({} : ObjState) := by
    refine ⟨?_, ?_⟩ <;> intro x hx <;> simp at hx
  refine ⟨(foldl_step_bounded ops lines {} hinit).1, ?_, ?_⟩
  · have := foldl_step_length_mod ops lines {}
    simpa [fromOBJ, parse] using this
  · intro st tokens
    refine ⟨fun h => ?_, fun h => ⟨?_, ?_⟩⟩
    · simp only [step]
      rw [addFace_short ops st tokens h]
    · simp only [step]
      rw [addFace_length, if_pos h]
    · exact addFace_indices ops st tokens h

/-- Witness for C28: a square `f 1 2 3 4` becomes four vertices and the two
triangles `0 1 2` and `0 2 3`. -/
theorem fromOBJ_indices_valid_witness :
    (fromOBJ exampleOps squareLines).vertices.length = 4 ∧
    (fromOBJ exampleOps squareLines).indices = [0, 1, 2, 0, 2, 3] ∧
    (∀ idx ∈ (fromOBJ exampleOps squareLines).indices,
      idx < (fromOBJ exampleOps squareLines).vertices.length) ∧
    (fromOBJ exampleOps squareLines).indices.length % 3 = 0 :=
  ⟨by decide, by decide, (fromOBJ_indices_valid exampleOps squareLines).1,
   (fromOBJ_indices_valid exampleOps squareLines).2.1⟩

end Obj

end Engine
